import Mathlib

/-!
# Merlin event distribution core (module/hooks.c)

A shallow embedding of the hook layer of the Merlin event broker module.
The static variables of hooks.c form `State`; everything the file reads from
the rest of the module and from the monitoring core (node tables, the codec,
the IPC sender, header constants) is gathered in `Env`.  Calls that leave the
file (IPC sends, network sends, callback registration, ...) are recorded, in
program order, in `State.trace`.
-/

namespace Merlin

set_option linter.unusedVariables false

/-! ## Data model -/

/-- The fields of `merlin_header` that hooks.c reads or writes. The remaining
header fields are zeroed by `memset` in `merlin_mod_hook` and never touched here. -/
structure merlin_header where
  type : Nat
  code : Nat
  selection : Nat
  len : Nat
deriving DecidableEq, Repr

/-- A `merlin_event`: header plus body bytes. A body offset past the end of the
list reads as 0, as in the zero-initialised C array. -/
structure merlin_event where
  hdr : merlin_header
  body : List Nat
deriving DecidableEq, Repr

/-- The value `memset(&pkt, 0, sizeof(pkt))` leaves behind. -/
def zero_event : merlin_event := { hdr := { type := 0, code := 0, selection := 0, len := 0 }, body := [] }

/-- A `merlin_node` as far as hooks.c looks at it. -/
structure merlin_node where
  id : Nat
  type : Nat
  flags : Nat
  name : String
deriving DecidableEq, Repr

/-- A `merlin_node *` as compared against `&ipc`: either the self node or another node. -/
inductive node_ptr where
  | ipc
  | node (n : merlin_node)
deriving DecidableEq, Repr

/-- The `check_result` fields copied by `check_result_to_state`. The `double`
latency is carried as an uninterpreted value: it is only copied. -/
structure check_result where
  check_type : Nat
  check_options : Nat
  scheduled_check : Nat
  latency : Nat
  return_code : Int
  output : Option String
  start_time_sec : Int
deriving DecidableEq, Repr

/-- The `monitored_object_state` fields written in hooks.c. -/
structure monitored_object_state where
  check_type : Nat
  checks_enabled : Nat
  should_be_scheduled : Nat
  latency : Nat
  current_state : Int
  plugin_output : Option String
  last_check : Int
  execution_time : Nat
deriving DecidableEq, Repr

/-- The value of a `monitored_object_state` after `memset(.., 0, ..)`. -/
def zero_state : monitored_object_state :=
  { check_type := 0, checks_enabled := 0, should_be_scheduled := 0, latency := 0,
    current_state := 0, plugin_output := none, last_check := 0, execution_time := 0 }

/-- A `host` object of the monitoring core: its address (for the pointer
comparisons of hooks.c) and the fields the hooks read. `state_vars` stands for
the object fields that the `MOD2NET_STATE_VARS` macro copies. -/
structure host where
  ptr : Nat
  name : String
  id : Nat
  check_type : Nat
  execution_time : Nat
  last_check : Int
  state_vars : monitored_object_state
deriving DecidableEq, Repr

/-- A `service` object of the monitoring core, see `host`. -/
structure service where
  ptr : Nat
  host_name : String
  description : String
  id : Nat
  check_type : Nat
  execution_time : Nat
  last_check : Int
  state_vars : monitored_object_state
deriving DecidableEq, Repr

structure merlin_host_status where
  name : String
  nebattr : Int
  state : monitored_object_state
deriving DecidableEq, Repr

structure merlin_service_status where
  host_name : String
  service_description : String
  nebattr : Int
  state : monitored_object_state
deriving DecidableEq, Repr

structure nebstruct_host_check_data where
  type : Nat
  attr : Int
  object_ptr : host
  check_type : Nat
  end_time_sec : Int
  check_result_ptr : Option check_result
deriving DecidableEq, Repr

structure nebstruct_service_check_data where
  type : Nat
  attr : Int
  object_ptr : service
  check_type : Nat
  end_time_sec : Int
  check_result_ptr : Option check_result
deriving DecidableEq, Repr

structure nebstruct_comment_data where
  type : Nat
  entry_type : Nat
  comment_type : Nat
  expires : Nat
  persistent : Nat
  host_name : String
  service_description : Option String
  author_name : String
  comment_data : String
deriving DecidableEq, Repr

structure nebstruct_downtime_data where
  type : Nat
  attr : Nat
  host_name : String
deriving DecidableEq, Repr

structure nebstruct_contact_notification_method_data where
  type : Nat
deriving DecidableEq, Repr

/-- The fields that `hook_notification` reads through `ds->object_ptr`, whichever
of `host *` or `service *` the pointer is cast to. -/
structure notified_object where
  id : Nat
  check_type : Nat
  current_notification_number : Nat
  no_more_notifications : Int
  last_notification : Int
  next_notification : Int
deriving DecidableEq, Repr

/-- The notification callback data. `object_ptr` is the object the pointer
refers to when the callback is delivered; `object_ptr_int` is the integer that
the NOTIFICATION_END branch stores into the pointer field in its place. -/
structure nebstruct_notification_data where
  type : Nat
  notification_type : Nat
  reason_type : Nat
  object_ptr : notified_object
  object_ptr_int : Nat
  start_time_sec : Int
  start_time_usec : Int
  end_time_sec : Int
  end_time_usec : Int
  host_name : Option String
  service_description : Option String
  output : Option String
  ack_author : Option String
  ack_data : Option String
deriving DecidableEq, Repr
/-- The external command ids named in the `switch` of `hook_external_command`;
`CMD_UNLISTED` stands for every command id that has no `case` label there. -/
inductive ext_cmd where
  | CMD_DEL_HOST_COMMENT
  | CMD_DEL_SVC_COMMENT
  | CMD_ADD_HOST_COMMENT
  | CMD_ADD_SVC_COMMENT
  | CMD_DEL_HOST_DOWNTIME
  | CMD_DEL_SVC_DOWNTIME
  | CMD_ACKNOWLEDGE_HOST_PROBLEM
  | CMD_ACKNOWLEDGE_SVC_PROBLEM
  | CMD_SCHEDULE_HOST_DOWNTIME
  | CMD_SCHEDULE_SVC_DOWNTIME
  | CMD_SCHEDULE_AND_PROPAGATE_TRIGGERED_HOST_DOWNTIME
  | CMD_SCHEDULE_AND_PROPAGATE_HOST_DOWNTIME
  | CMD_ENABLE_SVC_CHECK
  | CMD_DISABLE_SVC_CHECK
  | CMD_SCHEDULE_SVC_CHECK
  | CMD_DELAY_SVC_NOTIFICATION
  | CMD_DELAY_HOST_NOTIFICATION
  | CMD_ENABLE_HOST_SVC_CHECKS
  | CMD_DISABLE_HOST_SVC_CHECKS
  | CMD_SCHEDULE_HOST_SVC_CHECKS
  | CMD_DELAY_HOST_SVC_NOTIFICATIONS
  | CMD_DEL_ALL_HOST_COMMENTS
  | CMD_DEL_ALL_SVC_COMMENTS
  | CMD_ENABLE_SVC_NOTIFICATIONS
  | CMD_DISABLE_SVC_NOTIFICATIONS
  | CMD_ENABLE_HOST_NOTIFICATIONS
  | CMD_DISABLE_HOST_NOTIFICATIONS
  | CMD_ENABLE_HOST_SVC_NOTIFICATIONS
  | CMD_DISABLE_HOST_SVC_NOTIFICATIONS
  | CMD_ENABLE_PASSIVE_SVC_CHECKS
  | CMD_DISABLE_PASSIVE_SVC_CHECKS
  | CMD_ENABLE_HOST_EVENT_HANDLER
  | CMD_DISABLE_HOST_EVENT_HANDLER
  | CMD_ENABLE_SVC_EVENT_HANDLER
  | CMD_DISABLE_SVC_EVENT_HANDLER
  | CMD_ENABLE_HOST_CHECK
  | CMD_DISABLE_HOST_CHECK
  | CMD_START_OBSESSING_OVER_SVC_CHECKS
  | CMD_STOP_OBSESSING_OVER_SVC_CHECKS
  | CMD_REMOVE_HOST_ACKNOWLEDGEMENT
  | CMD_REMOVE_SVC_ACKNOWLEDGEMENT
  | CMD_SCHEDULE_FORCED_HOST_SVC_CHECKS
  | CMD_SCHEDULE_FORCED_SVC_CHECK
  | CMD_ENABLE_HOST_FLAP_DETECTION
  | CMD_DISABLE_HOST_FLAP_DETECTION
  | CMD_ENABLE_SVC_FLAP_DETECTION
  | CMD_DISABLE_SVC_FLAP_DETECTION
  | CMD_DISABLE_PASSIVE_HOST_CHECKS
  | CMD_SCHEDULE_HOST_CHECK
  | CMD_SCHEDULE_FORCED_HOST_CHECK
  | CMD_CHANGE_HOST_EVENT_HANDLER
  | CMD_CHANGE_SVC_EVENT_HANDLER
  | CMD_CHANGE_HOST_CHECK_COMMAND
  | CMD_CHANGE_SVC_CHECK_COMMAND
  | CMD_CHANGE_NORMAL_HOST_CHECK_INTERVAL
  | CMD_CHANGE_NORMAL_SVC_CHECK_INTERVAL
  | CMD_CHANGE_RETRY_SVC_CHECK_INTERVAL
  | CMD_CHANGE_MAX_HOST_CHECK_ATTEMPTS
  | CMD_CHANGE_MAX_SVC_CHECK_ATTEMPTS
  | CMD_ENABLE_HOST_AND_CHILD_NOTIFICATIONS
  | CMD_DISABLE_HOST_AND_CHILD_NOTIFICATIONS
  | CMD_ENABLE_HOST_FRESHNESS_CHECKS
  | CMD_DISABLE_HOST_FRESHNESS_CHECKS
  | CMD_SET_HOST_NOTIFICATION_NUMBER
  | CMD_SET_SVC_NOTIFICATION_NUMBER
  | CMD_CHANGE_HOST_CHECK_TIMEPERIOD
  | CMD_CHANGE_SVC_CHECK_TIMEPERIOD
  | CMD_CHANGE_CUSTOM_HOST_VAR
  | CMD_CHANGE_CUSTOM_SVC_VAR
  | CMD_ENABLE_CONTACT_HOST_NOTIFICATIONS
  | CMD_DISABLE_CONTACT_HOST_NOTIFICATIONS
  | CMD_ENABLE_CONTACT_SVC_NOTIFICATIONS
  | CMD_DISABLE_CONTACT_SVC_NOTIFICATIONS
  | CMD_ENABLE_CONTACTGROUP_HOST_NOTIFICATIONS
  | CMD_DISABLE_CONTACTGROUP_HOST_NOTIFICATIONS
  | CMD_ENABLE_CONTACTGROUP_SVC_NOTIFICATIONS
  | CMD_DISABLE_CONTACTGROUP_SVC_NOTIFICATIONS
  | CMD_CHANGE_RETRY_HOST_CHECK_INTERVAL
  | CMD_CHANGE_HOST_NOTIFICATION_TIMEPERIOD
  | CMD_CHANGE_SVC_NOTIFICATION_TIMEPERIOD
  | CMD_CHANGE_CONTACT_HOST_NOTIFICATION_TIMEPERIOD
  | CMD_CHANGE_CONTACT_SVC_NOTIFICATION_TIMEPERIOD
  | CMD_CHANGE_HOST_MODATTR
  | CMD_CHANGE_SVC_MODATTR
  | CMD_SEND_CUSTOM_HOST_NOTIFICATION
  | CMD_PROCESS_HOST_CHECK_RESULT
  | CMD_SEND_CUSTOM_SVC_NOTIFICATION
  | CMD_PROCESS_SERVICE_CHECK_RESULT
  | CMD_SCHEDULE_HOSTGROUP_HOST_DOWNTIME
  | CMD_SCHEDULE_HOSTGROUP_SVC_DOWNTIME
  | CMD_ENABLE_HOSTGROUP_SVC_NOTIFICATIONS
  | CMD_DISABLE_HOSTGROUP_SVC_NOTIFICATIONS
  | CMD_ENABLE_HOSTGROUP_HOST_NOTIFICATIONS
  | CMD_DISABLE_HOSTGROUP_HOST_NOTIFICATIONS
  | CMD_ENABLE_HOSTGROUP_SVC_CHECKS
  | CMD_DISABLE_HOSTGROUP_SVC_CHECKS
  | CMD_ENABLE_HOSTGROUP_HOST_CHECKS
  | CMD_DISABLE_HOSTGROUP_HOST_CHECKS
  | CMD_ENABLE_HOSTGROUP_PASSIVE_SVC_CHECKS
  | CMD_DISABLE_HOSTGROUP_PASSIVE_SVC_CHECKS
  | CMD_ENABLE_HOSTGROUP_PASSIVE_HOST_CHECKS
  | CMD_DISABLE_HOSTGROUP_PASSIVE_HOST_CHECKS
  | CMD_SCHEDULE_SERVICEGROUP_HOST_DOWNTIME
  | CMD_SCHEDULE_SERVICEGROUP_SVC_DOWNTIME
  | CMD_ENABLE_SERVICEGROUP_SVC_NOTIFICATIONS
  | CMD_DISABLE_SERVICEGROUP_SVC_NOTIFICATIONS
  | CMD_ENABLE_SERVICEGROUP_HOST_NOTIFICATIONS
  | CMD_DISABLE_SERVICEGROUP_HOST_NOTIFICATIONS
  | CMD_ENABLE_SERVICEGROUP_SVC_CHECKS
  | CMD_DISABLE_SERVICEGROUP_SVC_CHECKS
  | CMD_ENABLE_SERVICEGROUP_HOST_CHECKS
  | CMD_DISABLE_SERVICEGROUP_HOST_CHECKS
  | CMD_ENABLE_SERVICEGROUP_PASSIVE_SVC_CHECKS
  | CMD_DISABLE_SERVICEGROUP_PASSIVE_SVC_CHECKS
  | CMD_ENABLE_SERVICEGROUP_PASSIVE_HOST_CHECKS
  | CMD_DISABLE_SERVICEGROUP_PASSIVE_HOST_CHECKS
  | CMD_UNLISTED
deriving DecidableEq, Repr

/-- The groups of `case` labels of the `switch` in `hook_external_command`, in source order. -/
inductive cmd_case where
  | comment_cmd
  | del_downtime
  | per_object
  | host_owner
  | service_owner
  | hostgroup
  | servicegroup
  | dflt
deriving DecidableEq, Repr

/-- Which group of `case` labels a command id falls under. -/
def command_case : ext_cmd → cmd_case
  | .CMD_DEL_HOST_COMMENT | .CMD_DEL_SVC_COMMENT | .CMD_ADD_HOST_COMMENT
  | .CMD_ADD_SVC_COMMENT => .comment_cmd
  | .CMD_DEL_HOST_DOWNTIME | .CMD_DEL_SVC_DOWNTIME => .del_downtime
  | .CMD_ACKNOWLEDGE_HOST_PROBLEM | .CMD_ACKNOWLEDGE_SVC_PROBLEM | .CMD_SCHEDULE_HOST_DOWNTIME
  | .CMD_SCHEDULE_SVC_DOWNTIME | .CMD_SCHEDULE_AND_PROPAGATE_TRIGGERED_HOST_DOWNTIME | .CMD_SCHEDULE_AND_PROPAGATE_HOST_DOWNTIME
  | .CMD_ENABLE_SVC_CHECK | .CMD_DISABLE_SVC_CHECK | .CMD_SCHEDULE_SVC_CHECK
  | .CMD_DELAY_SVC_NOTIFICATION | .CMD_DELAY_HOST_NOTIFICATION | .CMD_ENABLE_HOST_SVC_CHECKS
  | .CMD_DISABLE_HOST_SVC_CHECKS | .CMD_SCHEDULE_HOST_SVC_CHECKS | .CMD_DELAY_HOST_SVC_NOTIFICATIONS
  | .CMD_DEL_ALL_HOST_COMMENTS | .CMD_DEL_ALL_SVC_COMMENTS | .CMD_ENABLE_SVC_NOTIFICATIONS
  | .CMD_DISABLE_SVC_NOTIFICATIONS | .CMD_ENABLE_HOST_NOTIFICATIONS | .CMD_DISABLE_HOST_NOTIFICATIONS
  | .CMD_ENABLE_HOST_SVC_NOTIFICATIONS | .CMD_DISABLE_HOST_SVC_NOTIFICATIONS | .CMD_ENABLE_PASSIVE_SVC_CHECKS
  | .CMD_DISABLE_PASSIVE_SVC_CHECKS | .CMD_ENABLE_HOST_EVENT_HANDLER | .CMD_DISABLE_HOST_EVENT_HANDLER
  | .CMD_ENABLE_SVC_EVENT_HANDLER | .CMD_DISABLE_SVC_EVENT_HANDLER | .CMD_ENABLE_HOST_CHECK
  | .CMD_DISABLE_HOST_CHECK | .CMD_START_OBSESSING_OVER_SVC_CHECKS | .CMD_STOP_OBSESSING_OVER_SVC_CHECKS
  | .CMD_REMOVE_HOST_ACKNOWLEDGEMENT | .CMD_REMOVE_SVC_ACKNOWLEDGEMENT | .CMD_SCHEDULE_FORCED_HOST_SVC_CHECKS
  | .CMD_SCHEDULE_FORCED_SVC_CHECK | .CMD_ENABLE_HOST_FLAP_DETECTION | .CMD_DISABLE_HOST_FLAP_DETECTION
  | .CMD_ENABLE_SVC_FLAP_DETECTION | .CMD_DISABLE_SVC_FLAP_DETECTION | .CMD_DISABLE_PASSIVE_HOST_CHECKS
  | .CMD_SCHEDULE_HOST_CHECK | .CMD_SCHEDULE_FORCED_HOST_CHECK | .CMD_CHANGE_HOST_EVENT_HANDLER
  | .CMD_CHANGE_SVC_EVENT_HANDLER | .CMD_CHANGE_HOST_CHECK_COMMAND | .CMD_CHANGE_SVC_CHECK_COMMAND
  | .CMD_CHANGE_NORMAL_HOST_CHECK_INTERVAL | .CMD_CHANGE_NORMAL_SVC_CHECK_INTERVAL | .CMD_CHANGE_RETRY_SVC_CHECK_INTERVAL
  | .CMD_CHANGE_MAX_HOST_CHECK_ATTEMPTS | .CMD_CHANGE_MAX_SVC_CHECK_ATTEMPTS | .CMD_ENABLE_HOST_AND_CHILD_NOTIFICATIONS
  | .CMD_DISABLE_HOST_AND_CHILD_NOTIFICATIONS | .CMD_ENABLE_HOST_FRESHNESS_CHECKS | .CMD_DISABLE_HOST_FRESHNESS_CHECKS
  | .CMD_SET_HOST_NOTIFICATION_NUMBER | .CMD_SET_SVC_NOTIFICATION_NUMBER | .CMD_CHANGE_HOST_CHECK_TIMEPERIOD
  | .CMD_CHANGE_SVC_CHECK_TIMEPERIOD | .CMD_CHANGE_CUSTOM_HOST_VAR | .CMD_CHANGE_CUSTOM_SVC_VAR
  | .CMD_ENABLE_CONTACT_HOST_NOTIFICATIONS | .CMD_DISABLE_CONTACT_HOST_NOTIFICATIONS | .CMD_ENABLE_CONTACT_SVC_NOTIFICATIONS
  | .CMD_DISABLE_CONTACT_SVC_NOTIFICATIONS | .CMD_ENABLE_CONTACTGROUP_HOST_NOTIFICATIONS | .CMD_DISABLE_CONTACTGROUP_HOST_NOTIFICATIONS
  | .CMD_ENABLE_CONTACTGROUP_SVC_NOTIFICATIONS | .CMD_DISABLE_CONTACTGROUP_SVC_NOTIFICATIONS | .CMD_CHANGE_RETRY_HOST_CHECK_INTERVAL
  | .CMD_CHANGE_HOST_NOTIFICATION_TIMEPERIOD | .CMD_CHANGE_SVC_NOTIFICATION_TIMEPERIOD | .CMD_CHANGE_CONTACT_HOST_NOTIFICATION_TIMEPERIOD
  | .CMD_CHANGE_CONTACT_SVC_NOTIFICATION_TIMEPERIOD | .CMD_CHANGE_HOST_MODATTR | .CMD_CHANGE_SVC_MODATTR => .per_object
  | .CMD_SEND_CUSTOM_HOST_NOTIFICATION | .CMD_PROCESS_HOST_CHECK_RESULT => .host_owner
  | .CMD_SEND_CUSTOM_SVC_NOTIFICATION | .CMD_PROCESS_SERVICE_CHECK_RESULT => .service_owner
  | .CMD_SCHEDULE_HOSTGROUP_HOST_DOWNTIME | .CMD_SCHEDULE_HOSTGROUP_SVC_DOWNTIME | .CMD_ENABLE_HOSTGROUP_SVC_NOTIFICATIONS
  | .CMD_DISABLE_HOSTGROUP_SVC_NOTIFICATIONS | .CMD_ENABLE_HOSTGROUP_HOST_NOTIFICATIONS | .CMD_DISABLE_HOSTGROUP_HOST_NOTIFICATIONS
  | .CMD_ENABLE_HOSTGROUP_SVC_CHECKS | .CMD_DISABLE_HOSTGROUP_SVC_CHECKS | .CMD_ENABLE_HOSTGROUP_HOST_CHECKS
  | .CMD_DISABLE_HOSTGROUP_HOST_CHECKS | .CMD_ENABLE_HOSTGROUP_PASSIVE_SVC_CHECKS | .CMD_DISABLE_HOSTGROUP_PASSIVE_SVC_CHECKS
  | .CMD_ENABLE_HOSTGROUP_PASSIVE_HOST_CHECKS | .CMD_DISABLE_HOSTGROUP_PASSIVE_HOST_CHECKS => .hostgroup
  | .CMD_SCHEDULE_SERVICEGROUP_HOST_DOWNTIME | .CMD_SCHEDULE_SERVICEGROUP_SVC_DOWNTIME | .CMD_ENABLE_SERVICEGROUP_SVC_NOTIFICATIONS
  | .CMD_DISABLE_SERVICEGROUP_SVC_NOTIFICATIONS | .CMD_ENABLE_SERVICEGROUP_HOST_NOTIFICATIONS | .CMD_DISABLE_SERVICEGROUP_HOST_NOTIFICATIONS
  | .CMD_ENABLE_SERVICEGROUP_SVC_CHECKS | .CMD_DISABLE_SERVICEGROUP_SVC_CHECKS | .CMD_ENABLE_SERVICEGROUP_HOST_CHECKS
  | .CMD_DISABLE_SERVICEGROUP_HOST_CHECKS | .CMD_ENABLE_SERVICEGROUP_PASSIVE_SVC_CHECKS | .CMD_DISABLE_SERVICEGROUP_PASSIVE_SVC_CHECKS
  | .CMD_ENABLE_SERVICEGROUP_PASSIVE_HOST_CHECKS | .CMD_DISABLE_SERVICEGROUP_PASSIVE_HOST_CHECKS => .servicegroup
  | .CMD_UNLISTED => .dflt

structure nebstruct_external_command_data where
  type : Nat
  command_type : ext_cmd
  command_args : Option String
deriving DecidableEq, Repr

/-- The `void *data` handed to a hook and to the codec: one of the callback
structures the hooks cast it to, one of the status objects built by the
check-result hooks, or any other callback structure (`other`), which hooks.c
passes on without looking inside. -/
inductive event_body where
  | notification (ds : nebstruct_notification_data)
  | contact_notification_method (ds : nebstruct_contact_notification_method_data)
  | host_check (ds : nebstruct_host_check_data)
  | service_check (ds : nebstruct_service_check_data)
  | comment (ds : nebstruct_comment_data)
  | downtime (ds : nebstruct_downtime_data)
  | external_command (ds : nebstruct_external_command_data)
  | host_status (st : merlin_host_status)
  | service_status (st : merlin_service_status)
  | other (tag : Nat)
deriving DecidableEq, Repr

/-- Which kind of check an expiration event is scheduled for. -/
inductive check_kind where
  | HOST_CHECK
  | SERVICE_CHECK
deriving DecidableEq, Repr

/-- A call that leaves hooks.c, or a write to an object of the monitoring core. -/
inductive effect where
  | ipc_send_event (pkt : merlin_event)
  | net_sendto (node : merlin_node) (pkt : merlin_event)
  | node_send_ctrl_active
  | schedule_expiration_event (kind : check_kind) (node : node_ptr) (obj : Nat)
  | unexpire_host (obj : Nat)
  | unexpire_service (obj : Nat)
  | set_host_check_node (node : node_ptr) (obj : Nat) (passive : Bool)
  | set_service_check_node (node : node_ptr) (obj : Nat) (passive : Bool)
  | set_last_check (obj : Nat) (t : Int)
  | neb_register_callback (type : Nat)
  | neb_deregister_callback (type : Nat)
  | lwarn_flooded
deriving DecidableEq, Repr

/-- One bucket of `merlin_notify_stats`. -/
structure merlin_notify_stats where
  sent : Nat
  master : Nat
  peer : Nat
deriving DecidableEq, Repr

/-- A rich callback result of the monitoring core: return code and description. -/
structure neb_cb_result where
  return_code : Int
  description : Option String
deriving DecidableEq, Repr

/-! ## Constants of the monitoring core API (naemon) -/

def NEB_OK : Int := 0
def NEBERROR_CALLBACKCANCEL : Int := 207

def NEBCALLBACK_PROCESS_DATA : Nat := 0
def NEBCALLBACK_NOTIFICATION_DATA : Nat := 5
def NEBCALLBACK_SERVICE_CHECK_DATA : Nat := 6
def NEBCALLBACK_HOST_CHECK_DATA : Nat := 7
def NEBCALLBACK_COMMENT_DATA : Nat := 8
def NEBCALLBACK_DOWNTIME_DATA : Nat := 9
def NEBCALLBACK_FLAPPING_DATA : Nat := 10
def NEBCALLBACK_PROGRAM_STATUS_DATA : Nat := 11
def NEBCALLBACK_HOST_STATUS_DATA : Nat := 12
def NEBCALLBACK_SERVICE_STATUS_DATA : Nat := 13
def NEBCALLBACK_EXTERNAL_COMMAND_DATA : Nat := 17
def NEBCALLBACK_CONTACT_NOTIFICATION_METHOD_DATA : Nat := 21
def NEBCALLBACK_NUMITEMS : Nat := 26

def NEBTYPE_NOTIFICATION_START : Nat := 600
def NEBTYPE_NOTIFICATION_END : Nat := 601
def NEBTYPE_CONTACTNOTIFICATIONMETHOD_END : Nat := 605
def NEBTYPE_SERVICECHECK_PROCESSED : Nat := 701
def NEBTYPE_SERVICECHECK_ASYNC_PRECHECK : Nat := 704
def NEBTYPE_HOSTCHECK_PROCESSED : Nat := 801
def NEBTYPE_HOSTCHECK_ASYNC_PRECHECK : Nat := 804
def NEBTYPE_HOSTCHECK_SYNC_PRECHECK : Nat := 805
def NEBTYPE_COMMENT_ADD : Nat := 900
def NEBTYPE_COMMENT_DELETE : Nat := 901
def NEBTYPE_COMMENT_LOAD : Nat := 902
def NEBTYPE_EXTERNALCOMMAND_START : Nat := 1400

def NEBATTR_DOWNTIME_STOP_CANCELLED : Nat := 2

def HOST_NOTIFICATION : Nat := 0
def SERVICE_NOTIFICATION : Nat := 1

def NOTIFICATION_NORMAL : Nat := 0
def NOTIFICATION_ACKNOWLEDGEMENT : Nat := 1
def NOTIFICATION_CUSTOM : Nat := 8

def CHECK_TYPE_PASSIVE : Nat := 1

def DOWNTIME_COMMENT : Nat := 2
def ACKNOWLEDGEMENT_COMMENT : Nat := 4

/-! ## Constants defined in hooks.c -/

def DEST_DB : Nat := 1
def DEST_NETWORK : Nat := 2

/-! ## The surroundings of hooks.c -/

/-- Everything hooks.c takes from the rest of the module and from the monitoring
core at the time of a call. The constants and the `magic_destination` macro come
from headers of the module that are not part of the sources at hand, so they are
parameters here, as are the external functions. `nodes_by_sel_id` returns the
items of the linked list, `[]` for a NULL list. `ipc_send_event` is given the
trace so far, so that its result may differ from call to call. -/
structure Env where
  MAGIC_NONET : Nat
  DEST_BROADCAST : Nat
  DEST_PEERS_MASTERS : Nat
  DEST_PEERS_POLLERS : Nat
  DEST_MASTERS : Nat
  DEST_PEERS : Nat
  DEST_POLLERS : Nat
  CTRL_GENERIC : Nat
  CTRL_PACKET : Nat
  HDR_SIZE : Nat
  MODE_PEER : Nat
  MODE_POLLER : Nat
  MERLIN_NODE_NOTIFIES : Nat
  magic_destination : merlin_event → Bool
  num_nodes : Nat
  num_masters : Nat
  num_peers : Nat
  num_pollers : Nat
  node_table : Nat → merlin_node
  peer_table : Nat → merlin_node
  poller_table : Nat → merlin_node
  nodes_by_sel_id : Nat → List merlin_node
  node_by_id : Nat → Option merlin_node
  node_selection_by_hostname : String → Option Nat
  node_selection_by_name : String → Option Nat
  ipc_flags : Nat
  ipc_peer_id : Nat
  ipc_active_peers : Nat
  online_masters : Nat
  merlin_sender : Option merlin_node
  merlin_recv_host : Option Nat
  merlin_recv_service : Option Nat
  use_database : Bool
  daemon_wants : Nat → Bool
  merlin_encode_event : merlin_event → event_body → Nat × List Nat
  ipc_send_event : List effect → merlin_event → Int
  assigned_peer : Nat → Nat → Nat
  pgroup_host_node : Nat → node_ptr
  pgroup_service_node : Nat → node_ptr
  find_host : String → Option host
  find_service : String → String → Option service

/-- The static variables of hooks.c, the `merlin_notify_stats` table it updates,
and the trace of calls made so far. `last_obj_host` and `last_obj_service` are
the function-local statics `last_obj` of the two status senders, `last_pulse` and
`last_flood_warning` those of `merlin_mod_hook`. -/
structure State where
  block_comment : Option nebstruct_comment_data
  check_dupes : Bool
  last_pkt : merlin_event
  dupes : Nat
  dupe_bytes : Nat
  ev_mask : Nat
  tmp_notif_pkt : merlin_event
  tmp_notif_data : Option nebstruct_notification_data
  service_checks_self : Nat
  host_checks_self : Nat
  last_obj_host : Option Nat
  last_obj_service : Option Nat
  notify_stats : Nat × Nat × Nat → merlin_notify_stats
  last_pulse : Int
  last_flood_warning : Int
  trace : List effect

/-- The state of a freshly loaded module: all statics zero, nothing traced. -/
def State.init : State :=
  { block_comment := none, check_dupes := false, last_pkt := zero_event, dupes := 0,
    dupe_bytes := 0, ev_mask := 0, tmp_notif_pkt := zero_event, tmp_notif_data := none,
    service_checks_self := 0, host_checks_self := 0, last_obj_host := none,
    last_obj_service := none, notify_stats := fun _ => { sent := 0, master := 0, peer := 0 },
    last_pulse := 0, last_flood_warning := 0, trace := [] }

/-- Wrap-around of `unsigned long long` counters. -/
def u64 (n : Nat) : Nat := n % 18446744073709551616

/-- Wrap-around of `uint` arithmetic. -/
def u32 (n : Nat) : Nat := n % 4294967296

/-! ## Duplicate detection and the dispatch engine -/

/-- The `packet_size` macro: header size plus body length. -/
def packet_size (env : Env) (pkt : merlin_event) : Nat := pkt.hdr.len + env.HDR_SIZE

/-- The first `n` bytes of a packet body. -/
def body_bytes (b : List Nat) (n : Nat) : List Nat := (List.range n).map (fun i => b.getD i 0)

/-- The byte comparison `memcmp(a, b, packet_size(b)) == 0`: equal headers and equal
bodies over the first `b.hdr.len` bytes. -/
def memcmp_eq (a b : merlin_event) : Bool :=
  decide (a.hdr = b.hdr) && decide (body_bytes a.body b.hdr.len = body_bytes b.body b.hdr.len)

/-- The effect of `memcpy(dst, src, packet_size(src))` on `dst`. -/
def memcpy_event (dst src : merlin_event) : merlin_event :=
  { hdr := src.hdr, body := body_bytes src.body src.hdr.len ++ dst.body.drop src.hdr.len }

def is_dupe (env : Env) (st : State) (pkt : merlin_event) : Bool × State :=
  if st.check_dupes = false then (false, st)
  else if st.last_pkt.hdr.type ≠ pkt.hdr.type then (false, st)
  else if packet_size env st.last_pkt ≠ packet_size env pkt then (false, st)
  else if memcmp_eq st.last_pkt pkt = true then
    (true, { st with dupe_bytes := u64 (st.dupe_bytes + packet_size env pkt),
                     dupes := u64 (st.dupes + 1) })
  else (false, st)

/-- The calls `net_sendto(tbl[i], pkt)` for `i = 0 .. n-1`. -/
def net_sendto_range (tbl : Nat → merlin_node) (n : Nat) (pkt : merlin_event) : List effect :=
  (List.range n).map (fun i => effect.net_sendto (tbl i) pkt)

/-- The three guarded loops of the magic-destination branch of `send_generic`. -/
def magic_sends (env : Env) (pkt : merlin_event) : List effect :=
  (if pkt.hdr.selection &&& env.DEST_MASTERS = env.DEST_MASTERS
    then net_sendto_range env.node_table env.num_masters pkt else [])
  ++ (if pkt.hdr.selection &&& env.DEST_PEERS = env.DEST_PEERS
    then net_sendto_range env.peer_table env.num_peers pkt else [])
  ++ (if pkt.hdr.selection &&& env.DEST_POLLERS = env.DEST_POLLERS
    then net_sendto_range env.poller_table env.num_pollers pkt else [])

/-- Append calls to the trace. -/
def State.emit (st : State) (es : List effect) : State := { st with trace := st.trace ++ es }

/-- The local `ntable_stop` of `send_generic` when the node loop is reached. -/
def ntable_stop (env : Env) (pkt : merlin_event) : Nat :=
  if pkt.hdr.selection = env.CTRL_GENERIC ∧ pkt.hdr.type = env.CTRL_PACKET
  then env.num_nodes else u32 (env.num_masters + env.num_peers)

/-- The network part of `send_generic`, from `if (!num_nodes)` on: the value
returned and the calls made, given the result of the local emit. -/
def net_fanout (env : Env) (pkt : merlin_event) (result : Int) : Int × List effect :=
  if env.num_nodes = 0 then (0, [])
  else if env.magic_destination pkt = true then (0, magic_sends env pkt)
  else if ntable_stop env pkt = env.num_nodes ∨ env.num_pollers = 0 then
    (0, net_sendto_range env.node_table (ntable_stop env pkt) pkt)
  else if env.nodes_by_sel_id pkt.hdr.selection = [] then
    (-1, net_sendto_range env.node_table (ntable_stop env pkt) pkt)
  else
    (result, net_sendto_range env.node_table (ntable_stop env pkt) pkt ++
      (env.nodes_by_sel_id pkt.hdr.selection).map (fun n => effect.net_sendto n pkt))

/-- The two early-drop tests at the head of `send_generic`, as written in the
source (the second one applies `!` to the code before comparing). -/
def early_drop (env : Env) (pkt : merlin_event) : Bool :=
  decide ((env.num_nodes = 0 ∨ pkt.hdr.code = env.MAGIC_NONET) ∧ env.daemon_wants pkt.hdr.type = false)
  || decide ((if pkt.hdr.code = 0 then 1 else 0) = env.MAGIC_NONET ∧ env.daemon_wants pkt.hdr.type = false)

/-- The packet after `pkt->hdr.len = merlin_encode_event(pkt, data)`: the codec
returns the length and fills the body. -/
def encode_packet (env : Env) (pkt : merlin_event) (data : event_body) : merlin_event :=
  { hdr := { pkt.hdr with len := (env.merlin_encode_event pkt data).1 },
    body := (env.merlin_encode_event pkt data).2 }

/-- The local emit of `send_generic`: the result of `ipc_send_event` (0 when the
daemon does not want the kind) -/
def local_emit_result (env : Env) (st : State) (pkt : merlin_event) : Int :=
  if env.daemon_wants pkt.hdr.type = true then env.ipc_send_event st.trace pkt else 0

/-- The local emit of `send_generic`: the state after it. -/
def local_emit (env : Env) (st : State) (pkt : merlin_event) : State :=
  if env.daemon_wants pkt.hdr.type = true then
    { st with
      trace := st.trace ++ [effect.ipc_send_event pkt],
      last_pkt := if env.ipc_send_event st.trace pkt < 0 then zero_event
                  else memcpy_event st.last_pkt pkt }
  else st

/-- The dispatch engine. Returns the `int` result, the packet as the call leaves
it (length and body filled in by the codec) and the new state. -/
def send_generic (env : Env) (st : State) (pkt : merlin_event) (data : event_body) :
    Int × merlin_event × State :=
  if early_drop env pkt = true then (0, pkt, st)
  else
    let pkt := encode_packet env pkt data
    if pkt.hdr.len = 0 then (-1, pkt, st)
    else if (is_dupe env st pkt).1 = true then (0, pkt, (is_dupe env st pkt).2)
    else
      let st := (is_dupe env st pkt).2
      let result := local_emit_result env st pkt
      let st := local_emit env st pkt
      let f := net_fanout env pkt result
      (f.1, pkt, st.emit f.2)

/-! ## Selections -/

def get_selection (env : Env) (key : String) : Nat :=
  match env.node_selection_by_hostname key with
  | some id => id &&& 0xffff
  | none => env.DEST_PEERS_MASTERS

def get_hostgroup_selection (env : Env) (key : String) : Nat :=
  match env.node_selection_by_name key with
  | some id => id &&& 0xffff
  | none => env.DEST_PEERS_POLLERS

/-- The text of a C string up to, and not including, its first semicolon (the
whole string when it has none). -/
def before_semicolon (s : String) : String := String.mk (s.data.takeWhile (fun c => c != ';'))

/-- The result of `strchr(s, ';')`: `none` for NULL, otherwise the text after
the first semicolon. -/
def after_semicolon (s : String) : Option String :=
  match s.data.dropWhile (fun c => c != ';') with
  | [] => none
  | _ :: rest => some (String.mk rest)

def get_cmd_selection (env : Env) (cmd : Option String) (hostgroup : Bool) : Nat :=
  match cmd with
  | none => env.DEST_PEERS_POLLERS
  | some cmd =>
    if hostgroup = false then get_selection env (before_semicolon cmd)
    else get_hostgroup_selection env (before_semicolon cmd)

/-! ## Status senders -/

/-- The result and state of a `send_generic` call whose packet the caller drops. -/
def drop_pkt (r : Int × merlin_event × State) : Int × State := (r.1, r.2.2)

/-- The writes of `check_result_to_state` for a non-NULL check result. -/
def check_result_to_state (st : monitored_object_state) (cr : check_result) : monitored_object_state :=
  { st with
    check_type := cr.check_type,
    checks_enabled := cr.check_options,
    should_be_scheduled := cr.scheduled_check,
    latency := cr.latency,
    current_state := cr.return_code,
    plugin_output := cr.output,
    last_check := cr.start_time_sec }

/-- The `last_obj` bookkeeping of `send_host_status`: duplicate checking is on
exactly when the object is the one of the previous call. -/
def note_host (st : State) (obj : Nat) : State :=
  if st.last_obj_host = some obj then { st with check_dupes := true }
  else { st with check_dupes := false, last_obj_host := some obj }

/-- The `last_obj` bookkeeping of `send_service_status`. -/
def note_service (st : State) (obj : Nat) : State :=
  if st.last_obj_service = some obj then { st with check_dupes := true }
  else { st with check_dupes := false, last_obj_service := some obj }

/-- The status object `send_host_status` builds, `none` when the check result
conversion fails (NULL check result). -/
def host_status_body (pkt : merlin_event) (nebattr : Int) (obj : host) (cr : Option check_result) :
    Option event_body :=
  if pkt.hdr.type = NEBCALLBACK_HOST_CHECK_DATA then
    cr.map (fun cr => event_body.host_status
      { name := obj.name, nebattr := nebattr,
        state := check_result_to_state { zero_state with execution_time := obj.execution_time } cr })
  else some (.host_status { name := obj.name, nebattr := nebattr, state := obj.state_vars })

/-- The status object `send_service_status` builds, `none` when the check result
conversion fails (NULL check result). -/
def service_status_body (pkt : merlin_event) (nebattr : Int) (obj : service)
    (cr : Option check_result) : Option event_body :=
  if pkt.hdr.type = NEBCALLBACK_SERVICE_CHECK_DATA then
    cr.map (fun cr => event_body.service_status
      { host_name := obj.host_name, service_description := obj.description, nebattr := nebattr,
        state := check_result_to_state { zero_state with execution_time := obj.execution_time } cr })
  else some (.service_status
      { host_name := obj.host_name, service_description := obj.description, nebattr := nebattr,
        state := obj.state_vars })

/-- The status sender for hosts. The object pointer is never NULL here: the
callers have dereferenced it before. -/
def send_host_status (env : Env) (st : State) (pkt : merlin_event) (nebattr : Int) (obj : host)
    (cr : Option check_result) : Int × State :=
  if env.merlin_recv_host = some obj.ptr then (0, st)
  else
    match host_status_body pkt nebattr obj cr with
    | none => (-1, note_host st obj.ptr)
    | some body => drop_pkt (send_generic env (note_host st obj.ptr) pkt body)

/-- The status sender for services, see `send_host_status`. -/
def send_service_status (env : Env) (st : State) (pkt : merlin_event) (nebattr : Int) (obj : service)
    (cr : Option check_result) : Int × State :=
  match service_status_body pkt nebattr obj cr with
  | none => (-1, note_service st obj.ptr)
  | some body => drop_pkt (send_generic env (note_service st obj.ptr) pkt body)

def should_run_check (env : Env) (id : Nat) : Bool :=
  decide (env.assigned_peer id (u32 (env.ipc_active_peers + 1)) = env.ipc_peer_id)

/-! ## The notification hold slot -/

def hold_notification_packet (st : State) (pkt : merlin_event) (data : nebstruct_notification_data) :
    Int × State :=
  match st.tmp_notif_data with
  | some _ => (-1, st)
  | none =>
    (0, { st with tmp_notif_pkt := memcpy_event st.tmp_notif_pkt pkt, tmp_notif_data := some data })

def flush_notification (env : Env) (st : State) : Int × State :=
  match st.tmp_notif_data with
  | none => (-1, st)
  | some data =>
    (0, { (send_generic env st st.tmp_notif_pkt (.notification data)).2.2 with
          tmp_notif_pkt := (send_generic env st st.tmp_notif_pkt (.notification data)).2.1,
          tmp_notif_data := none })

/-! ## Check result hooks -/

/-- The packet of a PROCESSED check result after the inbound test: marked NONET
when a sender is set, addressed to peers and masters otherwise. -/
def check_result_pkt (env : Env) (pkt : merlin_event) : merlin_event :=
  match env.merlin_sender with
  | some _ => { pkt with hdr := { pkt.hdr with code := env.MAGIC_NONET } }
  | none => { pkt with hdr := { pkt.hdr with selection := env.DEST_PEERS_MASTERS } }

/-- The node recorded as executing a PROCESSED check and the passive flag passed
along: the sender with the object's check type, or the self node with the
check type of the callback data. -/
def check_node_call (env : Env) (obj_check_type ds_check_type : Nat) : node_ptr × Bool :=
  match env.merlin_sender with
  | some sender => (.node sender, decide (obj_check_type = CHECK_TYPE_PASSIVE))
  | none => (.ipc, decide (ds_check_type = CHECK_TYPE_PASSIVE))

def hook_service_result (env : Env) (st : State) (pkt : merlin_event)
    (ds : nebstruct_service_check_data) : Int × State :=
  if ds.type = NEBTYPE_SERVICECHECK_ASYNC_PRECHECK then
    if env.pgroup_service_node ds.object_ptr.id ≠ .ipc then
      (NEBERROR_CALLBACKCANCEL,
        st.emit [.schedule_expiration_event .SERVICE_CHECK
          (env.pgroup_service_node ds.object_ptr.id) ds.object_ptr.ptr])
    else
      (0, { st.emit [.schedule_expiration_event .SERVICE_CHECK
              (env.pgroup_service_node ds.object_ptr.id) ds.object_ptr.ptr] with
            service_checks_self := u64 (st.service_checks_self + 1) })
  else if ds.type = NEBTYPE_SERVICECHECK_PROCESSED then
    if env.merlin_recv_service = some ds.object_ptr.ptr then
      (0, st.emit [.unexpire_service ds.object_ptr.ptr,
        .set_service_check_node (check_node_call env ds.object_ptr.check_type ds.check_type).1
          ds.object_ptr.ptr (check_node_call env ds.object_ptr.check_type ds.check_type).2])
    else
      ((send_service_status env
          (st.emit [.unexpire_service ds.object_ptr.ptr,
            .set_service_check_node (check_node_call env ds.object_ptr.check_type ds.check_type).1
              ds.object_ptr.ptr (check_node_call env ds.object_ptr.check_type ds.check_type).2,
            .set_last_check ds.object_ptr.ptr ds.end_time_sec])
          (check_result_pkt env pkt) ds.attr
          { ds.object_ptr with last_check := ds.end_time_sec } ds.check_result_ptr).1,
        (flush_notification env
          (send_service_status env
            (st.emit [.unexpire_service ds.object_ptr.ptr,
              .set_service_check_node (check_node_call env ds.object_ptr.check_type ds.check_type).1
                ds.object_ptr.ptr (check_node_call env ds.object_ptr.check_type ds.check_type).2,
              .set_last_check ds.object_ptr.ptr ds.end_time_sec])
            (check_result_pkt env pkt) ds.attr
            { ds.object_ptr with last_check := ds.end_time_sec } ds.check_result_ptr).2).2)
  else (0, st)

def hook_host_result (env : Env) (st : State) (pkt : merlin_event)
    (ds : nebstruct_host_check_data) : Int × State :=
  if ds.type = NEBTYPE_HOSTCHECK_ASYNC_PRECHECK ∨ ds.type = NEBTYPE_HOSTCHECK_SYNC_PRECHECK then
    if env.pgroup_host_node ds.object_ptr.id ≠ .ipc then
      (NEBERROR_CALLBACKCANCEL,
        st.emit [.schedule_expiration_event .HOST_CHECK
          (env.pgroup_host_node ds.object_ptr.id) ds.object_ptr.ptr])
    else
      (0, { st.emit [.schedule_expiration_event .HOST_CHECK
              (env.pgroup_host_node ds.object_ptr.id) ds.object_ptr.ptr] with
            host_checks_self := u64 (st.host_checks_self + 1) })
  else if ds.type = NEBTYPE_HOSTCHECK_PROCESSED then
    if env.merlin_recv_host = some ds.object_ptr.ptr then
      (0, st.emit [.unexpire_host ds.object_ptr.ptr,
        .set_host_check_node (check_node_call env ds.object_ptr.check_type ds.check_type).1
          ds.object_ptr.ptr (check_node_call env ds.object_ptr.check_type ds.check_type).2])
    else
      ((send_host_status env
          (st.emit [.unexpire_host ds.object_ptr.ptr,
            .set_host_check_node (check_node_call env ds.object_ptr.check_type ds.check_type).1
              ds.object_ptr.ptr (check_node_call env ds.object_ptr.check_type ds.check_type).2,
            .set_last_check ds.object_ptr.ptr ds.end_time_sec])
          (check_result_pkt env pkt) ds.attr
          { ds.object_ptr with last_check := ds.end_time_sec } ds.check_result_ptr).1,
        (flush_notification env
          (send_host_status env
            (st.emit [.unexpire_host ds.object_ptr.ptr,
              .set_host_check_node (check_node_call env ds.object_ptr.check_type ds.check_type).1
                ds.object_ptr.ptr (check_node_call env ds.object_ptr.check_type ds.check_type).2,
              .set_last_check ds.object_ptr.ptr ds.end_time_sec])
            (check_result_pkt env pkt) ds.attr
            { ds.object_ptr with last_check := ds.end_time_sec } ds.check_result_ptr).2).2)
  else (0, st)

/-! ## Comment, downtime and external command hooks -/

/-- The last conjunct of the block-comment test of `hook_comment`: pointer
equality or `strcmp` of the two service descriptions. `none` when `strcmp`
would be handed a NULL pointer. -/
def service_description_match (a b : Option String) : Option Bool :=
  match a, b with
  | none, none => some true
  | some x, some y => some (decide (x = y))
  | _, _ => none

/-- The packet of a comment event after the two entry-type tests: downtime and
acknowledgement comments that are not deletions are marked NONET. -/
def comment_pkt (env : Env) (pkt : merlin_event) (ds : nebstruct_comment_data) : merlin_event :=
  if (ds.entry_type = DOWNTIME_COMMENT ∧ ds.type ≠ NEBTYPE_COMMENT_DELETE) ∨
      (ds.entry_type = ACKNOWLEDGEMENT_COMMENT ∧ ds.type ≠ NEBTYPE_COMMENT_DELETE)
  then { pkt with hdr := { pkt.hdr with code := env.MAGIC_NONET } } else pkt

/-- The conjuncts of the block-comment test that precede the comparison of the
service descriptions. -/
def block_comment_fields_match (env : Env) (pkt : merlin_event) (bc ds : nebstruct_comment_data) :
    Bool :=
  decide (pkt.hdr.code ≠ env.MAGIC_NONET ∧ bc.entry_type = ds.entry_type ∧
    bc.comment_type = ds.comment_type ∧ bc.expires = ds.expires ∧
    bc.persistent = ds.persistent ∧ bc.host_name = ds.host_name ∧
    bc.author_name = ds.author_name ∧ bc.comment_data = ds.comment_data)

/-- The outcome of the block-comment test of `hook_comment` on the packet as
marked so far: `some true` when the event matches the block comment, `none`
when `strcmp` would be handed a NULL service description. -/
def block_comment_test (env : Env) (st : State) (pkt : merlin_event) (ds : nebstruct_comment_data) :
    Option Bool :=
  match st.block_comment with
  | none => some false
  | some bc =>
    if block_comment_fields_match env pkt bc ds = true
    then service_description_match bc.service_description ds.service_description
    else some false

/-- The comment hook. `none` stands for the one undefined run: `strcmp` on a NULL
service description. -/
def hook_comment (env : Env) (st : State) (pkt : merlin_event) (ds : nebstruct_comment_data) :
    Option (Int × State) :=
  if ds.type = NEBTYPE_COMMENT_ADD then some (0, st)
  else if env.merlin_sender.isSome = true then some (0, st)
  else
    match block_comment_test env st (comment_pkt env pkt ds) ds with
    | none => none
    | some true =>
      some (drop_pkt (send_generic env st
        { (comment_pkt env pkt ds) with
          hdr := { (comment_pkt env pkt ds).hdr with code := env.MAGIC_NONET } } (.comment ds)))
    | some false =>
      some (drop_pkt (send_generic env st
        { (comment_pkt env pkt ds) with
          hdr := { (comment_pkt env pkt ds).hdr with selection := get_selection env ds.host_name } }
        (.comment ds)))

/-- The packet of a local downtime event: addressed by host name when the
downtime was cancelled, marked NONET otherwise. -/
def downtime_pkt (env : Env) (pkt : merlin_event) (ds : nebstruct_downtime_data) : merlin_event :=
  if ds.attr = NEBATTR_DOWNTIME_STOP_CANCELLED
  then { pkt with hdr := { pkt.hdr with selection := get_selection env ds.host_name } }
  else { pkt with hdr := { pkt.hdr with code := env.MAGIC_NONET } }

def hook_downtime (env : Env) (st : State) (pkt : merlin_event) (ds : nebstruct_downtime_data) :
    Int × State :=
  if env.merlin_sender.isSome = true then (0, st)
  else drop_pkt (send_generic env st (downtime_pkt env pkt ds) (.downtime ds))

/-- The packet after `if (merlin_sender) pkt->hdr.code = MAGIC_NONET`. -/
def mark_if_inbound (env : Env) (pkt : merlin_event) : merlin_event :=
  if env.merlin_sender.isSome = true
  then { pkt with hdr := { pkt.hdr with code := env.MAGIC_NONET } } else pkt

/-- The tail of `hook_external_command` after the `switch`: mark inbound commands
NONET, dispatch, and return the callback result chosen by the `switch`. -/
def external_command_send (env : Env) (st : State) (pkt : merlin_event)
    (ds : nebstruct_external_command_data) (cb_result : Int) : Int × State :=
  (cb_result, (send_generic env st (mark_if_inbound env pkt) (.external_command ds)).2.2)

/-- The packet after `if (!merlin_sender) pkt->hdr.selection = sel`. -/
def select_if_local (env : Env) (pkt : merlin_event) (sel : Nat) : merlin_event :=
  if env.merlin_sender.isSome = true then pkt
  else { pkt with hdr := { pkt.hdr with selection := sel } }

/-- The callback result of the two owner-only command groups for a host name
that `find_host` resolves or not. -/
def host_owner_result (env : Env) (host_name : String) : Int :=
  match env.find_host host_name with
  | none => NEBERROR_CALLBACKCANCEL
  | some this_host =>
    if env.pgroup_host_node this_host.id ≠ .ipc then NEBERROR_CALLBACKCANCEL else NEB_OK

def service_owner_result (env : Env) (host_name service_description : String) : Int :=
  match env.find_service host_name service_description with
  | none => NEBERROR_CALLBACKCANCEL
  | some this_service =>
    if env.pgroup_service_node this_service.id ≠ .ipc then NEBERROR_CALLBACKCANCEL else NEB_OK

/-- The external command hook. `none` stands for the undefined run in which
`strchr` is handed a NULL argument string. -/
def hook_external_command (env : Env) (st : State) (pkt : merlin_event)
    (ds : nebstruct_external_command_data) : Option (Int × State) :=
  if ds.type ≠ NEBTYPE_EXTERNALCOMMAND_START then some (NEB_OK, st)
  else
    match command_case ds.command_type with
    | .comment_cmd => some (NEB_OK, st)
    | .del_downtime => some (NEB_OK, st)
    | .per_object =>
      some (external_command_send env st
        (select_if_local env pkt (get_cmd_selection env ds.command_args false)) ds NEB_OK)
    | .host_owner =>
      match ds.command_args with
      | none => none
      | some args =>
        match after_semicolon args with
        | none =>
          some (external_command_send env st
            (select_if_local env pkt (get_cmd_selection env ds.command_args false)) ds NEB_OK)
        | some _ =>
          some (external_command_send env st
            (select_if_local env pkt (get_cmd_selection env ds.command_args false)) ds
            (host_owner_result env (before_semicolon args)))
    | .service_owner =>
      match ds.command_args with
      | none => none
      | some args =>
        match after_semicolon args with
        | none =>
          some (external_command_send env st
            (select_if_local env pkt (get_cmd_selection env ds.command_args false)) ds NEB_OK)
        | some rest =>
          match after_semicolon rest with
          | none =>
            some (external_command_send env st
              (select_if_local env pkt (get_cmd_selection env ds.command_args false)) ds NEB_OK)
          | some _ =>
            some (external_command_send env st
              (select_if_local env pkt (get_cmd_selection env ds.command_args false)) ds
              (service_owner_result env (before_semicolon args) (before_semicolon rest)))
    | .hostgroup =>
      some (external_command_send env st
        (select_if_local env pkt (get_cmd_selection env ds.command_args true)) ds NEB_OK)
    | .servicegroup =>
      some (external_command_send env st (select_if_local env pkt env.DEST_PEERS_POLLERS) ds NEB_OK)
    | .dflt =>
      if u32 (env.num_peers + env.num_pollers) = 0 then some (0, st)
      else some (external_command_send env st (select_if_local env pkt env.DEST_PEERS_POLLERS) ds NEB_OK)

def hook_contact_notification_method (env : Env) (st : State) (pkt : merlin_event)
    (ds : nebstruct_contact_notification_method_data) : Int × State :=
  if ds.type ≠ NEBTYPE_CONTACTNOTIFICATIONMETHOD_END then (0, st)
  else
    drop_pkt (send_generic env st
      { pkt with hdr := { pkt.hdr with selection := env.DEST_PEERS_MASTERS } }
      (.contact_notification_method ds))

/-! ## The notification hook -/

def neb_cb_result_create (rc : Int) : neb_cb_result := { return_code := rc, description := none }

def neb_cb_result_create_full (rc : Int) (description : String) : neb_cb_result :=
  { return_code := rc, description := some description }

/-- The three counters of a bucket, as `mns->sent++`, `mns->master++`, `mns->peer++`. -/
def bump_sent (st : State) (key : Nat × Nat × Nat) : State :=
  { st with
    notify_stats := Function.update st.notify_stats key
      ({ (st.notify_stats key) with sent := u64 ((st.notify_stats key).sent + 1) }) }

def bump_master (st : State) (key : Nat × Nat × Nat) : State :=
  { st with
    notify_stats := Function.update st.notify_stats key
      ({ (st.notify_stats key) with master := u64 ((st.notify_stats key).master + 1) }) }

def bump_peer (st : State) (key : Nat × Nat × Nat) : State :=
  { st with
    notify_stats := Function.update st.notify_stats key
      ({ (st.notify_stats key) with peer := u64 ((st.notify_stats key).peer + 1) }) }

/-- The callback data after the NOTIFICATION_END branch has overwritten the
object pointer and the two time stamps with the object's notification state.
Host and service notifications read the same fields; any other notification
type leaves the data as it is. -/
def notification_end_data (ds : nebstruct_notification_data) : nebstruct_notification_data :=
  if ds.notification_type = HOST_NOTIFICATION then
    { ds with object_ptr_int := ds.object_ptr.current_notification_number,
              start_time_usec := ds.object_ptr.no_more_notifications,
              start_time_sec := ds.object_ptr.last_notification,
              end_time_usec := 0,
              end_time_sec := ds.object_ptr.next_notification }
  else if ds.notification_type = SERVICE_NOTIFICATION then
    { ds with object_ptr_int := ds.object_ptr.current_notification_number,
              start_time_usec := ds.object_ptr.no_more_notifications,
              start_time_sec := ds.object_ptr.last_notification,
              end_time_usec := 0,
              end_time_sec := ds.object_ptr.next_notification }
  else ds

/-- The packet of a NOTIFICATION_END event: always addressed to peers and masters. -/
def notification_end_pkt (env : Env) (pkt : merlin_event) : merlin_event :=
  { pkt with hdr := { pkt.hdr with selection := env.DEST_PEERS_MASTERS } }

/-- The NOTIFICATION_END branch of `hook_notification`. -/
def hook_notification_end (env : Env) (st : State) (pkt : merlin_event)
    (ds : nebstruct_notification_data) : neb_cb_result × State :=
  if ds.reason_type = NOTIFICATION_CUSTOM ∨ env.merlin_sender.isSome = true then
    (neb_cb_result_create
        (send_generic env st (notification_end_pkt env pkt) (.notification (notification_end_data ds))).1,
      (send_generic env st (notification_end_pkt env pkt) (.notification (notification_end_data ds))).2.2)
  else
    (neb_cb_result_create
        (hold_notification_packet st (notification_end_pkt env pkt) (notification_end_data ds)).1,
      (hold_notification_packet st (notification_end_pkt env pkt) (notification_end_data ds)).2)

/-- The name logged for the node that owns the notification. -/
def owning_node_name (env : Env) (notifying_node : Nat) : String :=
  match env.node_by_id notifying_node with
  | some n => n.name
  | none => "<unknown>"

/-- The bucket `&merlin_notify_stats[rtype][notification_type][check_type]`, with
`rtype` the reason type capped at 8. -/
def notify_bucket (ds : nebstruct_notification_data) : Nat × Nat × Nat :=
  (if ds.reason_type > 8 then 8 else ds.reason_type, ds.notification_type, ds.object_ptr.check_type)

/-- The NOTIFICATION_START part of `hook_notification`, for an inbound event. -/
def hook_notification_start_inbound (env : Env) (st : State) (ds : nebstruct_notification_data)
    (sender : merlin_node) : neb_cb_result × State :=
  if sender.type = env.MODE_POLLER ∧ sender.flags &&& env.MERLIN_NODE_NOTIFIES ≠ 0 then
    (neb_cb_result_create_full NEBERROR_CALLBACKCANCEL
      ("Notification will be handled by a poller (" ++ sender.name ++ ")"), st)
  else if sender.type = env.MODE_PEER ∧
      sender.id = env.assigned_peer ds.object_ptr.id (u32 (env.ipc_active_peers + 1)) then
    (neb_cb_result_create_full NEBERROR_CALLBACKCANCEL
      ("Notification will be handled by owning peer (" ++ sender.name ++ ")"), st)
  else if env.num_peers = 0 ∨ should_run_check env ds.object_ptr.id = true then
    (neb_cb_result_create 0, bump_sent st (notify_bucket ds))
  else
    (neb_cb_result_create_full NEBERROR_CALLBACKCANCEL
      ("Notification originating on poller (" ++ sender.name ++
        ") will be handled by another peer (" ++
        owning_node_name env (env.assigned_peer ds.object_ptr.id (u32 (env.ipc_active_peers + 1)))
        ++ ")"), bump_peer st (notify_bucket ds))

/-- The NOTIFICATION_START part of `hook_notification`, for a local event. -/
def hook_notification_start_local (env : Env) (st : State) (ds : nebstruct_notification_data) :
    neb_cb_result × State :=
  if ds.object_ptr.check_type = CHECK_TYPE_PASSIVE ∧ ds.reason_type = NOTIFICATION_NORMAL then
    (neb_cb_result_create 0, bump_sent st (notify_bucket ds))
  else if env.num_peers = 0 then
    (neb_cb_result_create 0, bump_sent st (notify_bucket ds))
  else if ds.reason_type = NOTIFICATION_ACKNOWLEDGEMENT ∨ ds.reason_type = NOTIFICATION_CUSTOM then
    (neb_cb_result_create 0, bump_sent st (notify_bucket ds))
  else if env.num_peers = 0 ∨ should_run_check env ds.object_ptr.id = true then
    (neb_cb_result_create 0, st)
  else
    (neb_cb_result_create_full NEBERROR_CALLBACKCANCEL
      ("A peer (" ++
        owning_node_name env (env.assigned_peer ds.object_ptr.id (u32 (env.ipc_active_peers + 1)))
        ++ ") is supposed to send this notification"),
      bump_peer st (notify_bucket ds))

/-- The NOTIFICATION_START part of `hook_notification`. -/
def hook_notification_start (env : Env) (st : State) (ds : nebstruct_notification_data) :
    neb_cb_result × State :=
  if env.online_masters ≠ 0 ∧ env.ipc_flags &&& env.MERLIN_NODE_NOTIFIES = 0 then
    (neb_cb_result_create_full NEBERROR_CALLBACKCANCEL "Notification will be handled by master(s)",
      bump_master st (notify_bucket ds))
  else
    match env.merlin_sender with
    | some sender => hook_notification_start_inbound env st ds sender
    | none => hook_notification_start_local env st ds

/-- The notification hook. The result is `none` where the C function returns a
NULL result pointer. -/
def hook_notification (env : Env) (st : State) (pkt : merlin_event)
    (ds : nebstruct_notification_data) : Option neb_cb_result × State :=
  if ds.type = NEBTYPE_NOTIFICATION_END then
    (some (hook_notification_end env st pkt ds).1, (hook_notification_end env st pkt ds).2)
  else if ds.type ≠ NEBTYPE_NOTIFICATION_START then (none, st)
  else (some (hook_notification_start env st ds).1, (hook_notification_start env st ds).2)

/-! ## The callback entry point -/

/-- The `switch (cb)` of `merlin_mod_hook`: the rich result (if the hook gave
one), the plain result and the new state. `none` stands for an undefined run:
data that is not of the callback's structure type, or an undefined run of the
hook itself. -/
def mod_hook_switch (env : Env) (st : State) (pkt : merlin_event) (cb : Int) (data : event_body) :
    Option (Option neb_cb_result × Int × State) :=
  if cb = NEBCALLBACK_NOTIFICATION_DATA then
    match data with
    | .notification ds =>
      some ((hook_notification env st pkt ds).1, 0, (hook_notification env st pkt ds).2)
    | _ => none
  else if cb = NEBCALLBACK_CONTACT_NOTIFICATION_METHOD_DATA then
    match data with
    | .contact_notification_method ds =>
      some (none, hook_contact_notification_method env st pkt ds)
    | _ => none
  else if cb = NEBCALLBACK_HOST_CHECK_DATA then
    match data with
    | .host_check ds => some (none, hook_host_result env st pkt ds)
    | _ => none
  else if cb = NEBCALLBACK_SERVICE_CHECK_DATA then
    match data with
    | .service_check ds => some (none, hook_service_result env st pkt ds)
    | _ => none
  else if cb = NEBCALLBACK_COMMENT_DATA then
    match data with
    | .comment ds => (hook_comment env st pkt ds).map (fun r => (none, r))
    | _ => none
  else if cb = NEBCALLBACK_DOWNTIME_DATA then
    match data with
    | .downtime ds => some (none, hook_downtime env st pkt ds)
    | _ => none
  else if cb = NEBCALLBACK_EXTERNAL_COMMAND_DATA then
    match data with
    | .external_command ds => (hook_external_command env st pkt ds).map (fun r => (none, r))
    | _ => none
  else if cb = NEBCALLBACK_FLAPPING_DATA ∨ cb = NEBCALLBACK_PROGRAM_STATUS_DATA ∨
      cb = NEBCALLBACK_PROCESS_DATA then
    some (none, drop_pkt (send_generic env st
      { pkt with hdr := { pkt.hdr with code := env.MAGIC_NONET } } data))
  else if cb = NEBCALLBACK_HOST_STATUS_DATA ∨ cb = NEBCALLBACK_SERVICE_STATUS_DATA then
    some (none, 0, st)
  else some (none, 0, st)

/-- The state when the `switch` of `merlin_mod_hook` is entered: duplicate
checking reset, the heartbeat sent if it was due, the pulse time updated. -/
def mod_hook_enter (st : State) (now : Int) : State :=
  if st.last_pulse = 0 ∨ now - st.last_pulse > 15 then
    { ({ st with check_dupes := false } : State).emit [.node_send_ctrl_active] with last_pulse := now }
  else { st with check_dupes := false, last_pulse := now }

/-- The packet `merlin_mod_hook` hands to the hooks. -/
def mod_hook_pkt (env : Env) (cb : Int) : merlin_event :=
  { zero_event with hdr := { zero_event.hdr with type := cb.toNat, selection := env.DEST_BROADCAST } }

/-- The return code `merlin_mod_hook` goes on with after the `switch`. -/
def mod_hook_result (neb_result : Option neb_cb_result) (result : Int) : Int :=
  match neb_result with
  | some r => r.return_code
  | none => result

/-- The rich result `merlin_mod_hook` returns. -/
def mod_hook_neb_result (neb_result : Option neb_cb_result) (result : Int) : neb_cb_result :=
  match neb_result with
  | some r => r
  | none => neb_cb_result_create_full result "No callback result description available"

/-- The end of `merlin_mod_hook`: the rate-limited flood warning. -/
def mod_hook_leave (st : State) (result : Int) (now : Int) : State :=
  if result < 0 ∧ now - st.last_flood_warning > 30 then
    { st.emit [.lwarn_flooded] with last_flood_warning := now }
  else st

/-- The callback entry point, called with callback id `cb`, the data pointer
(`none` for NULL) and the reading `now` of `time(NULL)`. -/
def merlin_mod_hook (env : Env) (st : State) (cb : Int) (data : Option event_body) (now : Int) :
    Option (neb_cb_result × State) :=
  match data with
  | none => some (neb_cb_result_create (-1), st)
  | some data =>
    if cb < 0 ∨ cb > NEBCALLBACK_NUMITEMS then some (neb_cb_result_create (-1), st)
    else
      match mod_hook_switch env (mod_hook_enter st now) (mod_hook_pkt env cb) cb data with
      | none => none
      | some r =>
        some (mod_hook_neb_result r.1 r.2.1, mod_hook_leave r.2.2 (mod_hook_result r.1 r.2.1) now)

/-! ## The hook registry -/

structure callback_struct where
  dest : Nat
  type : Nat
deriving DecidableEq, Repr

def callback_table : List callback_struct :=
  [ { dest := 0, type := NEBCALLBACK_PROCESS_DATA },
    { dest := DEST_NETWORK, type := NEBCALLBACK_NOTIFICATION_DATA },
    { dest := 0, type := NEBCALLBACK_CONTACT_NOTIFICATION_METHOD_DATA },
    { dest := 0, type := NEBCALLBACK_SERVICE_CHECK_DATA },
    { dest := 0, type := NEBCALLBACK_HOST_CHECK_DATA },
    { dest := 0, type := NEBCALLBACK_COMMENT_DATA },
    { dest := 0, type := NEBCALLBACK_DOWNTIME_DATA },
    { dest := 0, type := NEBCALLBACK_FLAPPING_DATA },
    { dest := 0, type := NEBCALLBACK_PROGRAM_STATUS_DATA },
    { dest := 0, type := NEBCALLBACK_HOST_STATUS_DATA },
    { dest := 0, type := NEBCALLBACK_SERVICE_STATUS_DATA },
    { dest := DEST_NETWORK, type := NEBCALLBACK_EXTERNAL_COMMAND_DATA } ]

/-- One iteration of the registration loop: the calls it makes for row `cb`. -/
def hooks_init_row (env : Env) (mask : Nat) (cb : callback_struct) : List effect :=
  if cb.dest = DEST_DB ∧ env.use_database = false then []
  else if cb.dest = DEST_NETWORK ∧ env.num_nodes = 0 then []
  else if mask &&& (1 <<< cb.type) = 0 then []
  else [.neb_register_callback cb.type]

/-- Registration of the hooks, for a `uint32_t` mask. -/
def merlin_hooks_init (env : Env) (st : State) (mask : Nat) : Int × State :=
  let st : State := { st with ev_mask := u32 mask }
  if env.use_database = false ∧ env.num_nodes = 0 then (0, st)
  else (0, st.emit (callback_table.flatMap (hooks_init_row env (u32 mask))))

def merlin_hooks_deinit (st : State) : Int × State :=
  (0, st.emit (callback_table.map (fun cb => effect.neb_deregister_callback cb.type)))

def merlin_set_block_comment (st : State) (cmnt : Option nebstruct_comment_data) : State :=
  { st with block_comment := cmnt }

/-! ## Reading the trace -/

/-- The packets handed to `ipc_send_event`, in order. -/
def ipc_sends (tr : List effect) : List merlin_event :=
  tr.filterMap (fun e => match e with | .ipc_send_event p => some p | _ => none)

/-- The `net_sendto` calls, in order. -/
def net_sends (tr : List effect) : List (merlin_node × merlin_event) :=
  tr.filterMap (fun e => match e with | .net_sendto n p => some (n, p) | _ => none)

/-- The packet carried by a call, for the two calls that send one. -/
def effect.packet : effect → Option merlin_event
  | .ipc_send_event p => some p
  | .net_sendto _ p => some p
  | _ => none

/-- The packets sent locally or to the network, in order. -/
def sent_packets (tr : List effect) : List merlin_event := tr.filterMap effect.packet

/-- The calls recorded after state `st` on the way to state `st'`. -/
def trace_since (st st' : State) : List effect := st'.trace.drop st.trace.length

/-- State `st'` continues the trace of `st` with calls that all satisfy `P`. -/
def extends_by (P : effect → Prop) (st st' : State) : Prop :=
  ∃ new, st'.trace = st.trace ++ new ∧ ∀ e ∈ new, P e

/-- Call `e`, if it sends a packet, sends `pkt` as encoded with some body. -/
def sends_of (env : Env) (pkt : merlin_event) (e : effect) : Prop :=
  ∀ p, e.packet = some p → ∃ d, p = encode_packet env pkt d

/-- Call `e`, if it sends a packet, sends one that is marked NONET. -/
def nonet_marked (env : Env) (e : effect) : Prop :=
  ∀ p, e.packet = some p → p.hdr.code = env.MAGIC_NONET

/-- From `st` to `st2` the hold slot was not refilled: it holds the same data
and packet as before, or it is empty. -/
def slot_kept (st st2 : State) : Prop :=
  (st2.tmp_notif_data = st.tmp_notif_data ∧ st2.tmp_notif_pkt = st.tmp_notif_pkt) ∨
  st2.tmp_notif_data = none

/-- The packet gets as far as the local emit of `send_generic`: it is not
dropped early, the codec gives it a non-zero length and it is not dropped as a
duplicate. -/
def reaches_emit (env : Env) (st : State) (pkt : merlin_event) (data : event_body) : Prop :=
  early_drop env pkt = false ∧ (encode_packet env pkt data).hdr.len ≠ 0 ∧
  (is_dupe env st (encode_packet env pkt data)).1 = false

/-- The node counts are those of one node table: `num_nodes` counts the
masters, the peers and the pollers, and fits an unsigned 32-bit integer. -/
def node_counts_ok (env : Env) : Prop :=
  env.num_nodes = env.num_masters + env.num_peers + env.num_pollers ∧ env.num_nodes < 4294967296

/-- The `net_sendto` calls of a loop over `tbl[0 .. n)`, as node and packet. -/
def range_sends (tbl : Nat → merlin_node) (n : Nat) (pkt : merlin_event) :
    List (merlin_node × merlin_event) :=
  (List.range n).map (fun i => (tbl i, pkt))

/-- The runs of `hook_external_command` that get past its `switch` to the
common `send_generic` call: a START event whose command is not one of the
comment or delete-downtime commands, and for a command under `default:` only
when the node has a peer or a poller. -/
def command_dispatched (env : Env) (ds : nebstruct_external_command_data) : Prop :=
  ds.type = NEBTYPE_EXTERNALCOMMAND_START ∧
  command_case ds.command_type ≠ .comment_cmd ∧
  command_case ds.command_type ≠ .del_downtime ∧
  (command_case ds.command_type = .dflt → u32 (env.num_peers + env.num_pollers) ≠ 0)

/-- The entry-type test of `hook_comment`: a downtime or acknowledgement comment
that is not being deleted. -/
def entry_marked (ds : nebstruct_comment_data) : Prop :=
  (ds.entry_type = DOWNTIME_COMMENT ∧ ds.type ≠ NEBTYPE_COMMENT_DELETE) ∨
  (ds.entry_type = ACKNOWLEDGEMENT_COMMENT ∧ ds.type ≠ NEBTYPE_COMMENT_DELETE)

/-- The comment event `ds` equals the block comment `bc` on all identifying
fields: entry type, comment type, expiry, persistence, host name, author,
text and service description. -/
def comment_matches (bc ds : nebstruct_comment_data) : Prop :=
  bc.entry_type = ds.entry_type ∧ bc.comment_type = ds.comment_type ∧
  bc.expires = ds.expires ∧ bc.persistent = ds.persistent ∧
  bc.host_name = ds.host_name ∧ bc.author_name = ds.author_name ∧
  bc.comment_data = ds.comment_data ∧ bc.service_description = ds.service_description

/-- Following the spec, section 4.8: a row is registered when its destination is
not "database" without a database, not "network" without nodes, and its bit is
set in the mask. -/
def row_registered_spec (env : Env) (mask : Nat) (cb : callback_struct) : Bool :=
  !(decide (cb.dest = DEST_DB) && !env.use_database) &&
  !(decide (cb.dest = DEST_NETWORK) && decide (env.num_nodes = 0)) &&
  decide (mask &&& (1 <<< cb.type) ≠ 0)

/-- The callback kinds handed to `neb_register_callback`, in order. -/
def registered_kinds (tr : List effect) : List Nat :=
  tr.filterMap (fun e => match e with | .neb_register_callback t => some t | _ => none)

/-- Call `e` is neither the heartbeat nor the flood warning. -/
def effect.is_event_call (e : effect) : Prop :=
  e ≠ .node_send_ctrl_active ∧ e ≠ .lwarn_flooded

/-- From `st` to `st2` the two time stamps of `merlin_mod_hook` were left alone
and the calls added are neither heartbeats nor flood warnings. -/
def clocks_kept (st st2 : State) : Prop :=
  st2.last_pulse = st.last_pulse ∧ st2.last_flood_warning = st.last_flood_warning ∧
  extends_by effect.is_event_call st st2

/-- One call of the callback entry point with non-NULL data: the surroundings at
the time of the call, the callback id, the data and the clock reading. -/
structure hook_call where
  env : Env
  cb : Int
  data : event_body
  now : Int

/-- What an observer keeps of one call of `merlin_mod_hook`: the clock reading,
the return code of the result, and the calls made during the call. -/
structure hook_record where
  now : Int
  return_code : Int
  calls : List effect

/-- A sequence of calls of `merlin_mod_hook`, each starting in the state the one
before has left: the records of the calls and the final state, `none` when one
of the runs is undefined. -/
def run_calls (st : State) : List hook_call → Option (List hook_record × State)
  | [] => some ([], st)
  | c :: rest =>
    match merlin_mod_hook c.env st c.cb (some c.data) c.now with
    | none => none
    | some r =>
      match run_calls r.2 rest with
      | none => none
      | some rs =>
        some ({ now := c.now, return_code := r.1.return_code, calls := trace_since st r.2 }
          :: rs.1, rs.2)

/-- The clock readings of the calls that sent a heartbeat, in order. -/
def heartbeat_times (recs : List hook_record) : List Int :=
  (recs.filter (fun r => decide (effect.node_send_ctrl_active ∈ r.calls))).map (fun r => r.now)

/-- The clock readings of the calls that issued a flood warning, in order. -/
def warning_times (recs : List hook_record) : List Int :=
  (recs.filter (fun r => decide (effect.lwarn_flooded ∈ r.calls))).map (fun r => r.now)

/-- The callbacks whose packet goes to `send_generic` without a status sender
in between: comment, downtime, external command, contact notification method,
flapping, program status and process callbacks, and a NOTIFICATION_END that is
sent at once (custom, or inbound). -/
def plain_send_callback (env : Env) (cb : Int) (data : event_body) : Prop :=
  cb = NEBCALLBACK_COMMENT_DATA ∨ cb = NEBCALLBACK_DOWNTIME_DATA ∨
  cb = NEBCALLBACK_EXTERNAL_COMMAND_DATA ∨
  cb = NEBCALLBACK_CONTACT_NOTIFICATION_METHOD_DATA ∨
  cb = NEBCALLBACK_FLAPPING_DATA ∨ cb = NEBCALLBACK_PROGRAM_STATUS_DATA ∨
  cb = NEBCALLBACK_PROCESS_DATA ∨
  (cb = NEBCALLBACK_NOTIFICATION_DATA ∧
    ∃ ds, data = .notification ds ∧ ds.type = NEBTYPE_NOTIFICATION_END ∧
      (ds.reason_type = NOTIFICATION_CUSTOM ∨ env.merlin_sender.isSome = true))

/-! ## The notification decision table of the spec -/

/-- The two outcomes of the notification decision. -/
inductive notify_outcome where
  | allow
  | cancel
deriving DecidableEq, Repr

/-- The return code the host sees for an outcome. -/
def notify_outcome.code : notify_outcome → Int
  | .allow => 0
  | .cancel => NEBERROR_CALLBACKCANCEL

/-- Following the spec, section 4.6: `notifying_node := owner(id, active_peers+1)`. -/
def notifying_node_spec (env : Env) (ds : nebstruct_notification_data) : Nat :=
  env.assigned_peer ds.object_ptr.id (env.ipc_active_peers + 1)

/-- Following the spec, section 4.2: `should_run_locally(id)`, the owner is this node. -/
def should_run_locally_spec (env : Env) (ds : nebstruct_notification_data) : Bool :=
  decide (notifying_node_spec env ds = env.ipc_peer_id)

/-- The event is inbound and its sender satisfies `p`. -/
def inbound_from (env : Env) (p : merlin_node → Bool) : Bool :=
  match env.merlin_sender with
  | some sender => p sender
  | none => false

/-- Following the spec, section 4.6: the ten rules, in order, each a condition
and its outcome. -/
def notification_rules_spec (env : Env) (ds : nebstruct_notification_data) :
    List (Bool × notify_outcome) :=
  [ (decide (env.online_masters ≠ 0 ∧ env.ipc_flags &&& env.MERLIN_NODE_NOTIFIES = 0), .cancel),
    (inbound_from env (fun s =>
        decide (s.type = env.MODE_POLLER ∧ s.flags &&& env.MERLIN_NODE_NOTIFIES ≠ 0)), .cancel),
    (inbound_from env (fun s =>
        decide (s.type = env.MODE_PEER ∧ s.id = notifying_node_spec env ds)), .cancel),
    (inbound_from env (fun _ => decide (env.num_peers = 0) || should_run_locally_spec env ds),
      .allow),
    (inbound_from env (fun _ => true), .cancel),
    (env.merlin_sender.isNone && decide (ds.object_ptr.check_type = CHECK_TYPE_PASSIVE) &&
        decide (ds.reason_type = NOTIFICATION_NORMAL), .allow),
    (env.merlin_sender.isNone && decide (env.num_peers = 0), .allow),
    (env.merlin_sender.isNone && (decide (ds.reason_type = NOTIFICATION_ACKNOWLEDGEMENT) ||
        decide (ds.reason_type = NOTIFICATION_CUSTOM)), .allow),
    (env.merlin_sender.isNone && should_run_locally_spec env ds, .allow),
    (true, .cancel) ]

/-- The outcome of the first rule whose condition holds. -/
def first_matching_rule : List (Bool × notify_outcome) → notify_outcome
  | [] => .cancel
  | (c, o) :: rest => if c = true then o else first_matching_rule rest

/-- Following the spec, section 4.6: the decision for a NOTIFICATION_START event. -/
def notification_decision_spec (env : Env) (ds : nebstruct_notification_data) : notify_outcome :=
  first_matching_rule (notification_rules_spec env ds)

/-- The number, 1 to 10, of the first rule of the table whose condition holds. -/
def first_matching_number : List (Bool × notify_outcome) → Nat
  | [] => 0
  | (c, _) :: rest => if c = true then 1 else first_matching_number rest + 1

/-- Following the spec, section 4.6: the number of the rule that decides a
NOTIFICATION_START event. -/
def notification_rule_spec (env : Env) (ds : nebstruct_notification_data) : Nat :=
  first_matching_number (notification_rules_spec env ds)

/-- The three counters of a bucket of `merlin_notify_stats` that hooks.c writes. -/
inductive notify_counter where
  | sent
  | master
  | peer
deriving DecidableEq, Repr

/-- The statement `mns->sent++`, `mns->master++` or `mns->peer++` on the bucket
`key`; `none` stands for a return without any of them. -/
def bump_counter (st : State) (key : Nat × Nat × Nat) : Option notify_counter → State
  | some .sent => bump_sent st key
  | some .master => bump_master st key
  | some .peer => bump_peer st key
  | none => st

/-- The counter that `hook_notification` increments before the `return` of each
rule of the table: none before the returns of rules 2, 3 and 9. -/
def counter_of_rule (rule : Nat) : Option notify_counter :=
  if rule = 1 then some .master
  else if rule = 4 ∨ rule = 6 ∨ rule = 7 ∨ rule = 8 then some .sent
  else if rule = 5 ∨ rule = 10 then some .peer
  else none

/-! ## A sample configuration -/

/-- Modelled from the spec: the `magic_destination` macro, which is not part of
the sources at hand. Section 4.3, step 6: a packet has a magic destination when
its code is NONET or its selection carries any of the three destination marks. -/
def magic_destination_spec (nonet masters peers pollers : Nat) (pkt : merlin_event) : Bool :=
  decide (pkt.hdr.code = nonet) || decide (pkt.hdr.selection &&& masters = masters) ||
  decide (pkt.hdr.selection &&& peers = peers) || decide (pkt.hdr.selection &&& pollers = pollers)

def sample_master : merlin_node := { id := 0, type := 1, flags := 0, name := "master01" }
def sample_peer : merlin_node := { id := 1, type := 2, flags := 0, name := "peer01" }
def sample_poller : merlin_node := { id := 2, type := 4, flags := 0, name := "poller01" }

/-- A node with one master, one peer and one poller, a daemon that wants every
kind, a codec that writes four bytes and an IPC channel that accepts every
packet. The header constants are 16-bit values laid out as destination marks on
top of a common magic prefix; objects with an even id are checked locally. -/
def sample_env : Env :=
  { MAGIC_NONET := 0xffff, DEST_BROADCAST := 0xffff, DEST_PEERS_MASTERS := 0xfff6,
    DEST_PEERS_POLLERS := 0xfffc, DEST_MASTERS := 0xfff2, DEST_PEERS := 0xfff4,
    DEST_POLLERS := 0xfff8, CTRL_GENERIC := 0, CTRL_PACKET := 0xffff, HDR_SIZE := 64,
    MODE_PEER := 2, MODE_POLLER := 4, MERLIN_NODE_NOTIFIES := 8,
    magic_destination := magic_destination_spec 0xffff 0xfff2 0xfff4 0xfff8,
    num_nodes := 3, num_masters := 1, num_peers := 1, num_pollers := 1,
    node_table := fun i => if i = 0 then sample_master else if i = 1 then sample_peer else sample_poller,
    peer_table := fun _ => sample_peer,
    poller_table := fun _ => sample_poller,
    nodes_by_sel_id := fun sel => if sel = 0 then [sample_poller] else [],
    node_by_id := fun i =>
      if i = 0 then some sample_master else if i = 1 then some sample_peer
      else if i = 2 then some sample_poller else none,
    node_selection_by_hostname := fun _ => none,
    node_selection_by_name := fun _ => none,
    ipc_flags := 0, ipc_peer_id := 0, ipc_active_peers := 1, online_masters := 0,
    merlin_sender := none, merlin_recv_host := none, merlin_recv_service := none,
    use_database := false,
    daemon_wants := fun _ => true,
    merlin_encode_event := fun _ _ => (4, [1, 2, 3, 4]),
    ipc_send_event := fun _ _ => 0,
    assigned_peer := fun id n => id % n,
    pgroup_host_node := fun id => if id % 2 = 0 then .ipc else .node sample_peer,
    pgroup_service_node := fun id => if id % 2 = 0 then .ipc else .node sample_peer,
    find_host := fun _ => none,
    find_service := fun _ _ => none }

/-- The sample node while it handles an event received from its poller. -/
def inbound_env : Env := { sample_env with merlin_sender := some sample_poller }

/-- The sample node without any configured node and with a daemon whose IPC
channel is backlogged. -/
def flooded_env : Env :=
  { sample_env with
    num_nodes := 0, num_masters := 0, num_peers := 0, num_pollers := 0,
    ipc_send_event := fun _ _ => -1 }

/-- The sample node with a codec that fails on every event. -/
def broken_codec_env : Env := { sample_env with merlin_encode_event := fun _ _ => (0, []) }

/-- The sample node with a daemon that has filtered out every kind. -/
def filtering_env : Env := { sample_env with daemon_wants := fun _ => false }

/-- The sample node without any configured node. -/
def lonely_env : Env :=
  { sample_env with num_nodes := 0, num_masters := 0, num_peers := 0, num_pollers := 0 }

/-- A packet of kind `type` with the given code and selection, not yet encoded. -/
def sample_pkt_with (type code selection : Nat) : merlin_event :=
  { hdr := { type := type, code := code, selection := selection, len := 0 }, body := [] }

/-- A service object with id 7. -/
def sample_object : notified_object :=
  { id := 7, check_type := 0, current_notification_number := 1, no_more_notifications := 0,
    last_notification := 1000, next_notification := 2000 }

/-- Notification data for a service notification of sub-type `type` and reason `reason`. -/
def sample_notification (type reason : Nat) : nebstruct_notification_data :=
  { type := type, notification_type := SERVICE_NOTIFICATION, reason_type := reason,
    object_ptr := sample_object, object_ptr_int := 0,
    start_time_sec := 990, start_time_usec := 0, end_time_sec := 991, end_time_usec := 0,
    host_name := some "web01", service_description := some "http", output := some "CRITICAL",
    ack_author := none, ack_data := none }

def sample_check_result : check_result :=
  { check_type := 0, check_options := 0, scheduled_check := 1, latency := 0, return_code := 2,
    output := some "CRITICAL", start_time_sec := 980 }

def sample_service : service :=
  { ptr := 4096, host_name := "web01", description := "http", id := 7, check_type := 0,
    execution_time := 0, last_check := 900, state_vars := zero_state }

def sample_host : host :=
  { ptr := 8192, name := "web01", id := 4, check_type := 0, execution_time := 0,
    last_check := 900, state_vars := zero_state }

/-- Service check data of sub-type `type` for the sample service. -/
def sample_service_check (type : Nat) : nebstruct_service_check_data :=
  { type := type, attr := 0, object_ptr := sample_service, check_type := 0, end_time_sec := 990,
    check_result_ptr := some sample_check_result }

/-- Host check data of sub-type `type` for the sample host. -/
def sample_host_check (type : Nat) : nebstruct_host_check_data :=
  { type := type, attr := 0, object_ptr := sample_host, check_type := 0, end_time_sec := 990,
    check_result_ptr := some sample_check_result }

/-- The sample node with an object table that knows host "web01" (id 4, owned
by the node itself) and its service "http" (id 7, owned by the peer). -/
def command_env : Env :=
  { sample_env with
    find_host := fun name => if name = "web01" then some sample_host else none,
    find_service := fun name descr =>
      if name = "web01" ∧ descr = "http" then some sample_service else none }

/-- An external command event of sub-type START. -/
def sample_command (cmd : ext_cmd) (args : String) : nebstruct_external_command_data :=
  { type := NEBTYPE_EXTERNALCOMMAND_START, command_type := cmd, command_args := some args }

/-- A downtime event for host "web01" with the given attribute. -/
def sample_downtime (attr : Nat) : nebstruct_downtime_data :=
  { type := 1104, attr := attr, host_name := "web01" }

/-- A user comment event of sub-kind `type` on host "web01". -/
def sample_comment (type : Nat) : nebstruct_comment_data :=
  { type := type, entry_type := 1, comment_type := 1, expires := 0, persistent := 1,
    host_name := "web01", service_description := none, author_name := "admin",
    comment_data := "checked" }

/-- A comment event of sub-kind `type` and entry type `entry_type` on host "web01". -/
def sample_entry_comment (type entry_type : Nat) : nebstruct_comment_data :=
  { type := type, entry_type := entry_type, comment_type := 1, expires := 0, persistent := 1,
    host_name := "web01", service_description := none, author_name := "admin",
    comment_data := "checked" }

/-- The sample node with a selection registered for host "web01" (id 0x12345)
and for hostgroup "linux" (id 7). -/
def selection_env : Env :=
  { sample_env with
    node_selection_by_hostname := fun key => if key = "web01" then some 0x12345 else none,
    node_selection_by_name := fun key => if key = "linux" then some 7 else none }

/-- The freshly loaded module after `merlin_set_block_comment` was handed the
sample user comment. -/
def blocked_state : State :=
  merlin_set_block_comment State.init (some (sample_comment NEBTYPE_COMMENT_LOAD))

/-- A local problem notification that starts for an actively checked service
with id 4, which the sample node owns. -/
def owned_notification : nebstruct_notification_data :=
  { sample_notification NEBTYPE_NOTIFICATION_START NOTIFICATION_NORMAL with
    object_ptr := { sample_object with id := 4 } }

/-- The sample node while it handles an event received from a poller that
notifies on its own. -/
def notifying_poller_env : Env :=
  { sample_env with merlin_sender := some { sample_poller with flags := 8 } }

/-- The sample node while it handles an event received from its peer. -/
def peer_inbound_env : Env := { sample_env with merlin_sender := some sample_peer }

/-- Three flapping callbacks on the sample node with the failing codec, at the
clock readings 1000, 1010 and 1040. -/
def sample_calls : List hook_call :=
  [ { env := broken_codec_env, cb := NEBCALLBACK_FLAPPING_DATA, data := .other 0, now := 1000 },
    { env := broken_codec_env, cb := NEBCALLBACK_FLAPPING_DATA, data := .other 0, now := 1010 },
    { env := broken_codec_env, cb := NEBCALLBACK_FLAPPING_DATA, data := .other 0, now := 1040 } ]

/-- The sample node as the peer with id `k` of a group of peers. -/
def peer_node (k : Nat) : Env := { sample_env with ipc_peer_id := k }

/-- The result and state of a run of `merlin_mod_hook`; for an undefined run,
the state it started from. -/
def run_hook (env : Env) (st : State) (cb : Int) (data : Option event_body) (now : Int) :
    neb_cb_result × State :=
  (merlin_mod_hook env st cb data now).getD (neb_cb_result_create (-1), st)

/-- The state of the sample node after a local problem notification has ended:
the notification is held. -/
def held_state : State :=
  (run_hook sample_env State.init NEBCALLBACK_NOTIFICATION_DATA
    (some (.notification (sample_notification NEBTYPE_NOTIFICATION_END NOTIFICATION_NORMAL))) 1000).2

/-- The state of the sample node after a local comment LOAD event has been sent,
with duplicate checking left on as a status sender would leave it: the dedup
slot holds the comment packet. -/
def commented_state : State :=
  { (run_hook sample_env State.init NEBCALLBACK_COMMENT_DATA
      (some (.comment (sample_comment NEBTYPE_COMMENT_LOAD))) 1000).2 with check_dupes := true }

/-- A packet as the sample codec leaves it: four body bytes. -/
def sample_sent (type code selection : Nat) : merlin_event :=
  { hdr := { type := type, code := code, selection := selection, len := 4 }, body := [1, 2, 3, 4] }

/-- A packet as `merlin_mod_hook` prepares it for callback kind `type`. -/
def sample_pkt (type : Nat) : merlin_event :=
  { hdr := { type := type, code := 0, selection := 0xffff, len := 0 }, body := [] }

/-! ## Basic facts about the dispatch engine -/

theorem is_dupe_false_state (env : Env) (st : State) (pkt : merlin_event)
    (h : (is_dupe env st pkt).1 = false) : (is_dupe env st pkt).2 = st := by
  unfold is_dupe at h ⊢
  split_ifs at h ⊢ <;> simp_all

theorem is_dupe_trace (env : Env) (st : State) (pkt : merlin_event) :
    (is_dupe env st pkt).2.trace = st.trace := by
  unfold is_dupe
  split_ifs <;> rfl

theorem is_dupe_last_pkt (env : Env) (st : State) (pkt : merlin_event) :
    (is_dupe env st pkt).2.last_pkt = st.last_pkt := by
  unfold is_dupe
  split_ifs <;> rfl

theorem is_dupe_off (env : Env) (st : State) (pkt : merlin_event) (h : st.check_dupes = false) :
    is_dupe env st pkt = (false, st) := by
  unfold is_dupe
  simp [h]

/-! ## Encode failure -/

/-- C9. A packet that passes the early-drop test and for which the codec returns
length 0 makes send_generic return -1 and leave the whole state as it was: no IPC
send, no net_sendto, dedup slot and duplicate counters untouched. -/
theorem send_generic_encode_failure (env : Env) (st : State) (pkt : merlin_event) (data : event_body)
    (hpass : early_drop env pkt = false)
    (hlen : (env.merlin_encode_event pkt data).1 = 0) :
    (send_generic env st pkt data).1 = -1 ∧
    (send_generic env st pkt data).1 < 0 ∧
    (send_generic env st pkt data).2.2 = st ∧
    ipc_sends (send_generic env st pkt data).2.2.trace = ipc_sends st.trace ∧
    net_sends (send_generic env st pkt data).2.2.trace = net_sends st.trace ∧
    (send_generic env st pkt data).2.2.last_pkt = st.last_pkt ∧
    (send_generic env st pkt data).2.2.dupes = st.dupes ∧
    (send_generic env st pkt data).2.2.dupe_bytes = st.dupe_bytes := by
  have h : send_generic env st pkt data = (-1, encode_packet env pkt data, st) := by
    simp [send_generic, hpass, encode_packet, hlen]
  simp [h]

/-! ## Deduplication -/

theorem early_drop_of_wants (env : Env) (pkt : merlin_event)
    (h : env.daemon_wants pkt.hdr.type = true) : early_drop env pkt = false := by
  simp [early_drop, h]

theorem body_bytes_length (b : List Nat) (n : Nat) : (body_bytes b n).length = n := by
  simp [body_bytes]

theorem body_bytes_getD (b : List Nat) (n i : Nat) (h : i < n) :
    (body_bytes b n).getD i 0 = b.getD i 0 := by
  have hl : i < (body_bytes b n).length := by simpa [body_bytes] using h
  rw [List.getD_eq_getElem _ _ hl]
  simp [body_bytes]

theorem body_bytes_memcpy (b rest : List Nat) (n : Nat) :
    body_bytes (body_bytes b n ++ rest) n = body_bytes b n := by
  have key : ∀ i ∈ List.range n, (body_bytes b n ++ rest).getD i 0 = b.getD i 0 := by
    intro i hi
    have hi : i < n := List.mem_range.mp hi
    rw [List.getD_append _ _ _ _ (by simpa [body_bytes_length] using hi)]
    exact body_bytes_getD b n i hi
  show (List.range n).map _ = (List.range n).map _
  exact List.map_congr_left key

/-- A packet compares equal to the dedup slot right after it was copied there. -/
theorem memcmp_eq_memcpy (old a b : merlin_event) (hh : b.hdr = a.hdr)
    (hb : body_bytes b.body a.hdr.len = body_bytes a.body a.hdr.len) :
    memcmp_eq (memcpy_event old a) b = true := by
  simp only [memcmp_eq, memcpy_event, hh, Bool.and_eq_true, decide_eq_true_eq, true_and]
  rw [body_bytes_memcpy, hb]

theorem ipc_sends_append (a b : List effect) : ipc_sends (a ++ b) = ipc_sends a ++ ipc_sends b := by
  simp [ipc_sends]

theorem net_sends_append (a b : List effect) : net_sends (a ++ b) = net_sends a ++ net_sends b := by
  simp [net_sends]

theorem sent_packets_append (a b : List effect) :
    sent_packets (a ++ b) = sent_packets a ++ sent_packets b := by
  simp [sent_packets]

/-! ## Trace extension -/

theorem extends_by_refl (P : effect → Prop) (st : State) : extends_by P st st :=
  ⟨[], by simp, by simp⟩

theorem extends_by_of_trace_eq (P : effect → Prop) (st st' : State) (h : st'.trace = st.trace) :
    extends_by P st st' :=
  ⟨[], by simp [h], by simp⟩

theorem extends_by_trans (P : effect → Prop) (a b c : State)
    (h1 : extends_by P a b) (h2 : extends_by P b c) : extends_by P a c := by
  obtain ⟨n1, e1, p1⟩ := h1
  obtain ⟨n2, e2, p2⟩ := h2
  refine ⟨n1 ++ n2, by rw [e2, e1, List.append_assoc], ?_⟩
  intro e he
  rcases List.mem_append.mp he with h | h
  · exact p1 e h
  · exact p2 e h

theorem extends_by_mono (P Q : effect → Prop) (a b : State) (hPQ : ∀ e, P e → Q e)
    (h : extends_by P a b) : extends_by Q a b := by
  obtain ⟨n, e, p⟩ := h
  exact ⟨n, e, fun x hx => hPQ x (p x hx)⟩

theorem extends_by_emit (P : effect → Prop) (st : State) (es : List effect)
    (h : ∀ e ∈ es, P e) : extends_by P st (st.emit es) :=
  ⟨es, rfl, h⟩

theorem trace_since_of_extends (P : effect → Prop) (st st' : State) (h : extends_by P st st') :
    st'.trace = st.trace ++ trace_since st st' ∧ ∀ e ∈ trace_since st st', P e := by
  obtain ⟨n, e, p⟩ := h
  have : trace_since st st' = n := by simp [trace_since, e]
  rw [this]
  exact ⟨e, p⟩

theorem ipc_sends_net_sendto_range (tbl : Nat → merlin_node) (n : Nat) (pkt : merlin_event) :
    ipc_sends (net_sendto_range tbl n pkt) = [] := by
  simp [ipc_sends, net_sendto_range, List.filterMap_map, Function.comp_def]

theorem ipc_sends_map_net_sendto (li : List merlin_node) (pkt : merlin_event) :
    ipc_sends (li.map (fun n => effect.net_sendto n pkt)) = [] := by
  simp [ipc_sends, List.filterMap_map, Function.comp_def]

theorem ipc_sends_magic_sends (env : Env) (pkt : merlin_event) :
    ipc_sends (magic_sends env pkt) = [] := by
  unfold magic_sends
  split_ifs <;> simp [ipc_sends_append, ipc_sends_net_sendto_range]
  all_goals rfl

/-- The network part of the dispatch engine makes no IPC send. -/
theorem ipc_sends_net_fanout (env : Env) (pkt : merlin_event) (result : Int) :
    ipc_sends (net_fanout env pkt result).2 = [] := by
  unfold net_fanout
  split_ifs
  · rfl
  · exact ipc_sends_magic_sends env pkt
  · exact ipc_sends_net_sendto_range _ _ _
  · exact ipc_sends_net_sendto_range _ _ _
  · simp [ipc_sends_append, ipc_sends_net_sendto_range, ipc_sends_map_net_sendto]

/-- C2. When send_generic is called for a wanted kind, reaches the local emit
and the IPC send succeeds, and is then called again with duplicate checking
enabled and a packet that encodes to the same header and the same body bytes,
then the first call makes exactly one IPC send and the second call makes no IPC
send and no net_sendto (its trace is unchanged), returns 0 and increments the
duplicate counter by one (as an unsigned 64-bit counter). -/
theorem send_generic_dedup (env : Env) (st st2 : State) (pkt pkt2 : merlin_event)
    (data data2 : event_body)
    (hwant : env.daemon_wants pkt.hdr.type = true)
    (hlen : (encode_packet env pkt data).hdr.len ≠ 0)
    (hfirst : (is_dupe env st (encode_packet env pkt data)).1 = false)
    (hipc : 0 ≤ env.ipc_send_event st.trace (encode_packet env pkt data))
    (hslot : st2.last_pkt = (send_generic env st pkt data).2.2.last_pkt)
    (hcheck : st2.check_dupes = true)
    (hsame_hdr : (encode_packet env pkt2 data2).hdr = (encode_packet env pkt data).hdr)
    (hsame_body : body_bytes (encode_packet env pkt2 data2).body (encode_packet env pkt data).hdr.len
      = body_bytes (encode_packet env pkt data).body (encode_packet env pkt data).hdr.len) :
    ipc_sends (send_generic env st pkt data).2.2.trace
      = ipc_sends st.trace ++ [encode_packet env pkt data] ∧
    (send_generic env st2 pkt2 data2).1 = 0 ∧
    (send_generic env st2 pkt2 data2).2.2.trace = st2.trace ∧
    ipc_sends (send_generic env st2 pkt2 data2).2.2.trace = ipc_sends st2.trace ∧
    net_sends (send_generic env st2 pkt2 data2).2.2.trace = net_sends st2.trace ∧
    (send_generic env st2 pkt2 data2).2.2.dupes = u64 (st2.dupes + 1) := by
  have hst : (is_dupe env st (encode_packet env pkt data)).2 = st :=
    is_dupe_false_state _ _ _ hfirst
  have hwant1 : env.daemon_wants (encode_packet env pkt data).hdr.type = true := by
    simpa [encode_packet] using hwant
  have h1 : send_generic env st pkt data =
      ((net_fanout env (encode_packet env pkt data)
          (local_emit_result env st (encode_packet env pkt data))).1,
        encode_packet env pkt data,
        (local_emit env st (encode_packet env pkt data)).emit
            (net_fanout env (encode_packet env pkt data)
              (local_emit_result env st (encode_packet env pkt data))).2) := by
    simp [send_generic, early_drop_of_wants env pkt hwant, hlen, hfirst, hst]
  have hlast : st2.last_pkt = memcpy_event st.last_pkt (encode_packet env pkt data) := by
    rw [hslot, h1]
    simp [State.emit, local_emit, hwant1, not_lt.mpr hipc]
  have htype2 : pkt2.hdr.type = pkt.hdr.type := by
    have := congrArg merlin_header.type hsame_hdr
    simpa [encode_packet] using this
  have hwant2 : env.daemon_wants pkt2.hdr.type = true := by rw [htype2]; exact hwant
  have hlen2 : (encode_packet env pkt2 data2).hdr.len ≠ 0 := by rw [hsame_hdr]; exact hlen
  have hdup : is_dupe env st2 (encode_packet env pkt2 data2) =
      (true, { st2 with
        dupe_bytes := u64 (st2.dupe_bytes + packet_size env (encode_packet env pkt2 data2)),
        dupes := u64 (st2.dupes + 1) }) := by
    have hm : memcmp_eq st2.last_pkt (encode_packet env pkt2 data2) = true := by
      rw [hlast]
      exact memcmp_eq_memcpy _ _ _ hsame_hdr hsame_body
    have ht : st2.last_pkt.hdr.type = (encode_packet env pkt2 data2).hdr.type := by
      rw [hlast, hsame_hdr]; rfl
    have hs : packet_size env st2.last_pkt = packet_size env (encode_packet env pkt2 data2) := by
      rw [hlast]; simp [packet_size, memcpy_event, hsame_hdr]
    simp [is_dupe, hcheck, ht, hs, hm]
  have h2 : send_generic env st2 pkt2 data2 =
      (0, encode_packet env pkt2 data2, { st2 with
        dupe_bytes := u64 (st2.dupe_bytes + packet_size env (encode_packet env pkt2 data2)),
        dupes := u64 (st2.dupes + 1) }) := by
    simp [send_generic, early_drop_of_wants env pkt2 hwant2, hlen2, hdup]
  refine ⟨?_, ?_, ?_, ?_, ?_, ?_⟩
  · rw [h1]
    show ipc_sends ((local_emit env st (encode_packet env pkt data)).trace ++ _) = _
    rw [ipc_sends_append, ipc_sends_net_fanout, List.append_nil]
    simp only [local_emit, hwant1, if_true, ipc_sends_append]
    rfl
  · rw [h2]
  · rw [h2]
  · rw [h2]
  · rw [h2]
  · rw [h2]

/-- Witness for C2: a service check packet sent twice on the sample node. -/
theorem send_generic_dedup_witness :
    ipc_sends (send_generic sample_env State.init (sample_pkt 6) (.other 0)).2.2.trace
      = ipc_sends State.init.trace ++ [encode_packet sample_env (sample_pkt 6) (.other 0)] ∧
    (send_generic sample_env
      { (send_generic sample_env State.init (sample_pkt 6) (.other 0)).2.2 with check_dupes := true }
      (sample_pkt 6) (.other 0)).1 = 0 ∧
    (send_generic sample_env
      { (send_generic sample_env State.init (sample_pkt 6) (.other 0)).2.2 with check_dupes := true }
      (sample_pkt 6) (.other 0)).2.2.dupes = 1 := by
  have h := send_generic_dedup sample_env State.init
    { (send_generic sample_env State.init (sample_pkt 6) (.other 0)).2.2 with check_dupes := true }
    (sample_pkt 6) (sample_pkt 6) (.other 0) (.other 0)
    (by decide) (by decide) (by decide) (by decide) rfl rfl rfl rfl
  exact ⟨h.1, h.2.1, h.2.2.2.2.2⟩

/-! ## What the dispatch engine sends and what it leaves alone -/

theorem net_sendto_range_packet (tbl : Nat → merlin_node) (n : Nat) (pkt : merlin_event) :
    ∀ e ∈ net_sendto_range tbl n pkt, e.packet = some pkt := by
  intro e he
  simp only [net_sendto_range, List.mem_map] at he
  obtain ⟨i, _, rfl⟩ := he
  rfl

theorem magic_sends_packet (env : Env) (pkt : merlin_event) :
    ∀ e ∈ magic_sends env pkt, e.packet = some pkt := by
  intro e he
  unfold magic_sends at he
  simp only [List.mem_append] at he
  rcases he with (he | he) | he
  all_goals
    split_ifs at he
    · exact net_sendto_range_packet _ _ _ e he
    · simp at he

theorem net_fanout_packet (env : Env) (pkt : merlin_event) (result : Int) :
    ∀ e ∈ (net_fanout env pkt result).2, e.packet = some pkt := by
  intro e he
  unfold net_fanout at he
  split_ifs at he
  · simp at he
  · exact magic_sends_packet env pkt e he
  · exact net_sendto_range_packet _ _ _ e he
  · exact net_sendto_range_packet _ _ _ e he
  · rcases List.mem_append.mp he with h | h
    · exact net_sendto_range_packet _ _ _ e h
    · simp only [List.mem_map] at h
      obtain ⟨n, _, rfl⟩ := h
      rfl

theorem local_emit_trace (env : Env) (st : State) (pkt : merlin_event) :
    (local_emit env st pkt).trace =
      st.trace ++ (if env.daemon_wants pkt.hdr.type = true then [effect.ipc_send_event pkt] else []) := by
  unfold local_emit
  by_cases h : env.daemon_wants pkt.hdr.type = true <;> simp [h]

theorem local_emit_extends (env : Env) (st : State) (pkt : merlin_event) :
    extends_by (fun e => e.packet = some pkt) st (local_emit env st pkt) := by
  refine ⟨_, local_emit_trace env st pkt, ?_⟩
  intro e he
  split_ifs at he
  · simp only [List.mem_singleton] at he
    subst he
    rfl
  · simp at he

theorem local_emit_frame (env : Env) (st : State) (pkt : merlin_event) :
    ∃ lp tr, local_emit env st pkt = { st with last_pkt := lp, trace := tr } := by
  unfold local_emit
  by_cases h : env.daemon_wants pkt.hdr.type = true
  · simp only [h, if_true]
    exact ⟨_, _, rfl⟩
  · simp only [h]
    exact ⟨_, _, rfl⟩

/-- The dispatch engine with its local bindings written out. -/
theorem send_generic_unfold (env : Env) (st : State) (pkt : merlin_event) (data : event_body) :
    send_generic env st pkt data =
      if early_drop env pkt = true then (0, pkt, st)
      else if (encode_packet env pkt data).hdr.len = 0 then (-1, encode_packet env pkt data, st)
      else if (is_dupe env st (encode_packet env pkt data)).1 = true then
        (0, encode_packet env pkt data, (is_dupe env st (encode_packet env pkt data)).2)
      else
        ((net_fanout env (encode_packet env pkt data)
            (local_emit_result env (is_dupe env st (encode_packet env pkt data)).2
              (encode_packet env pkt data))).1,
          encode_packet env pkt data,
          (local_emit env (is_dupe env st (encode_packet env pkt data)).2
              (encode_packet env pkt data)).emit
            (net_fanout env (encode_packet env pkt data)
              (local_emit_result env (is_dupe env st (encode_packet env pkt data)).2
                (encode_packet env pkt data))).2) := rfl

/-- Every call made by the dispatch engine is a send of the encoded packet. -/
theorem send_generic_extends (env : Env) (st : State) (pkt : merlin_event) (data : event_body) :
    extends_by (fun e => e.packet = some (encode_packet env pkt data)) st
      (send_generic env st pkt data).2.2 := by
  rw [send_generic_unfold]
  split_ifs with h1 h2 h3
  · exact extends_by_refl _ _
  · exact extends_by_refl _ _
  · exact extends_by_of_trace_eq _ _ _ (is_dupe_trace _ _ _)
  · exact extends_by_trans _ st _ _
      (extends_by_trans _ st _ _ (extends_by_of_trace_eq _ _ _ (is_dupe_trace _ _ _))
        (local_emit_extends env _ _))
      (extends_by_emit _ _ _ (net_fanout_packet _ _ _))

theorem encode_packet_code (env : Env) (pkt : merlin_event) (data : event_body) :
    (encode_packet env pkt data).hdr.code = pkt.hdr.code := rfl

theorem encode_packet_type (env : Env) (pkt : merlin_event) (data : event_body) :
    (encode_packet env pkt data).hdr.type = pkt.hdr.type := rfl

theorem encode_packet_selection (env : Env) (pkt : merlin_event) (data : event_body) :
    (encode_packet env pkt data).hdr.selection = pkt.hdr.selection := rfl

/-- The dispatch engine writes only the dedup slot, the duplicate counters and
the trace. -/
theorem send_generic_frame (env : Env) (st : State) (pkt : merlin_event) (data : event_body) :
    ∃ lp d db tr, (send_generic env st pkt data).2.2 =
      { st with last_pkt := lp, dupes := d, dupe_bytes := db, trace := tr } := by
  rw [send_generic_unfold]
  split_ifs with h1 h2 h3
  · exact ⟨_, _, _, _, rfl⟩
  · exact ⟨_, _, _, _, rfl⟩
  · unfold is_dupe
    split_ifs <;> exact ⟨_, _, _, _, rfl⟩
  · have hd := is_dupe_false_state env st (encode_packet env pkt data) (by simpa using h3)
    rw [hd]
    obtain ⟨lp, tr, h⟩ := local_emit_frame env st (encode_packet env pkt data)
    rw [h]
    exact ⟨_, _, _, _, rfl⟩

theorem send_generic_tmp_notif_data (env : Env) (st : State) (pkt : merlin_event) (data : event_body) :
    (send_generic env st pkt data).2.2.tmp_notif_data = st.tmp_notif_data := by
  obtain ⟨lp, d, db, tr, h⟩ := send_generic_frame env st pkt data
  rw [h]

theorem send_generic_tmp_notif_pkt (env : Env) (st : State) (pkt : merlin_event) (data : event_body) :
    (send_generic env st pkt data).2.2.tmp_notif_pkt = st.tmp_notif_pkt := by
  obtain ⟨lp, d, db, tr, h⟩ := send_generic_frame env st pkt data
  rw [h]

theorem send_generic_last_flood_warning (env : Env) (st : State) (pkt : merlin_event)
    (data : event_body) :
    (send_generic env st pkt data).2.2.last_flood_warning = st.last_flood_warning := by
  obtain ⟨lp, d, db, tr, h⟩ := send_generic_frame env st pkt data
  rw [h]

/-! ## What the hooks send -/

theorem send_generic_sends_of (env : Env) (st : State) (pkt : merlin_event) (data : event_body) :
    extends_by (sends_of env pkt) st (send_generic env st pkt data).2.2 :=
  extends_by_mono _ _ _ _ (fun e he p hp => ⟨data, by rw [he] at hp; exact (Option.some.inj hp).symm⟩)
    (send_generic_extends env st pkt data)

theorem sends_of_nonet (env : Env) (pkt : merlin_event) (h : pkt.hdr.code = env.MAGIC_NONET)
    (e : effect) (he : sends_of env pkt e) : nonet_marked env e := by
  intro p hp
  obtain ⟨d, rfl⟩ := he p hp
  exact h

theorem sends_of_quiet (env : Env) (pkt : merlin_event) (e : effect) (h : e.packet = none) :
    sends_of env pkt e := by
  intro p hp
  rw [h] at hp
  cases hp

theorem nonet_marked_quiet (env : Env) (e : effect) (h : e.packet = none) : nonet_marked env e := by
  intro p hp
  rw [h] at hp
  cases hp

theorem note_host_trace (st : State) (obj : Nat) : (note_host st obj).trace = st.trace := by
  unfold note_host
  split_ifs <;> rfl

theorem note_service_trace (st : State) (obj : Nat) : (note_service st obj).trace = st.trace := by
  unfold note_service
  split_ifs <;> rfl

theorem note_host_tmp_notif (st : State) (obj : Nat) :
    (note_host st obj).tmp_notif_data = st.tmp_notif_data ∧
    (note_host st obj).tmp_notif_pkt = st.tmp_notif_pkt := by
  unfold note_host
  split_ifs <;> exact ⟨rfl, rfl⟩

theorem note_service_tmp_notif (st : State) (obj : Nat) :
    (note_service st obj).tmp_notif_data = st.tmp_notif_data ∧
    (note_service st obj).tmp_notif_pkt = st.tmp_notif_pkt := by
  unfold note_service
  split_ifs <;> exact ⟨rfl, rfl⟩

theorem send_host_status_sends_of (env : Env) (st : State) (pkt : merlin_event) (nebattr : Int)
    (obj : host) (cr : Option check_result) :
    extends_by (sends_of env pkt) st (send_host_status env st pkt nebattr obj cr).2 := by
  unfold send_host_status
  split_ifs
  · exact extends_by_refl _ _
  · cases host_status_body pkt nebattr obj cr with
    | none => exact extends_by_of_trace_eq _ _ _ (note_host_trace _ _)
    | some body =>
      exact extends_by_trans _ st _ _ (extends_by_of_trace_eq _ _ _ (note_host_trace _ _))
        (send_generic_sends_of _ _ _ _)

theorem send_service_status_sends_of (env : Env) (st : State) (pkt : merlin_event) (nebattr : Int)
    (obj : service) (cr : Option check_result) :
    extends_by (sends_of env pkt) st (send_service_status env st pkt nebattr obj cr).2 := by
  unfold send_service_status
  cases service_status_body pkt nebattr obj cr with
  | none => exact extends_by_of_trace_eq _ _ _ (note_service_trace _ _)
  | some body =>
    exact extends_by_trans _ st _ _ (extends_by_of_trace_eq _ _ _ (note_service_trace _ _))
      (send_generic_sends_of _ _ _ _)

theorem send_host_status_tmp_notif (env : Env) (st : State) (pkt : merlin_event)
    (nebattr : Int) (obj : host) (cr : Option check_result) :
    (send_host_status env st pkt nebattr obj cr).2.tmp_notif_data = st.tmp_notif_data ∧
    (send_host_status env st pkt nebattr obj cr).2.tmp_notif_pkt = st.tmp_notif_pkt := by
  unfold send_host_status
  split_ifs
  · exact ⟨rfl, rfl⟩
  · cases host_status_body pkt nebattr obj cr with
    | none => exact note_host_tmp_notif _ _
    | some body =>
      simp only [drop_pkt, send_generic_tmp_notif_data, send_generic_tmp_notif_pkt]
      exact note_host_tmp_notif _ _

theorem send_service_status_tmp_notif (env : Env) (st : State) (pkt : merlin_event)
    (nebattr : Int) (obj : service) (cr : Option check_result) :
    (send_service_status env st pkt nebattr obj cr).2.tmp_notif_data = st.tmp_notif_data ∧
    (send_service_status env st pkt nebattr obj cr).2.tmp_notif_pkt = st.tmp_notif_pkt := by
  unfold send_service_status
  cases service_status_body pkt nebattr obj cr with
  | none => exact note_service_tmp_notif _ _
  | some body =>
    simp only [drop_pkt, send_generic_tmp_notif_data, send_generic_tmp_notif_pkt]
    exact note_service_tmp_notif _ _

theorem flush_notification_empty (env : Env) (st : State) (h : st.tmp_notif_data = none) :
    flush_notification env st = (-1, st) := by
  simp [flush_notification, h]

theorem flush_notification_sends_of (env : Env) (st : State) :
    extends_by (sends_of env st.tmp_notif_pkt) st (flush_notification env st).2 := by
  unfold flush_notification
  cases h : st.tmp_notif_data with
  | none => exact extends_by_refl _ _
  | some d =>
    exact extends_by_trans _ st _ _ (send_generic_sends_of env st st.tmp_notif_pkt (.notification d))
      (extends_by_of_trace_eq _ _ _ rfl)

theorem flush_notification_slot (env : Env) (st : State) :
    (flush_notification env st).2.tmp_notif_data = none := by
  unfold flush_notification
  cases h : st.tmp_notif_data with
  | none => exact h
  | some d => rfl

/-! ## Inbound events -/

theorem extends_by_quiet (env : Env) (st st' : State) (es : List effect)
    (ht : st'.trace = st.trace ++ es) (hq : ∀ e ∈ es, e.packet = none) :
    extends_by (nonet_marked env) st st' :=
  ⟨es, ht, fun e he => nonet_marked_quiet env e (hq e he)⟩

theorem check_result_pkt_inbound (env : Env) (pkt : merlin_event) (sender : merlin_node)
    (h : env.merlin_sender = some sender) :
    (check_result_pkt env pkt).hdr.code = env.MAGIC_NONET := by
  simp [check_result_pkt, h]

theorem hook_host_result_inbound (env : Env) (st : State) (pkt : merlin_event)
    (ds : nebstruct_host_check_data) (sender : merlin_node)
    (hs : env.merlin_sender = some sender) (hslot : st.tmp_notif_data = none) :
    extends_by (nonet_marked env) st (hook_host_result env st pkt ds).2 := by
  unfold hook_host_result
  split_ifs
  · exact extends_by_quiet env st _ _ rfl (by simp [effect.packet])
  · exact extends_by_quiet env st _ _ rfl (by simp [effect.packet])
  · exact extends_by_quiet env st _ _ rfl (by simp [effect.packet])
  · rw [flush_notification_empty _ _ (by rw [(send_host_status_tmp_notif _ _ _ _ _ _).1]; exact hslot)]
    refine extends_by_trans _ st _ _ ?_
      (extends_by_mono _ _ _ _ (sends_of_nonet env _ (check_result_pkt_inbound env pkt sender hs))
        (send_host_status_sends_of _ _ _ _ _ _))
    exact extends_by_quiet env st _ _ rfl (by simp [effect.packet])
  · exact extends_by_refl _ _

theorem hook_service_result_inbound (env : Env) (st : State) (pkt : merlin_event)
    (ds : nebstruct_service_check_data) (sender : merlin_node)
    (hs : env.merlin_sender = some sender) (hslot : st.tmp_notif_data = none) :
    extends_by (nonet_marked env) st (hook_service_result env st pkt ds).2 := by
  unfold hook_service_result
  split_ifs
  · exact extends_by_quiet env st _ _ rfl (by simp [effect.packet])
  · exact extends_by_quiet env st _ _ rfl (by simp [effect.packet])
  · exact extends_by_quiet env st _ _ rfl (by simp [effect.packet])
  · rw [flush_notification_empty _ _ (by rw [(send_service_status_tmp_notif _ _ _ _ _ _).1]; exact hslot)]
    refine extends_by_trans _ st _ _ ?_
      (extends_by_mono _ _ _ _ (sends_of_nonet env _ (check_result_pkt_inbound env pkt sender hs))
        (send_service_status_sends_of _ _ _ _ _ _))
    exact extends_by_quiet env st _ _ rfl (by simp [effect.packet])
  · exact extends_by_refl _ _

theorem external_command_send_inbound (env : Env) (st : State) (pkt : merlin_event)
    (ds : nebstruct_external_command_data) (c : Int) (sender : merlin_node)
    (hs : env.merlin_sender = some sender) :
    extends_by (nonet_marked env) st (external_command_send env st pkt ds c).2 := by
  unfold external_command_send
  exact extends_by_mono _ _ _ _ (sends_of_nonet env _ (by simp [mark_if_inbound, hs]))
    (send_generic_sends_of _ _ _ _)

/-- The external command hook either leaves the state alone or ends in the
common send of the packet chosen by the `switch`. -/
theorem hook_external_command_cases (env : Env) (st : State) (pkt : merlin_event)
    (ds : nebstruct_external_command_data) (r : Int × State)
    (h : hook_external_command env st pkt ds = some r) :
    r.2 = st ∨ ∃ pkt2 c, r = external_command_send env st pkt2 ds c := by
  unfold hook_external_command at h
  by_cases h0 : ds.type ≠ NEBTYPE_EXTERNALCOMMAND_START
  · rw [if_pos h0] at h
    left; cases h; rfl
  · rw [if_neg h0] at h
    repeat' (split at h)
    all_goals first
      | (left; cases h; rfl)
      | (right; cases h; exact ⟨_, _, rfl⟩)
      | cases h

theorem bump_trace (st : State) (key : Nat × Nat × Nat) :
    (bump_sent st key).trace = st.trace ∧ (bump_master st key).trace = st.trace ∧
    (bump_peer st key).trace = st.trace := ⟨rfl, rfl, rfl⟩

theorem hook_notification_start_trace (env : Env) (st : State) (ds : nebstruct_notification_data) :
    (hook_notification_start env st ds).2.trace = st.trace := by
  unfold hook_notification_start
  split_ifs
  · rfl
  · cases env.merlin_sender with
    | none =>
      simp only [hook_notification_start_local]
      split_ifs <;> rfl
    | some sender =>
      simp only [hook_notification_start_inbound]
      split_ifs <;> rfl

theorem mod_hook_enter_extends (env : Env) (st : State) (now : Int) :
    extends_by (nonet_marked env) st (mod_hook_enter st now) := by
  unfold mod_hook_enter
  split_ifs
  · exact extends_by_quiet env st _ [effect.node_send_ctrl_active] rfl (by simp [effect.packet])
  · exact extends_by_refl _ _

theorem mod_hook_enter_slot (st : State) (now : Int) :
    (mod_hook_enter st now).tmp_notif_data = st.tmp_notif_data ∧
    (mod_hook_enter st now).tmp_notif_pkt = st.tmp_notif_pkt := by
  unfold mod_hook_enter
  split_ifs <;> exact ⟨rfl, rfl⟩

theorem mod_hook_leave_extends (env : Env) (st : State) (result now : Int) :
    extends_by (nonet_marked env) st (mod_hook_leave st result now) := by
  unfold mod_hook_leave
  split_ifs
  · exact extends_by_quiet env st _ [effect.lwarn_flooded] rfl (by simp [effect.packet])
  · exact extends_by_refl _ _

/-- The `switch` of the entry point, for an inbound event that is neither a
NOTIFICATION_END nor a contact notification method END, with an empty hold slot:
whatever is sent is marked NONET. -/
theorem mod_hook_switch_inbound (env : Env) (st : State) (pkt : merlin_event) (cb : Int)
    (data : event_body) (sender : merlin_node) (r : Option neb_cb_result × Int × State)
    (hs : env.merlin_sender = some sender) (hslot : st.tmp_notif_data = none)
    (hnotif : ∀ ds, data = .notification ds → ds.type ≠ NEBTYPE_NOTIFICATION_END)
    (hcnm : ∀ ds, data = .contact_notification_method ds →
      ds.type ≠ NEBTYPE_CONTACTNOTIFICATIONMETHOD_END)
    (h : mod_hook_switch env st pkt cb data = some r) :
    extends_by (nonet_marked env) st r.2.2 := by
  unfold mod_hook_switch at h
  split_ifs at h
  · split at h
    · rename_i ds
      cases h
      have hne := hnotif ds rfl
      unfold hook_notification
      rw [if_neg hne]
      split_ifs
      · exact extends_by_refl _ _
      · exact extends_by_of_trace_eq _ _ _ (hook_notification_start_trace _ _ _)
    · cases h
  · split at h
    · rename_i ds
      cases h
      have hne := hcnm ds rfl
      unfold hook_contact_notification_method
      rw [if_pos hne]
      exact extends_by_refl _ _
    · cases h
  · split at h
    · cases h
      exact hook_host_result_inbound env st pkt _ sender hs hslot
    · cases h
  · split at h
    · cases h
      exact hook_service_result_inbound env st pkt _ sender hs hslot
    · cases h
  · split at h
    · rename_i ds
      have hc : hook_comment env st pkt ds = some (0, st) := by
        unfold hook_comment
        split_ifs
        · rfl
        · rfl
        · simp_all
      rw [hc] at h
      cases h
      exact extends_by_refl _ _
    · cases h
  · split at h
    · cases h
      unfold hook_downtime
      rw [if_pos (by simp [hs])]
      exact extends_by_refl _ _
    · cases h
  · split at h
    · rename_i ds
      cases hx : hook_external_command env st pkt ds with
      | none => rw [hx] at h; cases h
      | some x =>
        rw [hx] at h
        cases h
        rcases hook_external_command_cases env st pkt ds x hx with h1 | ⟨pkt2, c, h1⟩
        · exact extends_by_of_trace_eq _ _ _ (by show x.2.trace = st.trace; rw [h1])
        · show extends_by (nonet_marked env) st x.2
          rw [h1]
          exact external_command_send_inbound env st pkt2 ds c sender hs
    · cases h
  · cases h
    exact extends_by_mono _ _ _ _ (sends_of_nonet env _ rfl) (send_generic_sends_of _ _ _ _)
  · cases h
    exact extends_by_refl _ _
  · cases h
    exact extends_by_refl _ _

theorem sent_packets_of_forall (P : merlin_event → Prop) (tr : List effect)
    (h : ∀ e ∈ tr, ∀ p, e.packet = some p → P p) : ∀ p ∈ sent_packets tr, P p := by
  intro p hp
  simp only [sent_packets, List.mem_filterMap] at hp
  obtain ⟨e, he, hep⟩ := hp
  exact h e he p hep

/-- C1, as amended. When `merlin_mod_hook` runs while an inbound sender is set,
the hold slot is empty and the event is neither a NOTIFICATION_END nor a contact
notification method END, every packet it sends, to the local IPC or through
net_sendto, is marked NONET. -/
theorem inbound_packets_marked_nonet (env : Env) (st st2 : State) (cb : Int)
    (data : Option event_body) (now : Int) (sender : merlin_node) (r : neb_cb_result)
    (hs : env.merlin_sender = some sender)
    (hslot : st.tmp_notif_data = none)
    (hnotif : ∀ ds, data = some (.notification ds) → ds.type ≠ NEBTYPE_NOTIFICATION_END)
    (hcnm : ∀ ds, data = some (.contact_notification_method ds) →
      ds.type ≠ NEBTYPE_CONTACTNOTIFICATIONMETHOD_END)
    (hrun : merlin_mod_hook env st cb data now = some (r, st2)) :
    st2.trace = st.trace ++ trace_since st st2 ∧
    ∀ p ∈ sent_packets (trace_since st st2), p.hdr.code = env.MAGIC_NONET := by
  have key : extends_by (nonet_marked env) st st2 := by
    unfold merlin_mod_hook at hrun
    cases data with
    | none =>
      cases hrun
      exact extends_by_refl _ _
    | some d =>
      simp only [] at hrun
      split_ifs at hrun
      · cases hrun
        exact extends_by_refl _ _
      · cases hx : mod_hook_switch env (mod_hook_enter st now) (mod_hook_pkt env cb) cb d with
        | none => rw [hx] at hrun; cases hrun
        | some x =>
          rw [hx] at hrun
          cases hrun
          refine extends_by_trans _ st _ _ (mod_hook_enter_extends env st now)
            (extends_by_trans _ _ _ _ ?_ (mod_hook_leave_extends env _ _ _))
          exact mod_hook_switch_inbound env _ _ cb d sender x hs
            (by rw [(mod_hook_enter_slot st now).1]; exact hslot)
            (fun ds hd => hnotif ds (by rw [hd]))
            (fun ds hd => hcnm ds (by rw [hd])) hx
  have h := trace_since_of_extends _ _ _ key
  exact ⟨h.1, sent_packets_of_forall _ _ h.2⟩

/-- C1, counterexample. On the sample node an inbound NOTIFICATION_END is sent on
to the master and to the peer through net_sendto, with code 0. -/
theorem inbound_notification_end_reaches_network :
    (merlin_mod_hook inbound_env State.init NEBCALLBACK_NOTIFICATION_DATA
        (some (.notification (sample_notification NEBTYPE_NOTIFICATION_END NOTIFICATION_NORMAL)))
        1000).map (fun r => net_sends r.2.trace)
      = some [(sample_master, sample_sent 5 0 0xfff6), (sample_peer, sample_sent 5 0 0xfff6)] := by
  decide

/-- Witness for C1 as amended: an inbound service check result on the sample node. -/
theorem inbound_packets_marked_nonet_witness :
    (sent_packets (trace_since State.init
      (run_hook inbound_env State.init NEBCALLBACK_SERVICE_CHECK_DATA
        (some (.service_check (sample_service_check NEBTYPE_SERVICECHECK_PROCESSED))) 1000).2)).all
      (fun p => decide (p.hdr.code = inbound_env.MAGIC_NONET)) = true := by
  have h := inbound_packets_marked_nonet inbound_env State.init
    (run_hook inbound_env State.init NEBCALLBACK_SERVICE_CHECK_DATA
      (some (.service_check (sample_service_check NEBTYPE_SERVICECHECK_PROCESSED))) 1000).2
    NEBCALLBACK_SERVICE_CHECK_DATA
    (some (.service_check (sample_service_check NEBTYPE_SERVICECHECK_PROCESSED))) 1000
    sample_poller
    (run_hook inbound_env State.init NEBCALLBACK_SERVICE_CHECK_DATA
      (some (.service_check (sample_service_check NEBTYPE_SERVICECHECK_PROCESSED))) 1000).1
    rfl rfl (by intro ds hd; cases hd) (by intro ds hd; cases hd) rfl
  rw [List.all_eq_true]
  intro p hp
  exact decide_eq_true (h.2 p hp)

/-- Witness for C9: a comment packet on the sample node with a failing codec. -/
theorem send_generic_encode_failure_witness :
    (send_generic broken_codec_env State.init (sample_pkt 8) (.other 0)).1 = -1 ∧
    ipc_sends (send_generic broken_codec_env State.init (sample_pkt 8) (.other 0)).2.2.trace = [] ∧
    net_sends (send_generic broken_codec_env State.init (sample_pkt 8) (.other 0)).2.2.trace = [] ∧
    (send_generic broken_codec_env State.init (sample_pkt 8) (.other 0)).2.2.last_pkt = zero_event := by
  have h := send_generic_encode_failure broken_codec_env State.init (sample_pkt 8) (.other 0)
    (by decide) rfl
  exact ⟨h.1, h.2.2.2.1, h.2.2.2.2.1, h.2.2.2.2.2.1⟩

/-! ## Transport backlog -/

/-- When the local emit is reached and `ipc_send_event` fails, the dedup slot is
cleared; the value returned is the one chosen by the network part. -/
theorem send_generic_ipc_failure (env : Env) (st : State) (pkt : merlin_event) (data : event_body)
    (hwant : env.daemon_wants pkt.hdr.type = true)
    (hlen : (encode_packet env pkt data).hdr.len ≠ 0)
    (hnodup : (is_dupe env st (encode_packet env pkt data)).1 = false)
    (hipc : env.ipc_send_event st.trace (encode_packet env pkt data) < 0) :
    (send_generic env st pkt data).2.2.last_pkt = zero_event ∧
    (send_generic env st pkt data).1 =
      (net_fanout env (encode_packet env pkt data)
        (env.ipc_send_event st.trace (encode_packet env pkt data))).1 := by
  have hst := is_dupe_false_state _ _ _ hnodup
  have hwant1 : env.daemon_wants (encode_packet env pkt data).hdr.type = true := hwant
  rw [send_generic_unfold]
  simp [early_drop_of_wants env pkt hwant, hlen, hnodup, hst, State.emit, local_emit,
    local_emit_result, hwant1, hipc]

/-- C10, at the failing input. With no nodes configured and a backlogged IPC
channel, send_generic calls ipc_send_event once, gets -1, clears the dedup slot
and still returns 0 to its caller. -/
theorem send_generic_backlog_returns_zero :
    flooded_env.daemon_wants (sample_pkt 8).hdr.type = true ∧
    flooded_env.ipc_send_event State.init.trace (sample_sent 8 0 0xffff) = -1 ∧
    ipc_sends (send_generic flooded_env State.init (sample_pkt 8) (.other 0)).2.2.trace
      = [sample_sent 8 0 0xffff] ∧
    (send_generic flooded_env State.init (sample_pkt 8) (.other 0)).2.2.last_pkt = zero_event ∧
    (send_generic flooded_env State.init (sample_pkt 8) (.other 0)).1 = 0 := by
  decide

/-! ## Precheck -/

/-- C5. A host PRECHECK (asynchronous or synchronous) and a service PRECHECK are
cancelled exactly when the node that pgroup_host_node / pgroup_service_node gives
for the object id is not the self node; when it is the self node the hook
returns 0 and adds one to the self-check counter (an unsigned 64-bit counter);
either way no packet is sent: the only call made is the scheduling of the
expiration event. -/
theorem precheck_cancel (env : Env) (st : State) (pkt : merlin_event)
    (hd : nebstruct_host_check_data) (sd : nebstruct_service_check_data)
    (hh : hd.type = NEBTYPE_HOSTCHECK_ASYNC_PRECHECK ∨ hd.type = NEBTYPE_HOSTCHECK_SYNC_PRECHECK)
    (hsv : sd.type = NEBTYPE_SERVICECHECK_ASYNC_PRECHECK) :
    ((hook_host_result env st pkt hd).1 = NEBERROR_CALLBACKCANCEL ↔
      env.pgroup_host_node hd.object_ptr.id ≠ .ipc) ∧
    (env.pgroup_host_node hd.object_ptr.id = .ipc →
      (hook_host_result env st pkt hd).1 = 0 ∧
      (hook_host_result env st pkt hd).2.host_checks_self = u64 (st.host_checks_self + 1)) ∧
    (hook_host_result env st pkt hd).2.trace = st.trace ++
      [.schedule_expiration_event .HOST_CHECK (env.pgroup_host_node hd.object_ptr.id)
        hd.object_ptr.ptr] ∧
    sent_packets (trace_since st (hook_host_result env st pkt hd).2) = [] ∧
    ((hook_service_result env st pkt sd).1 = NEBERROR_CALLBACKCANCEL ↔
      env.pgroup_service_node sd.object_ptr.id ≠ .ipc) ∧
    (env.pgroup_service_node sd.object_ptr.id = .ipc →
      (hook_service_result env st pkt sd).1 = 0 ∧
      (hook_service_result env st pkt sd).2.service_checks_self
        = u64 (st.service_checks_self + 1)) ∧
    (hook_service_result env st pkt sd).2.trace = st.trace ++
      [.schedule_expiration_event .SERVICE_CHECK (env.pgroup_service_node sd.object_ptr.id)
        sd.object_ptr.ptr] ∧
    sent_packets (trace_since st (hook_service_result env st pkt sd).2) = [] := by
  have hH : hook_host_result env st pkt hd =
      if env.pgroup_host_node hd.object_ptr.id ≠ .ipc then
        (NEBERROR_CALLBACKCANCEL,
          st.emit [.schedule_expiration_event .HOST_CHECK
            (env.pgroup_host_node hd.object_ptr.id) hd.object_ptr.ptr])
      else
        (0, { st.emit [.schedule_expiration_event .HOST_CHECK
                (env.pgroup_host_node hd.object_ptr.id) hd.object_ptr.ptr] with
              host_checks_self := u64 (st.host_checks_self + 1) }) := by
    unfold hook_host_result
    rw [if_pos hh]
  have hS : hook_service_result env st pkt sd =
      if env.pgroup_service_node sd.object_ptr.id ≠ .ipc then
        (NEBERROR_CALLBACKCANCEL,
          st.emit [.schedule_expiration_event .SERVICE_CHECK
            (env.pgroup_service_node sd.object_ptr.id) sd.object_ptr.ptr])
      else
        (0, { st.emit [.schedule_expiration_event .SERVICE_CHECK
                (env.pgroup_service_node sd.object_ptr.id) sd.object_ptr.ptr] with
              service_checks_self := u64 (st.service_checks_self + 1) }) := by
    unfold hook_service_result
    rw [if_pos hsv]
  rw [hH, hS]
  refine ⟨?_, ?_, ?_, ?_, ?_, ?_, ?_, ?_⟩
  · by_cases h : env.pgroup_host_node hd.object_ptr.id = .ipc
    · simp [h, NEBERROR_CALLBACKCANCEL]
    · simp [h]
  · intro h
    simp [h, State.emit]
  · by_cases h : env.pgroup_host_node hd.object_ptr.id = .ipc <;> simp [h, State.emit]
  · by_cases h : env.pgroup_host_node hd.object_ptr.id = .ipc <;>
      simp [h, State.emit, trace_since, sent_packets, effect.packet]
  · by_cases h : env.pgroup_service_node sd.object_ptr.id = .ipc
    · simp [h, NEBERROR_CALLBACKCANCEL]
    · simp [h]
  · intro h
    simp [h, State.emit]
  · by_cases h : env.pgroup_service_node sd.object_ptr.id = .ipc <;> simp [h, State.emit]
  · by_cases h : env.pgroup_service_node sd.object_ptr.id = .ipc <;>
      simp [h, State.emit, trace_since, sent_packets, effect.packet]

/-- Witness for C5: prechecks for the sample host (id 4, checked locally) and the
sample service (id 7, checked by the peer). -/
theorem precheck_cancel_witness :
    (hook_host_result sample_env State.init (sample_pkt 7)
      (sample_host_check NEBTYPE_HOSTCHECK_SYNC_PRECHECK)).1 = 0 ∧
    (hook_host_result sample_env State.init (sample_pkt 7)
      (sample_host_check NEBTYPE_HOSTCHECK_SYNC_PRECHECK)).2.host_checks_self = 1 ∧
    (hook_service_result sample_env State.init (sample_pkt 6)
      (sample_service_check NEBTYPE_SERVICECHECK_ASYNC_PRECHECK)).1 = NEBERROR_CALLBACKCANCEL := by
  have h := precheck_cancel sample_env State.init (sample_pkt 7)
    (sample_host_check NEBTYPE_HOSTCHECK_SYNC_PRECHECK)
    (sample_service_check NEBTYPE_SERVICECHECK_ASYNC_PRECHECK) (Or.inr rfl) rfl
  have h6 := precheck_cancel sample_env State.init (sample_pkt 6)
    (sample_host_check NEBTYPE_HOSTCHECK_SYNC_PRECHECK)
    (sample_service_check NEBTYPE_SERVICECHECK_ASYNC_PRECHECK) (Or.inr rfl) rfl
  exact ⟨(h.2.1 (by decide)).1, (h.2.1 (by decide)).2, h6.2.2.2.2.1.mpr (by decide)⟩

/-! ## The hook mask -/

theorem hooks_init_row_mem (env : Env) (mask kind : Nat) (cb : callback_struct)
    (h : effect.neb_register_callback kind ∈ hooks_init_row env mask cb) :
    cb.type = kind ∧ mask &&& (1 <<< kind) ≠ 0 := by
  unfold hooks_init_row at h
  split_ifs at h with h1 h2 h3
  · simp at h
  · simp at h
  · simp at h
  · simp only [List.mem_singleton, effect.neb_register_callback.injEq] at h
    subst h
    exact ⟨rfl, h3⟩

/-- C6. For every 32-bit mask and every configuration, merlin_hooks_init makes no
neb_register_callback call for a kind whose bit (1 << kind) is clear in the mask. -/
theorem hooks_init_respects_mask (env : Env) (st : State) (mask kind : Nat)
    (hmask : mask < 4294967296) (hclear : mask &&& (1 <<< kind) = 0) :
    effect.neb_register_callback kind ∉ trace_since st (merlin_hooks_init env st mask).2 := by
  have hu : u32 mask = mask := Nat.mod_eq_of_lt hmask
  unfold merlin_hooks_init
  rw [hu]
  split_ifs
  · simp [trace_since]
  · simp only [trace_since, State.emit, List.drop_left]
    intro hmem
    rw [List.mem_flatMap] at hmem
    obtain ⟨cb, _, hcb⟩ := hmem
    exact (hooks_init_row_mem env mask kind cb hcb).2 hclear

/-- Witness for C6: the mask with only the comment bit set registers no
notification callback on the sample node. -/
theorem hooks_init_respects_mask_witness :
    effect.neb_register_callback NEBCALLBACK_NOTIFICATION_DATA ∉
      trace_since State.init (merlin_hooks_init sample_env State.init 256).2 :=
  hooks_init_respects_mask sample_env State.init 256 NEBCALLBACK_NOTIFICATION_DATA
    (by decide) (by decide)

/-! ## The hold decision -/

theorem hook_notification_end_eq (env : Env) (st : State) (pkt : merlin_event)
    (ds : nebstruct_notification_data) (hend : ds.type = NEBTYPE_NOTIFICATION_END) :
    hook_notification env st pkt ds =
      (some (hook_notification_end env st pkt ds).1, (hook_notification_end env st pkt ds).2) := by
  unfold hook_notification
  rw [if_pos hend]

/-- C7. For a NOTIFICATION_END event with an empty hold slot: a local, non-custom
notification is stored in the hold slot (header and rewritten data), nothing is
sent and the result is 0; a custom or inbound one is handed to send_generic at
once and the hold slot stays empty; so the slot is filled exactly for local
non-custom notifications. In both cases the packet selection is PEERS_MASTERS. -/
theorem notification_end_hold_decision (env : Env) (st : State) (pkt : merlin_event)
    (ds : nebstruct_notification_data)
    (hend : ds.type = NEBTYPE_NOTIFICATION_END) (hslot : st.tmp_notif_data = none) :
    ((env.merlin_sender = none ∧ ds.reason_type ≠ NOTIFICATION_CUSTOM) →
      (hook_notification env st pkt ds).1 = some (neb_cb_result_create 0) ∧
      (hook_notification env st pkt ds).2.tmp_notif_data = some (notification_end_data ds) ∧
      (hook_notification env st pkt ds).2.tmp_notif_pkt.hdr = (notification_end_pkt env pkt).hdr ∧
      (hook_notification env st pkt ds).2.tmp_notif_pkt.hdr.selection = env.DEST_PEERS_MASTERS ∧
      (hook_notification env st pkt ds).2.trace = st.trace ∧
      sent_packets (trace_since st (hook_notification env st pkt ds).2) = []) ∧
    (¬(env.merlin_sender = none ∧ ds.reason_type ≠ NOTIFICATION_CUSTOM) →
      hook_notification env st pkt ds =
        (some (neb_cb_result_create
          (send_generic env st (notification_end_pkt env pkt)
            (.notification (notification_end_data ds))).1),
         (send_generic env st (notification_end_pkt env pkt)
            (.notification (notification_end_data ds))).2.2) ∧
      (notification_end_pkt env pkt).hdr.selection = env.DEST_PEERS_MASTERS ∧
      (hook_notification env st pkt ds).2.tmp_notif_data = none) ∧
    ((hook_notification env st pkt ds).2.tmp_notif_data.isSome = true ↔
      (env.merlin_sender = none ∧ ds.reason_type ≠ NOTIFICATION_CUSTOM)) := by
  rw [hook_notification_end_eq env st pkt ds hend]
  have hreason : (notification_end_data ds).reason_type = ds.reason_type := by
    unfold notification_end_data
    split_ifs <;> rfl
  by_cases hl : env.merlin_sender = none ∧ ds.reason_type ≠ NOTIFICATION_CUSTOM
  · have hcond : ¬(ds.reason_type = NOTIFICATION_CUSTOM ∨ env.merlin_sender.isSome = true) := by
      rw [hl.1]
      simp [hl.2]
    have he : hook_notification_end env st pkt ds =
        (neb_cb_result_create 0,
          { st with tmp_notif_pkt := memcpy_event st.tmp_notif_pkt (notification_end_pkt env pkt),
                    tmp_notif_data := some (notification_end_data ds) }) := by
      unfold hook_notification_end
      rw [if_neg hcond]
      simp [hold_notification_packet, hslot]
    rw [he]
    refine ⟨fun _ => ⟨rfl, rfl, rfl, rfl, rfl, ?_⟩, fun h => absurd hl h, ?_⟩
    · simp [trace_since, sent_packets]
    · simp [hl]
  · have hcond : ds.reason_type = NOTIFICATION_CUSTOM ∨ env.merlin_sender.isSome = true := by
      by_contra hc
      push_neg at hc
      apply hl
      refine ⟨?_, hc.1⟩
      cases hsm : env.merlin_sender with
      | none => rfl
      | some x => rw [hsm] at hc; simp at hc
    have he : hook_notification_end env st pkt ds =
        (neb_cb_result_create
          (send_generic env st (notification_end_pkt env pkt)
            (.notification (notification_end_data ds))).1,
         (send_generic env st (notification_end_pkt env pkt)
            (.notification (notification_end_data ds))).2.2) := by
      unfold hook_notification_end
      rw [if_pos hcond]
    rw [he]
    refine ⟨fun h => absurd h hl, fun _ => ⟨rfl, rfl, ?_⟩, ?_⟩
    · simp [send_generic_tmp_notif_data, hslot]
    · simp [send_generic_tmp_notif_data, hslot, hl]

/-- Witness for C7: a local problem notification ends on the sample node. -/
theorem notification_end_hold_decision_witness :
    (hook_notification sample_env State.init (sample_pkt 5)
      (sample_notification NEBTYPE_NOTIFICATION_END NOTIFICATION_NORMAL)).2.tmp_notif_data.isSome
      = true :=
  (notification_end_hold_decision sample_env State.init (sample_pkt 5)
    (sample_notification NEBTYPE_NOTIFICATION_END NOTIFICATION_NORMAL) rfl rfl).2.2.mpr
    ⟨rfl, by decide⟩

/-! ## The hold slot is one deep -/

theorem hold_notification_packet_occupied (st : State) (pkt : merlin_event)
    (data held : nebstruct_notification_data) (h : st.tmp_notif_data = some held) :
    hold_notification_packet st pkt data = (-1, st) := by
  simp [hold_notification_packet, h]

theorem slot_kept_of_eq (st st2 : State) (h1 : st2.tmp_notif_data = st.tmp_notif_data)
    (h2 : st2.tmp_notif_pkt = st.tmp_notif_pkt) : slot_kept st st2 := Or.inl ⟨h1, h2⟩

theorem slot_kept_refl (st : State) : slot_kept st st := Or.inl ⟨rfl, rfl⟩

theorem slot_kept_trans (a b c : State) (h1 : slot_kept a b) (h2 : slot_kept b c) :
    slot_kept a c := by
  rcases h2 with ⟨hd, hp⟩ | hn
  · rcases h1 with ⟨hd1, hp1⟩ | hn1
    · exact Or.inl ⟨hd.trans hd1, hp.trans hp1⟩
    · exact Or.inr (hd.trans hn1)
  · exact Or.inr hn

theorem send_generic_slot_kept (env : Env) (st : State) (pkt : merlin_event) (data : event_body) :
    slot_kept st (send_generic env st pkt data).2.2 :=
  slot_kept_of_eq _ _ (send_generic_tmp_notif_data _ _ _ _) (send_generic_tmp_notif_pkt _ _ _ _)

theorem hook_host_result_slot_kept (env : Env) (st : State) (pkt : merlin_event)
    (ds : nebstruct_host_check_data) : slot_kept st (hook_host_result env st pkt ds).2 := by
  unfold hook_host_result
  split_ifs
  · exact slot_kept_refl _
  · exact slot_kept_of_eq _ _ rfl rfl
  · exact slot_kept_refl _
  · exact Or.inr (flush_notification_slot _ _)
  · exact slot_kept_refl _

theorem hook_service_result_slot_kept (env : Env) (st : State) (pkt : merlin_event)
    (ds : nebstruct_service_check_data) : slot_kept st (hook_service_result env st pkt ds).2 := by
  unfold hook_service_result
  split_ifs
  · exact slot_kept_refl _
  · exact slot_kept_of_eq _ _ rfl rfl
  · exact slot_kept_refl _
  · exact Or.inr (flush_notification_slot _ _)
  · exact slot_kept_refl _

theorem hook_comment_slot_kept (env : Env) (st : State) (pkt : merlin_event)
    (ds : nebstruct_comment_data) (r : Int × State) (h : hook_comment env st pkt ds = some r) :
    slot_kept st r.2 := by
  unfold hook_comment at h
  split_ifs at h
  · cases h; exact slot_kept_refl _
  · cases h; exact slot_kept_refl _
  · split at h
    · cases h
    · cases h; exact send_generic_slot_kept _ _ _ _
    · cases h; exact send_generic_slot_kept _ _ _ _

theorem hook_external_command_slot_kept (env : Env) (st : State) (pkt : merlin_event)
    (ds : nebstruct_external_command_data) (r : Int × State)
    (h : hook_external_command env st pkt ds = some r) : slot_kept st r.2 := by
  rcases hook_external_command_cases env st pkt ds r h with h1 | ⟨pkt2, c, h1⟩
  · rw [h1]; exact slot_kept_refl _
  · rw [h1]; exact send_generic_slot_kept _ _ _ _

theorem hook_notification_start_slot (env : Env) (st : State) (ds : nebstruct_notification_data) :
    (hook_notification_start env st ds).2.tmp_notif_data = st.tmp_notif_data ∧
    (hook_notification_start env st ds).2.tmp_notif_pkt = st.tmp_notif_pkt := by
  unfold hook_notification_start
  split_ifs
  · exact ⟨rfl, rfl⟩
  · cases env.merlin_sender with
    | none =>
      simp only [hook_notification_start_local]
      split_ifs <;> exact ⟨rfl, rfl⟩
    | some sender =>
      simp only [hook_notification_start_inbound]
      split_ifs <;> exact ⟨rfl, rfl⟩

theorem hook_notification_slot_kept (env : Env) (st : State) (pkt : merlin_event)
    (ds : nebstruct_notification_data) (held : nebstruct_notification_data)
    (hocc : st.tmp_notif_data = some held) : slot_kept st (hook_notification env st pkt ds).2 := by
  unfold hook_notification
  split_ifs
  · unfold hook_notification_end
    split_ifs
    · exact send_generic_slot_kept _ _ _ _
    · rw [hold_notification_packet_occupied st _ _ held hocc]
      exact slot_kept_refl _
  · exact slot_kept_refl _
  · exact slot_kept_of_eq _ _ (hook_notification_start_slot _ _ _).1
      (hook_notification_start_slot _ _ _).2

theorem mod_hook_switch_slot_kept (env : Env) (st : State) (pkt : merlin_event) (cb : Int)
    (data : event_body) (held : nebstruct_notification_data)
    (r : Option neb_cb_result × Int × State)
    (hocc : st.tmp_notif_data = some held)
    (h : mod_hook_switch env st pkt cb data = some r) : slot_kept st r.2.2 := by
  unfold mod_hook_switch at h
  split_ifs at h
  · split at h
    · cases h; exact hook_notification_slot_kept env st pkt _ held hocc
    · cases h
  · split at h
    · cases h
      unfold hook_contact_notification_method
      split_ifs
      · exact slot_kept_refl _
      · exact send_generic_slot_kept _ _ _ _
    · cases h
  · split at h
    · cases h; exact hook_host_result_slot_kept _ _ _ _
    · cases h
  · split at h
    · cases h; exact hook_service_result_slot_kept _ _ _ _
    · cases h
  · split at h
    · rename_i ds
      cases hx : hook_comment env st pkt ds with
      | none => rw [hx] at h; cases h
      | some x => rw [hx] at h; cases h; exact hook_comment_slot_kept env st pkt ds x hx
    · cases h
  · split at h
    · cases h
      unfold hook_downtime
      split_ifs
      · exact slot_kept_refl _
      · exact send_generic_slot_kept _ _ _ _
    · cases h
  · split at h
    · rename_i ds
      cases hx : hook_external_command env st pkt ds with
      | none => rw [hx] at h; cases h
      | some x => rw [hx] at h; cases h; exact hook_external_command_slot_kept env st pkt ds x hx
    · cases h
  · cases h; exact send_generic_slot_kept _ _ _ _
  · cases h; exact slot_kept_refl _
  · cases h; exact slot_kept_refl _

theorem mod_hook_leave_slot (st : State) (result now : Int) :
    (mod_hook_leave st result now).tmp_notif_data = st.tmp_notif_data ∧
    (mod_hook_leave st result now).tmp_notif_pkt = st.tmp_notif_pkt := by
  unfold mod_hook_leave
  split_ifs <;> exact ⟨rfl, rfl⟩

/-- C8. While the hold slot is occupied, hold_notification_packet returns -1 and
changes nothing, so a local non-custom NOTIFICATION_END is refused by the hook
with result -1 and an unchanged state (the new notification is neither stored
nor sent); and after any run of merlin_mod_hook the slot still holds the same
notification and the same packet, or it is empty: a held notification is never
replaced by another one. -/
theorem hold_slot_one_deep (env : Env) (st st2 : State) (pkt : merlin_event)
    (held : nebstruct_notification_data) (cb : Int) (data : Option event_body) (now : Int)
    (r : neb_cb_result)
    (hocc : st.tmp_notif_data = some held)
    (hrun : merlin_mod_hook env st cb data now = some (r, st2)) :
    (∀ new, hold_notification_packet st pkt new = (-1, st)) ∧
    (∀ ds, ds.type = NEBTYPE_NOTIFICATION_END → env.merlin_sender = none →
      ds.reason_type ≠ NOTIFICATION_CUSTOM →
      hook_notification env st pkt ds = (some (neb_cb_result_create (-1)), st)) ∧
    ((st2.tmp_notif_data = some held ∧ st2.tmp_notif_pkt = st.tmp_notif_pkt) ∨
      st2.tmp_notif_data = none) := by
  refine ⟨fun new => hold_notification_packet_occupied st pkt new held hocc, ?_, ?_⟩
  · intro ds hend hlocal hreason
    rw [hook_notification_end_eq env st pkt ds hend]
    unfold hook_notification_end
    rw [if_neg (by rw [hlocal]; simp [hreason])]
    rw [hold_notification_packet_occupied st _ _ held hocc]
  · have key : slot_kept st st2 := by
      unfold merlin_mod_hook at hrun
      cases data with
      | none => cases hrun; exact slot_kept_refl _
      | some d =>
        simp only [] at hrun
        split_ifs at hrun
        · cases hrun; exact slot_kept_refl _
        · cases hx : mod_hook_switch env (mod_hook_enter st now) (mod_hook_pkt env cb) cb d with
          | none => rw [hx] at hrun; cases hrun
          | some x =>
            rw [hx] at hrun
            cases hrun
            refine slot_kept_trans _ _ _
              (slot_kept_of_eq _ _ (mod_hook_enter_slot st now).1 (mod_hook_enter_slot st now).2)
              (slot_kept_trans _ _ _ ?_
                (slot_kept_of_eq _ _ (mod_hook_leave_slot _ _ _).1 (mod_hook_leave_slot _ _ _).2))
            exact mod_hook_switch_slot_kept env _ _ cb d held x
              (by rw [(mod_hook_enter_slot st now).1]; exact hocc) hx
    rcases key with ⟨hd, hp⟩ | hn
    · exact Or.inl ⟨hd.trans hocc, hp⟩
    · exact Or.inr hn

/-- Witness for C8: a second local notification ends on the sample node while
the first one is still held. -/
theorem hold_slot_one_deep_witness :
    hook_notification sample_env held_state (sample_pkt 5)
        (sample_notification NEBTYPE_NOTIFICATION_END NOTIFICATION_ACKNOWLEDGEMENT)
      = (some (neb_cb_result_create (-1)), held_state) :=
  (hold_slot_one_deep sample_env held_state
    (run_hook sample_env held_state NEBCALLBACK_NOTIFICATION_DATA
      (some (.notification (sample_notification NEBTYPE_NOTIFICATION_END
        NOTIFICATION_ACKNOWLEDGEMENT))) 1010).2
    (sample_pkt 5) (notification_end_data (sample_notification NEBTYPE_NOTIFICATION_END
      NOTIFICATION_NORMAL))
    NEBCALLBACK_NOTIFICATION_DATA
    (some (.notification (sample_notification NEBTYPE_NOTIFICATION_END
      NOTIFICATION_ACKNOWLEDGEMENT))) 1010
    (run_hook sample_env held_state NEBCALLBACK_NOTIFICATION_DATA
      (some (.notification (sample_notification NEBTYPE_NOTIFICATION_END
        NOTIFICATION_ACKNOWLEDGEMENT))) 1010).1
    rfl rfl).2.1
    (sample_notification NEBTYPE_NOTIFICATION_END NOTIFICATION_ACKNOWLEDGEMENT) rfl rfl
    (by decide)

/-! ## The notification decision -/

/-- C4. For every NOTIFICATION_START event, and a peer count that fits the
unsigned arithmetic of `active_peers + 1`, hook_notification returns a result
whose return code is that of the first matching rule of the ten-rule table:
0 for allow, NEBERROR_CALLBACKCANCEL for cancel. -/
theorem hook_notification_decision (env : Env) (st : State) (pkt : merlin_event)
    (ds : nebstruct_notification_data)
    (hstart : ds.type = NEBTYPE_NOTIFICATION_START)
    (hpeers : env.ipc_active_peers + 1 < 4294967296) :
    (hook_notification env st pkt ds).1.map (fun r => r.return_code)
      = some (notification_decision_spec env ds).code := by
  have hu : u32 (env.ipc_active_peers + 1) = env.ipc_active_peers + 1 := Nat.mod_eq_of_lt hpeers
  have hne : ds.type ≠ NEBTYPE_NOTIFICATION_END := by
    rw [hstart]; decide
  unfold hook_notification
  rw [if_neg hne, if_neg (by simp [hstart])]
  simp only [Option.map_some', Option.some.injEq]
  have hrule : ∀ (c : Bool) (o : notify_outcome) (rest : List (Bool × notify_outcome)),
      first_matching_rule ((c, o) :: rest) = if c = true then o else first_matching_rule rest :=
    fun _ _ _ => rfl
  unfold hook_notification_start notification_decision_spec notification_rules_spec
  simp only [hrule]
  cases hs : env.merlin_sender with
  | some sender =>
    simp only [inbound_from, hs, Option.isNone_some, Bool.false_and, if_false, if_true,
      Bool.false_eq_true, decide_eq_true_eq, Bool.or_eq_true, should_run_locally_spec,
      notifying_node_spec]
    unfold hook_notification_start_inbound
    simp only [hu, should_run_check, decide_eq_true_eq]
    split_ifs <;> rfl
  | none =>
    simp only [inbound_from, hs, Option.isNone_none, Bool.true_and, if_false, if_true,
      Bool.false_eq_true, decide_eq_true_eq, Bool.or_eq_true, Bool.and_eq_true,
      should_run_locally_spec, notifying_node_spec]
    unfold hook_notification_start_local
    simp only [hu, should_run_check, decide_eq_true_eq]
    split_ifs <;> first | rfl | (exfalso; tauto)

/-- Witness for C4: on the sample node a local problem notification for the
service with id 7, which the peer owns, is cancelled by the last rule. -/
theorem hook_notification_decision_witness :
    (hook_notification sample_env State.init (sample_pkt 5)
      (sample_notification NEBTYPE_NOTIFICATION_START NOTIFICATION_NORMAL)).1.map
        (fun r => r.return_code) = some NEBERROR_CALLBACKCANCEL :=
  hook_notification_decision sample_env State.init (sample_pkt 5)
    (sample_notification NEBTYPE_NOTIFICATION_START NOTIFICATION_NORMAL) rfl (by decide)

/-! ## Hold ordering -/

theorem sent_packets_quiet (l : List effect) (h : ∀ e ∈ l, e.packet = none) :
    sent_packets l = [] := by
  simp only [sent_packets, List.filterMap_eq_nil_iff]
  exact h

theorem sent_packets_sends_of (env : Env) (pkt : merlin_event) (l : List effect)
    (h : ∀ e ∈ l, sends_of env pkt e) :
    ∀ p ∈ sent_packets l, p.hdr.type = pkt.hdr.type ∧ p.hdr.selection = pkt.hdr.selection ∧
      p.hdr.code = pkt.hdr.code := by
  apply sent_packets_of_forall
  intro e he p hp
  obtain ⟨d, rfl⟩ := h e he p hp
  exact ⟨rfl, rfl, rfl⟩

/-- A local, non-custom NOTIFICATION_END with an empty hold slot is held. -/
theorem hook_notification_end_held (env : Env) (st : State) (pkt : merlin_event)
    (ds : nebstruct_notification_data)
    (hend : ds.type = NEBTYPE_NOTIFICATION_END) (hslot : st.tmp_notif_data = none)
    (hlocal : env.merlin_sender = none) (hreason : ds.reason_type ≠ NOTIFICATION_CUSTOM) :
    hook_notification env st pkt ds =
      (some (neb_cb_result_create 0),
        { st with tmp_notif_pkt := memcpy_event st.tmp_notif_pkt (notification_end_pkt env pkt),
                  tmp_notif_data := some (notification_end_data ds) }) := by
  rw [hook_notification_end_eq env st pkt ds hend]
  unfold hook_notification_end
  rw [if_neg (by rw [hlocal]; simp [hreason])]
  simp [hold_notification_packet, hslot]

/-- The calls of a PROCESSED host check result: bookkeeping, then sends of the
check packet, then sends of the held packet. -/
theorem hook_host_result_order (env : Env) (st : State) (pkt : merlin_event)
    (ds : nebstruct_host_check_data) (hp : ds.type = NEBTYPE_HOSTCHECK_PROCESSED) :
    ∃ q chk ntf, (hook_host_result env st pkt ds).2.trace = st.trace ++ q ++ chk ++ ntf ∧
      (∀ e ∈ q, e.packet = none) ∧
      (∀ e ∈ chk, sends_of env (check_result_pkt env pkt) e) ∧
      (∀ e ∈ ntf, sends_of env st.tmp_notif_pkt e) := by
  unfold hook_host_result
  rw [if_neg (by rw [hp]; decide), if_pos hp]
  split_ifs
  · refine ⟨[.unexpire_host ds.object_ptr.ptr,
        .set_host_check_node (check_node_call env ds.object_ptr.check_type ds.check_type).1
          ds.object_ptr.ptr (check_node_call env ds.object_ptr.check_type ds.check_type).2],
      [], [], by simp [State.emit], by simp [effect.packet], by simp, by simp⟩
  · obtain ⟨chk, hc1, hc2⟩ := send_host_status_sends_of env
      (st.emit [.unexpire_host ds.object_ptr.ptr,
        .set_host_check_node (check_node_call env ds.object_ptr.check_type ds.check_type).1
          ds.object_ptr.ptr (check_node_call env ds.object_ptr.check_type ds.check_type).2,
        .set_last_check ds.object_ptr.ptr ds.end_time_sec])
      (check_result_pkt env pkt) ds.attr
      { ds.object_ptr with last_check := ds.end_time_sec } ds.check_result_ptr
    obtain ⟨ntf, hn1, hn2⟩ := flush_notification_sends_of env
      (send_host_status env
        (st.emit [.unexpire_host ds.object_ptr.ptr,
          .set_host_check_node (check_node_call env ds.object_ptr.check_type ds.check_type).1
            ds.object_ptr.ptr (check_node_call env ds.object_ptr.check_type ds.check_type).2,
          .set_last_check ds.object_ptr.ptr ds.end_time_sec])
        (check_result_pkt env pkt) ds.attr
        { ds.object_ptr with last_check := ds.end_time_sec } ds.check_result_ptr).2
    rw [(send_host_status_tmp_notif _ _ _ _ _ _).2] at hn2
    refine ⟨[.unexpire_host ds.object_ptr.ptr,
        .set_host_check_node (check_node_call env ds.object_ptr.check_type ds.check_type).1
          ds.object_ptr.ptr (check_node_call env ds.object_ptr.check_type ds.check_type).2,
        .set_last_check ds.object_ptr.ptr ds.end_time_sec], chk, ntf, ?_, ?_, hc2, hn2⟩
    · rw [hn1, hc1]
      rfl
    · simp [effect.packet]

/-- The calls of a PROCESSED service check result, see `hook_host_result_order`. -/
theorem hook_service_result_order (env : Env) (st : State) (pkt : merlin_event)
    (ds : nebstruct_service_check_data) (hp : ds.type = NEBTYPE_SERVICECHECK_PROCESSED) :
    ∃ q chk ntf, (hook_service_result env st pkt ds).2.trace = st.trace ++ q ++ chk ++ ntf ∧
      (∀ e ∈ q, e.packet = none) ∧
      (∀ e ∈ chk, sends_of env (check_result_pkt env pkt) e) ∧
      (∀ e ∈ ntf, sends_of env st.tmp_notif_pkt e) := by
  unfold hook_service_result
  rw [if_neg (by rw [hp]; decide), if_pos hp]
  split_ifs
  · refine ⟨[.unexpire_service ds.object_ptr.ptr,
        .set_service_check_node (check_node_call env ds.object_ptr.check_type ds.check_type).1
          ds.object_ptr.ptr (check_node_call env ds.object_ptr.check_type ds.check_type).2],
      [], [], by simp [State.emit], by simp [effect.packet], by simp, by simp⟩
  · obtain ⟨chk, hc1, hc2⟩ := send_service_status_sends_of env
      (st.emit [.unexpire_service ds.object_ptr.ptr,
        .set_service_check_node (check_node_call env ds.object_ptr.check_type ds.check_type).1
          ds.object_ptr.ptr (check_node_call env ds.object_ptr.check_type ds.check_type).2,
        .set_last_check ds.object_ptr.ptr ds.end_time_sec])
      (check_result_pkt env pkt) ds.attr
      { ds.object_ptr with last_check := ds.end_time_sec } ds.check_result_ptr
    obtain ⟨ntf, hn1, hn2⟩ := flush_notification_sends_of env
      (send_service_status env
        (st.emit [.unexpire_service ds.object_ptr.ptr,
          .set_service_check_node (check_node_call env ds.object_ptr.check_type ds.check_type).1
            ds.object_ptr.ptr (check_node_call env ds.object_ptr.check_type ds.check_type).2,
          .set_last_check ds.object_ptr.ptr ds.end_time_sec])
        (check_result_pkt env pkt) ds.attr
        { ds.object_ptr with last_check := ds.end_time_sec } ds.check_result_ptr).2
    rw [(send_service_status_tmp_notif _ _ _ _ _ _).2] at hn2
    refine ⟨[.unexpire_service ds.object_ptr.ptr,
        .set_service_check_node (check_node_call env ds.object_ptr.check_type ds.check_type).1
          ds.object_ptr.ptr (check_node_call env ds.object_ptr.check_type ds.check_type).2,
        .set_last_check ds.object_ptr.ptr ds.end_time_sec], chk, ntf, ?_, ?_, hc2, hn2⟩
    · rw [hn1, hc1]
      rfl
    · simp [effect.packet]

theorem check_result_pkt_type (env : Env) (pkt : merlin_event) :
    (check_result_pkt env pkt).hdr.type = pkt.hdr.type := by
  unfold check_result_pkt
  cases env.merlin_sender <;> rfl

theorem mod_hook_enter_trace (st : State) (now : Int) :
    ∃ q, (mod_hook_enter st now).trace = st.trace ++ q ∧ ∀ e ∈ q, e.packet = none := by
  unfold mod_hook_enter
  split_ifs
  · exact ⟨[effect.node_send_ctrl_active], rfl, by simp [effect.packet]⟩
  · exact ⟨[], by simp, by simp⟩

theorem mod_hook_leave_trace (st : State) (result now : Int) :
    ∃ q, (mod_hook_leave st result now).trace = st.trace ++ q ∧ ∀ e ∈ q, e.packet = none := by
  unfold mod_hook_leave
  split_ifs
  · exact ⟨[effect.lwarn_flooded], rfl, by simp [effect.packet]⟩
  · exact ⟨[], by simp, by simp⟩

/-- A local, non-custom NOTIFICATION_END delivered through the entry point with
an empty hold slot: the result is 0 and the only change after entering is the
filled hold slot. -/
theorem mod_hook_notification_end_held (env : Env) (st : State) (ds : nebstruct_notification_data)
    (now : Int) (hslot : st.tmp_notif_data = none) (hlocal : env.merlin_sender = none)
    (hend : ds.type = NEBTYPE_NOTIFICATION_END) (hreason : ds.reason_type ≠ NOTIFICATION_CUSTOM) :
    merlin_mod_hook env st NEBCALLBACK_NOTIFICATION_DATA (some (.notification ds)) now =
      some (neb_cb_result_create 0,
        { mod_hook_enter st now with
          tmp_notif_pkt := memcpy_event (mod_hook_enter st now).tmp_notif_pkt
            (notification_end_pkt env (mod_hook_pkt env NEBCALLBACK_NOTIFICATION_DATA)),
          tmp_notif_data := some (notification_end_data ds) }) := by
  have hs : mod_hook_switch env (mod_hook_enter st now)
      (mod_hook_pkt env NEBCALLBACK_NOTIFICATION_DATA) NEBCALLBACK_NOTIFICATION_DATA
      (.notification ds) =
      some (some (neb_cb_result_create 0), 0,
        { mod_hook_enter st now with
          tmp_notif_pkt := memcpy_event (mod_hook_enter st now).tmp_notif_pkt
            (notification_end_pkt env (mod_hook_pkt env NEBCALLBACK_NOTIFICATION_DATA)),
          tmp_notif_data := some (notification_end_data ds) }) := by
    unfold mod_hook_switch
    rw [if_pos rfl]
    simp only []
    rw [hook_notification_end_held env _ _ ds hend
      (by rw [(mod_hook_enter_slot st now).1]; exact hslot) hlocal hreason]
  unfold merlin_mod_hook
  simp only []
  rw [if_neg (by decide), hs]
  simp [mod_hook_neb_result, mod_hook_result, mod_hook_leave, neb_cb_result_create]

/-- The `switch` of the entry point for a PROCESSED check result: bookkeeping
calls, then sends of the check packet, then sends of the held packet. -/
theorem mod_hook_switch_check_order (env : Env) (st : State) (pkt : merlin_event) (cb : Int)
    (data : event_body) (r : Option neb_cb_result × Int × State)
    (hchk : (cb = NEBCALLBACK_HOST_CHECK_DATA ∧
        ∃ hd, data = .host_check hd ∧ hd.type = NEBTYPE_HOSTCHECK_PROCESSED) ∨
      (cb = NEBCALLBACK_SERVICE_CHECK_DATA ∧
        ∃ sd, data = .service_check sd ∧ sd.type = NEBTYPE_SERVICECHECK_PROCESSED))
    (h : mod_hook_switch env st pkt cb data = some r) :
    ∃ q chk ntf, r.2.2.trace = st.trace ++ q ++ chk ++ ntf ∧
      (∀ e ∈ q, e.packet = none) ∧
      (∀ e ∈ chk, sends_of env (check_result_pkt env pkt) e) ∧
      (∀ e ∈ ntf, sends_of env st.tmp_notif_pkt e) := by
  rcases hchk with ⟨hcb, hd, rfl, hp⟩ | ⟨hcb, sd, rfl, hp⟩
  · subst hcb
    unfold mod_hook_switch at h
    rw [if_neg (by decide), if_neg (by decide), if_pos rfl] at h
    cases h
    exact hook_host_result_order env st pkt hd hp
  · subst hcb
    unfold mod_hook_switch at h
    rw [if_neg (by decide), if_neg (by decide), if_neg (by decide), if_pos rfl] at h
    cases h
    exact hook_service_result_order env st pkt sd hp

/-- A PROCESSED check result handed to the `switch` of the entry point with data
of its own structure type always has a defined run. -/
theorem mod_hook_switch_check_defined (env : Env) (st : State) (pkt : merlin_event) (cb : Int)
    (data : event_body)
    (hchk : (cb = NEBCALLBACK_HOST_CHECK_DATA ∧
        ∃ hd, data = .host_check hd ∧ hd.type = NEBTYPE_HOSTCHECK_PROCESSED) ∨
      (cb = NEBCALLBACK_SERVICE_CHECK_DATA ∧
        ∃ sd, data = .service_check sd ∧ sd.type = NEBTYPE_SERVICECHECK_PROCESSED)) :
    ∃ x, mod_hook_switch env st pkt cb data = some x := by
  rcases hchk with ⟨hcb, hd, rfl, hp⟩ | ⟨hcb, sd, rfl, hp⟩
  · subst hcb
    unfold mod_hook_switch
    rw [if_neg (by decide), if_neg (by decide), if_pos rfl]
    exact ⟨_, rfl⟩
  · subst hcb
    unfold mod_hook_switch
    rw [if_neg (by decide), if_neg (by decide), if_neg (by decide), if_pos rfl]
    exact ⟨_, rfl⟩

/-- C3. A local, non-custom NOTIFICATION_END delivered with an empty hold slot
returns 0 and sends nothing; when a PROCESSED host or service check result is
delivered next, that callback returns too, and the packets sent during it are
first the sends of the check-result packet (IPC and net_sendto) and then the
sends of the held notification packet, so the check precedes the notification
for every recipient. -/
theorem hold_ordering (env env2 : Env) (st : State) (ds : nebstruct_notification_data)
    (cb2 : Int) (data2 : event_body) (now1 now2 : Int)
    (hslot : st.tmp_notif_data = none) (hlocal : env.merlin_sender = none)
    (hend : ds.type = NEBTYPE_NOTIFICATION_END) (hreason : ds.reason_type ≠ NOTIFICATION_CUSTOM)
    (hchk : (cb2 = NEBCALLBACK_HOST_CHECK_DATA ∧
        ∃ hd, data2 = .host_check hd ∧ hd.type = NEBTYPE_HOSTCHECK_PROCESSED) ∨
      (cb2 = NEBCALLBACK_SERVICE_CHECK_DATA ∧
        ∃ sd, data2 = .service_check sd ∧ sd.type = NEBTYPE_SERVICECHECK_PROCESSED)) :
    ∃ r1 st1,
      merlin_mod_hook env st NEBCALLBACK_NOTIFICATION_DATA (some (.notification ds)) now1
        = some (r1, st1) ∧
      r1.return_code = 0 ∧
      sent_packets (trace_since st st1) = [] ∧
      ∃ r2 st2, merlin_mod_hook env2 st1 cb2 (some data2) now2 = some (r2, st2) ∧
        ∃ chk ntf, sent_packets (trace_since st1 st2) = chk ++ ntf ∧
          (∀ p ∈ chk, p.hdr.type = cb2.toNat) ∧
          (∀ p ∈ ntf, p.hdr.type = NEBCALLBACK_NOTIFICATION_DATA ∧
            p.hdr.selection = env.DEST_PEERS_MASTERS) := by
  refine ⟨_, _, mod_hook_notification_end_held env st ds now1 hslot hlocal hend hreason, rfl,
    ?_, ?_⟩
  · obtain ⟨q, hq1, hq2⟩ := mod_hook_enter_trace st now1
    have : trace_since st
        { mod_hook_enter st now1 with
          tmp_notif_pkt := memcpy_event (mod_hook_enter st now1).tmp_notif_pkt
            (notification_end_pkt env (mod_hook_pkt env NEBCALLBACK_NOTIFICATION_DATA)),
          tmp_notif_data := some (notification_end_data ds) } = q := by
      show List.drop _ (mod_hook_enter st now1).trace = q
      rw [hq1]
      simp
    rw [this]
    exact sent_packets_quiet q hq2
  · have hrange : ¬(cb2 < 0 ∨ cb2 > NEBCALLBACK_NUMITEMS) := by
      rcases hchk with ⟨hcb, _⟩ | ⟨hcb, _⟩ <;> (subst hcb; decide)
    obtain ⟨x, hx⟩ := mod_hook_switch_check_defined env2
      (mod_hook_enter
        ({ mod_hook_enter st now1 with
          tmp_notif_pkt := memcpy_event (mod_hook_enter st now1).tmp_notif_pkt
            (notification_end_pkt env (mod_hook_pkt env NEBCALLBACK_NOTIFICATION_DATA)),
          tmp_notif_data := some (notification_end_data ds) } : State) now2)
      (mod_hook_pkt env2 cb2) cb2 data2 hchk
    have hrun2 : merlin_mod_hook env2
        ({ mod_hook_enter st now1 with
          tmp_notif_pkt := memcpy_event (mod_hook_enter st now1).tmp_notif_pkt
            (notification_end_pkt env (mod_hook_pkt env NEBCALLBACK_NOTIFICATION_DATA)),
          tmp_notif_data := some (notification_end_data ds) } : State) cb2 (some data2) now2
        = some (mod_hook_neb_result x.1 x.2.1,
            mod_hook_leave x.2.2 (mod_hook_result x.1 x.2.1) now2) := by
      unfold merlin_mod_hook
      simp only []
      rw [if_neg hrange, hx]
    refine ⟨_, _, hrun2, ?_⟩
    obtain ⟨q0, hq01, hq02⟩ := mod_hook_enter_trace
      ({ mod_hook_enter st now1 with
        tmp_notif_pkt := memcpy_event (mod_hook_enter st now1).tmp_notif_pkt
          (notification_end_pkt env (mod_hook_pkt env NEBCALLBACK_NOTIFICATION_DATA)),
        tmp_notif_data := some (notification_end_data ds) } : State) now2
    obtain ⟨q, chk, ntf, ht, hq, hc, hn⟩ := mod_hook_switch_check_order env2 _ _ cb2 data2 x hchk hx
    obtain ⟨q1, hq11, hq12⟩ := mod_hook_leave_trace x.2.2 (mod_hook_result x.1 x.2.1) now2
    rw [(mod_hook_enter_slot _ now2).2] at hn
    refine ⟨sent_packets chk, sent_packets ntf, ?_, ?_, ?_⟩
    · have : trace_since
          ({ mod_hook_enter st now1 with
            tmp_notif_pkt := memcpy_event (mod_hook_enter st now1).tmp_notif_pkt
              (notification_end_pkt env (mod_hook_pkt env NEBCALLBACK_NOTIFICATION_DATA)),
            tmp_notif_data := some (notification_end_data ds) } : State)
          (mod_hook_leave x.2.2 (mod_hook_result x.1 x.2.1) now2)
          = q0 ++ q ++ chk ++ ntf ++ q1 := by
        unfold trace_since
        rw [hq11, ht, hq01]
        simp
      rw [this]
      simp only [sent_packets_append, sent_packets_quiet q0 hq02, sent_packets_quiet q hq,
        sent_packets_quiet q1 hq12, List.nil_append, List.append_nil]
    · intro p hp
      have h := (sent_packets_sends_of env2 _ chk hc p hp).1
      rw [h, check_result_pkt_type]
      rfl
    · intro p hp
      have h := sent_packets_sends_of env2 _ ntf hn p hp
      exact ⟨h.1, h.2.1⟩

/-- Witness for C3: on the sample node a local problem notification ends and
the service check result that caused it is processed next; the check packet goes
to the daemon, the master and the peer before the notification packet does. -/
theorem hold_ordering_witness :
    (∃ r1 st1,
      merlin_mod_hook sample_env State.init NEBCALLBACK_NOTIFICATION_DATA
        (some (.notification (sample_notification NEBTYPE_NOTIFICATION_END NOTIFICATION_NORMAL)))
        1000 = some (r1, st1) ∧
      r1.return_code = 0 ∧
      sent_packets (trace_since State.init st1) = [] ∧
      ∃ r2 st2, merlin_mod_hook sample_env st1 NEBCALLBACK_SERVICE_CHECK_DATA
          (some (.service_check (sample_service_check NEBTYPE_SERVICECHECK_PROCESSED))) 1001
          = some (r2, st2) ∧
        ∃ chk ntf, sent_packets (trace_since st1 st2) = chk ++ ntf ∧
          (∀ p ∈ chk, p.hdr.type = (NEBCALLBACK_SERVICE_CHECK_DATA : Int).toNat) ∧
          (∀ p ∈ ntf, p.hdr.type = NEBCALLBACK_NOTIFICATION_DATA ∧
            p.hdr.selection = sample_env.DEST_PEERS_MASTERS)) ∧
    sent_packets (trace_since held_state
      (run_hook sample_env held_state NEBCALLBACK_SERVICE_CHECK_DATA
        (some (.service_check (sample_service_check NEBTYPE_SERVICECHECK_PROCESSED))) 1001).2)
      = [sample_sent 6 0 0xfff6, sample_sent 6 0 0xfff6, sample_sent 6 0 0xfff6,
         sample_sent 5 0 0xfff6, sample_sent 5 0 0xfff6, sample_sent 5 0 0xfff6] :=
  ⟨hold_ordering sample_env sample_env State.init
      (sample_notification NEBTYPE_NOTIFICATION_END NOTIFICATION_NORMAL)
      NEBCALLBACK_SERVICE_CHECK_DATA
      (.service_check (sample_service_check NEBTYPE_SERVICECHECK_PROCESSED)) 1000 1001
      rfl rfl rfl (by decide) (Or.inr ⟨rfl, _, rfl, rfl⟩),
    by decide⟩

/-! ## The dispatch engine, step by step -/

theorem net_sends_net_sendto_range (tbl : Nat → merlin_node) (n : Nat) (pkt : merlin_event) :
    net_sends (net_sendto_range tbl n pkt) = range_sends tbl n pkt := by
  simp only [net_sends, net_sendto_range, range_sends, List.filterMap_map, Function.comp_def]
  exact congrFun (List.filterMap_eq_map (fun i => (tbl i, pkt))) (List.range n)

theorem net_sends_map_net_sendto (li : List merlin_node) (pkt : merlin_event) :
    net_sends (li.map (fun n => effect.net_sendto n pkt)) = li.map (fun n => (n, pkt)) := by
  simp only [net_sends, List.filterMap_map, Function.comp_def]
  exact congrFun (List.filterMap_eq_map (fun n => (n, pkt))) li

theorem net_sends_ipc (pkt : merlin_event) : net_sends [effect.ipc_send_event pkt] = [] := rfl

/-- A packet that reaches the local emit: the result is the one of the network
part, and the calls made are the local emit followed by those of the network
part. -/
theorem send_generic_reaches (env : Env) (st : State) (pkt : merlin_event) (data : event_body)
    (h : reaches_emit env st pkt data) :
    (send_generic env st pkt data).1 =
      (net_fanout env (encode_packet env pkt data)
        (local_emit_result env st (encode_packet env pkt data))).1 ∧
    (send_generic env st pkt data).2.1 = encode_packet env pkt data ∧
    (send_generic env st pkt data).2.2.trace = st.trace ++
      ((if env.daemon_wants pkt.hdr.type = true
          then [effect.ipc_send_event (encode_packet env pkt data)] else []) ++
        (net_fanout env (encode_packet env pkt data)
          (local_emit_result env st (encode_packet env pkt data))).2) := by
  obtain ⟨h1, h2, h3⟩ := h
  have hst := is_dupe_false_state _ _ _ h3
  rw [send_generic_unfold]
  rw [if_neg (by simp [h1]), if_neg h2, if_neg (by simp [h3]), hst]
  refine ⟨rfl, rfl, ?_⟩
  show (local_emit env st (encode_packet env pkt data)).trace ++ _ = _
  rw [local_emit_trace, List.append_assoc]
  rfl

theorem trace_since_append (st st2 : State) (new : List effect)
    (h : st2.trace = st.trace ++ new) : trace_since st st2 = new := by
  simp [trace_since, h]

theorem net_fanout_magic (env : Env) (pkt : merlin_event) (result : Int)
    (hn : env.num_nodes ≠ 0) (hm : env.magic_destination pkt = true) :
    net_fanout env pkt result = (0, magic_sends env pkt) := by
  unfold net_fanout
  rw [if_neg hn, if_pos hm]

theorem net_fanout_plain (env : Env) (pkt : merlin_event) (result : Int)
    (hn : env.num_nodes ≠ 0) (hm : env.magic_destination pkt = false) :
    net_fanout env pkt result =
      if ntable_stop env pkt = env.num_nodes ∨ env.num_pollers = 0 then
        (0, net_sendto_range env.node_table (ntable_stop env pkt) pkt)
      else if env.nodes_by_sel_id pkt.hdr.selection = [] then
        (-1, net_sendto_range env.node_table (ntable_stop env pkt) pkt)
      else
        (result, net_sendto_range env.node_table (ntable_stop env pkt) pkt ++
          (env.nodes_by_sel_id pkt.hdr.selection).map (fun n => effect.net_sendto n pkt)) := by
  unfold net_fanout
  rw [if_neg hn, if_neg (by simp [hm])]

theorem ntable_stop_targeted (env : Env) (pkt : merlin_event) (hok : node_counts_ok env)
    (hnc : ¬(pkt.hdr.selection = env.CTRL_GENERIC ∧ pkt.hdr.type = env.CTRL_PACKET)) :
    ntable_stop env pkt = env.num_masters + env.num_peers := by
  unfold ntable_stop
  rw [if_neg hnc]
  apply Nat.mod_eq_of_lt
  have h1 := hok.1
  have h2 := hok.2
  omega

/-! ## Early drop -/

/-- C12, as amended. When the daemon has filtered out the kind and, besides,
there are no configured nodes or the event is marked NONET, send_generic drops
the event silently: it returns 0 and leaves packet and state as they were, so
there is no encode, no IPC send, no net_sendto and no change of the dedup slot. -/
theorem send_generic_early_drop (env : Env) (st : State) (pkt : merlin_event) (data : event_body)
    (hwant : env.daemon_wants pkt.hdr.type = false)
    (hlocal : env.num_nodes = 0 ∨ pkt.hdr.code = env.MAGIC_NONET) :
    send_generic env st pkt data = (0, pkt, st) ∧
    ipc_sends (trace_since st (send_generic env st pkt data).2.2) = [] ∧
    net_sends (trace_since st (send_generic env st pkt data).2.2) = [] ∧
    (send_generic env st pkt data).2.2.last_pkt = st.last_pkt := by
  have h : send_generic env st pkt data = (0, pkt, st) := by
    rw [send_generic_unfold]
    rw [if_pos (by simp [early_drop, hwant, hlocal])]
  rw [h]
  simp [trace_since, ipc_sends, net_sends]

/-- Witness for C12 as amended: a NONET-marked process event on the sample node
whose daemon has filtered out every kind. -/
theorem send_generic_early_drop_witness :
    send_generic filtering_env State.init (sample_pkt_with 0 0xffff 0xffff) (.other 0)
      = (0, sample_pkt_with 0 0xffff 0xffff, State.init) :=
  (send_generic_early_drop filtering_env State.init (sample_pkt_with 0 0xffff 0xffff) (.other 0)
    rfl (Or.inr rfl)).1

/-- C12, counterexample. On a node without configured nodes a NONET-marked
packet that the daemon wants is encoded and sent to the daemon; and on the
sample node a packet of a kind that the daemon has filtered out, with code 0,
is encoded and sent to the master, the peer and the poller. -/
theorem send_generic_not_dropped :
    lonely_env.num_nodes = 0 ∧
    (sample_pkt_with 0 0xffff 0xffff).hdr.code = lonely_env.MAGIC_NONET ∧
    ipc_sends (send_generic lonely_env State.init (sample_pkt_with 0 0xffff 0xffff)
      (.other 0)).2.2.trace = [sample_sent 0 0xffff 0xffff] ∧
    filtering_env.daemon_wants (sample_pkt 8).hdr.type = false ∧
    (send_generic filtering_env State.init (sample_pkt 8) (.other 0)).2.1 = sample_sent 8 0 0xffff ∧
    net_sends (send_generic filtering_env State.init (sample_pkt 8) (.other 0)).2.2.trace
      = [(sample_master, sample_sent 8 0 0xffff), (sample_peer, sample_sent 8 0 0xffff),
         (sample_poller, sample_sent 8 0 0xffff)] := by
  decide

/-! ## Selection lookup failure -/

/-- C11. A non-magic, non-control packet that reaches the local emit on a node
with pollers, and whose selection has no entry in nodes_by_sel_id, makes
send_generic return -1; the calls made are the local IPC emit (when the daemon
wants the kind) followed by net_sendto for node_table[0 .. num_masters+num_peers),
the masters and peers, and nothing else: no poller is sent the packet. -/
theorem send_generic_selection_failure (env : Env) (st : State) (pkt : merlin_event)
    (data : event_body)
    (hreach : reaches_emit env st pkt data)
    (hok : node_counts_ok env)
    (hpoll : 0 < env.num_pollers)
    (hnm : env.magic_destination (encode_packet env pkt data) = false)
    (hnc : ¬(pkt.hdr.selection = env.CTRL_GENERIC ∧ pkt.hdr.type = env.CTRL_PACKET))
    (hsel : env.nodes_by_sel_id pkt.hdr.selection = []) :
    (send_generic env st pkt data).1 = -1 ∧
    (send_generic env st pkt data).1 < 0 ∧
    trace_since st (send_generic env st pkt data).2.2 =
      (if env.daemon_wants pkt.hdr.type = true
        then [effect.ipc_send_event (encode_packet env pkt data)] else []) ++
      net_sendto_range env.node_table (env.num_masters + env.num_peers)
        (encode_packet env pkt data) ∧
    net_sends (trace_since st (send_generic env st pkt data).2.2) =
      range_sends env.node_table (env.num_masters + env.num_peers) (encode_packet env pkt data) := by
  have hn : env.num_nodes ≠ 0 := by
    have h1 := hok.1
    omega
  have hstop : ntable_stop env (encode_packet env pkt data) = env.num_masters + env.num_peers :=
    ntable_stop_targeted env _ hok hnc
  have hf : net_fanout env (encode_packet env pkt data)
      (local_emit_result env st (encode_packet env pkt data)) =
      (-1, net_sendto_range env.node_table (env.num_masters + env.num_peers)
        (encode_packet env pkt data)) := by
    rw [net_fanout_plain env _ _ hn hnm, hstop]
    have h1 := hok.1
    rw [if_neg (by omega)]
    rw [if_pos (by rw [encode_packet_selection]; exact hsel)]
  obtain ⟨r1, _, r3⟩ := send_generic_reaches env st pkt data hreach
  rw [hf] at r1 r3
  have ht := trace_since_append _ _ _ r3
  refine ⟨r1, by rw [r1]; exact (by decide : (-1 : Int) < 0), ht, ?_⟩
  rw [ht, net_sends_append, net_sends_net_sendto_range]
  split_ifs <;> simp [net_sends]

/-- Witness for C11: an external command packet for the unknown poller group 5
on the sample node. -/
theorem send_generic_selection_failure_witness :
    (send_generic sample_env State.init (sample_pkt_with 17 0 5) (.other 0)).1 = -1 ∧
    net_sends (trace_since State.init
      (send_generic sample_env State.init (sample_pkt_with 17 0 5) (.other 0)).2.2)
      = [(sample_master, sample_sent 17 0 5), (sample_peer, sample_sent 17 0 5)] := by
  have h := send_generic_selection_failure sample_env State.init (sample_pkt_with 17 0 5)
    (.other 0) ⟨by decide, by decide, by decide⟩ ⟨by decide, by decide⟩ (by decide) (by decide)
    (by decide) (by decide)
  exact ⟨h.1, h.2.2.2⟩

/-! ## Targeted fan-out -/

theorem net_sends_since_reaches (env : Env) (st : State) (pkt : merlin_event) (data : event_body)
    (h : reaches_emit env st pkt data) :
    net_sends (trace_since st (send_generic env st pkt data).2.2) =
      net_sends (net_fanout env (encode_packet env pkt data)
        (local_emit_result env st (encode_packet env pkt data))).2 := by
  rw [trace_since_append _ _ _ (send_generic_reaches env st pkt data h).2.2, net_sends_append]
  split_ifs <;> simp [net_sends]

/-- C14. For a non-magic packet that reaches the network fan-out, the net_sendto
calls of send_generic are those for node_table[0 .. num_nodes) when the selection
is CTRL_GENERIC and the kind CTRL_PACKET; otherwise those for
node_table[0 .. num_masters+num_peers), in index order, followed, when there are
pollers, by one call for each node of nodes_by_sel_id(selection), in list order. -/
theorem send_generic_targeted_fanout (env : Env) (st : State) (pkt : merlin_event)
    (data : event_body)
    (hreach : reaches_emit env st pkt data)
    (hok : node_counts_ok env)
    (hn : env.num_nodes ≠ 0)
    (hnm : env.magic_destination (encode_packet env pkt data) = false) :
    net_sends (trace_since st (send_generic env st pkt data).2.2) =
      if pkt.hdr.selection = env.CTRL_GENERIC ∧ pkt.hdr.type = env.CTRL_PACKET then
        range_sends env.node_table env.num_nodes (encode_packet env pkt data)
      else
        range_sends env.node_table (env.num_masters + env.num_peers) (encode_packet env pkt data)
        ++ (if 0 < env.num_pollers
            then (env.nodes_by_sel_id pkt.hdr.selection).map
              (fun n => (n, encode_packet env pkt data))
            else []) := by
  rw [net_sends_since_reaches env st pkt data hreach, net_fanout_plain env _ _ hn hnm]
  have h1 := hok.1
  by_cases hc : pkt.hdr.selection = env.CTRL_GENERIC ∧ pkt.hdr.type = env.CTRL_PACKET
  · have hstop : ntable_stop env (encode_packet env pkt data) = env.num_nodes := if_pos hc
    rw [if_pos hc, hstop, if_pos (Or.inl rfl), net_sends_net_sendto_range]
  · rw [if_neg hc, ntable_stop_targeted env (encode_packet env pkt data) hok hc]
    by_cases hp : env.num_pollers = 0
    · have c1 : env.num_masters + env.num_peers = env.num_nodes ∨ env.num_pollers = 0 := Or.inr hp
      have c2 : ¬(0 < env.num_pollers) := by omega
      rw [if_pos c1, if_neg c2, net_sends_net_sendto_range, List.append_nil]
    · have c1 : ¬(env.num_masters + env.num_peers = env.num_nodes ∨ env.num_pollers = 0) := by
        omega
      have c2 : 0 < env.num_pollers := by omega
      rw [if_neg c1, if_pos c2]
      by_cases hs : env.nodes_by_sel_id (encode_packet env pkt data).hdr.selection = []
      · have hs2 : env.nodes_by_sel_id pkt.hdr.selection = [] := hs
        rw [if_pos hs, hs2, net_sends_net_sendto_range, List.map_nil, List.append_nil]
      · rw [if_neg hs, net_sends_append, net_sends_net_sendto_range, net_sends_map_net_sendto]
        rfl

/-- Witness for C14: an external command packet for poller group 0 on the sample
node goes to the master, the peer and the poller of that group. -/
theorem send_generic_targeted_fanout_witness :
    net_sends (trace_since State.init
      (send_generic sample_env State.init (sample_pkt_with 17 0 0) (.other 0)).2.2)
      = [(sample_master, sample_sent 17 0 0), (sample_peer, sample_sent 17 0 0),
         (sample_poller, sample_sent 17 0 0)] :=
  send_generic_targeted_fanout sample_env State.init (sample_pkt_with 17 0 0) (.other 0)
    ⟨by decide, by decide, by decide⟩ ⟨by decide, by decide⟩ (by decide) (by decide)

/-! ## Magic destinations -/

/-- Whatever `magic_destination` answers, a packet that enters the network part
with a selection carrying the masters mark is sent to the first master. -/
theorem net_fanout_reaches_master (env : Env) (pkt : merlin_event) (result : Int)
    (hok : node_counts_ok env) (hmasters : 0 < env.num_masters)
    (hcarry : pkt.hdr.selection &&& env.DEST_MASTERS = env.DEST_MASTERS) :
    effect.net_sendto (env.node_table 0) pkt ∈ (net_fanout env pkt result).2 := by
  have h1 := hok.1
  have h2 := hok.2
  have hn : env.num_nodes ≠ 0 := by omega
  have hrange : ∀ n, 0 < n →
      effect.net_sendto (env.node_table 0) pkt ∈ net_sendto_range env.node_table n pkt := by
    intro n hpos
    simp only [net_sendto_range, List.mem_map, List.mem_range]
    exact ⟨0, hpos, rfl⟩
  cases hm : env.magic_destination pkt with
  | true =>
    rw [net_fanout_magic env _ _ hn hm]
    unfold magic_sends
    rw [if_pos hcarry]
    exact List.mem_append_left _ (List.mem_append_left _ (hrange _ hmasters))
  | false =>
    have hstop : 0 < ntable_stop env pkt := by
      unfold ntable_stop
      split_ifs
      · omega
      · rw [u32, Nat.mod_eq_of_lt (by omega)]
        omega
    rw [net_fanout_plain env _ _ hn hm]
    split_ifs
    · exact hrange _ hstop
    · exact hrange _ hstop
    · exact List.mem_append_left _ (hrange _ hstop)

/-- C13, at the failing input. On the sample node a packet marked NONET whose
selection is PEERS_MASTERS has a magic destination and is handed to net_sendto
for the master and for the peer. -/
theorem send_generic_nonet_reaches_network :
    (sample_pkt_with 8 0xffff 0xfff6).hdr.code = sample_env.MAGIC_NONET ∧
    sample_env.magic_destination (sample_sent 8 0xffff 0xfff6) = true ∧
    (send_generic sample_env State.init (sample_pkt_with 8 0xffff 0xfff6) (.other 0)).1 = 0 ∧
    net_sends (send_generic sample_env State.init (sample_pkt_with 8 0xffff 0xfff6)
      (.other 0)).2.2.trace
      = [(sample_master, sample_sent 8 0xffff 0xfff6), (sample_peer, sample_sent 8 0xffff 0xfff6)] := by
  decide

/-! ## Routing of local check results -/

/-- C16, at the failing input. On the sample node (one master, one peer, one
poller) a flapping, a program status and a process callback each mark the packet
NONET, send it to the local daemon once, and hand the same packet to
`net_sendto` for the master, the peer and the poller. -/
theorem local_only_kinds_reach_network :
    (ipc_sends (trace_since State.init
        (run_hook sample_env State.init NEBCALLBACK_FLAPPING_DATA (some (.other 0)) 1000).2)
      = [sample_sent 10 0xffff 0xffff] ∧
     net_sends (trace_since State.init
        (run_hook sample_env State.init NEBCALLBACK_FLAPPING_DATA (some (.other 0)) 1000).2)
      = [(sample_master, sample_sent 10 0xffff 0xffff), (sample_peer, sample_sent 10 0xffff 0xffff),
         (sample_poller, sample_sent 10 0xffff 0xffff)]) ∧
    net_sends (trace_since State.init
        (run_hook sample_env State.init NEBCALLBACK_PROGRAM_STATUS_DATA (some (.other 0)) 1000).2)
      = [(sample_master, sample_sent 11 0xffff 0xffff), (sample_peer, sample_sent 11 0xffff 0xffff),
         (sample_poller, sample_sent 11 0xffff 0xffff)] ∧
    net_sends (trace_since State.init
        (run_hook sample_env State.init NEBCALLBACK_PROCESS_DATA (some (.other 0)) 1000).2)
      = [(sample_master, sample_sent 0 0xffff 0xffff), (sample_peer, sample_sent 0 0xffff 0xffff),
         (sample_poller, sample_sent 0 0xffff 0xffff)] ∧
    (sample_sent 10 0xffff 0xffff).hdr.code = sample_env.MAGIC_NONET := by
  decide

/-! ## External commands -/

theorem select_mark_local (env : Env) (pkt : merlin_event) (sel : Nat)
    (h : env.merlin_sender = none) :
    mark_if_inbound env (select_if_local env pkt sel) =
      { pkt with hdr := { pkt.hdr with selection := sel } } := by
  simp [mark_if_inbound, select_if_local, h]

theorem select_mark_inbound (env : Env) (pkt : merlin_event) (sel : Nat) (sender : merlin_node)
    (h : env.merlin_sender = some sender) :
    mark_if_inbound env (select_if_local env pkt sel) =
      { pkt with hdr := { pkt.hdr with code := env.MAGIC_NONET } } := by
  simp [mark_if_inbound, select_if_local, h]

theorem host_owner_result_found (env : Env) (name : String) (obj : host)
    (h : env.find_host name = some obj) :
    (host_owner_result env name = NEBERROR_CALLBACKCANCEL ↔ env.pgroup_host_node obj.id ≠ .ipc) ∧
    (env.pgroup_host_node obj.id = .ipc → host_owner_result env name = NEB_OK) := by
  unfold host_owner_result
  rw [h]
  by_cases hn : env.pgroup_host_node obj.id = .ipc
  · show ((if _ then NEBERROR_CALLBACKCANCEL else NEB_OK) = NEBERROR_CALLBACKCANCEL ↔ _) ∧
      (_ → (if _ then NEBERROR_CALLBACKCANCEL else NEB_OK) = NEB_OK)
    rw [if_neg (fun hc => hc hn)]
    exact ⟨⟨fun hc => absurd hc (by decide), fun hc => absurd hn hc⟩, fun _ => rfl⟩
  · show ((if _ then NEBERROR_CALLBACKCANCEL else NEB_OK) = NEBERROR_CALLBACKCANCEL ↔ _) ∧
      (_ → (if _ then NEBERROR_CALLBACKCANCEL else NEB_OK) = NEB_OK)
    rw [if_pos hn]
    exact ⟨⟨fun _ => hn, fun _ => rfl⟩, fun hc => absurd hc hn⟩

theorem service_owner_result_found (env : Env) (name descr : String) (obj : service)
    (h : env.find_service name descr = some obj) :
    (service_owner_result env name descr = NEBERROR_CALLBACKCANCEL ↔
      env.pgroup_service_node obj.id ≠ .ipc) ∧
    (env.pgroup_service_node obj.id = .ipc → service_owner_result env name descr = NEB_OK) := by
  unfold service_owner_result
  rw [h]
  by_cases hn : env.pgroup_service_node obj.id = .ipc
  · show ((if _ then NEBERROR_CALLBACKCANCEL else NEB_OK) = NEBERROR_CALLBACKCANCEL ↔ _) ∧
      (_ → (if _ then NEBERROR_CALLBACKCANCEL else NEB_OK) = NEB_OK)
    rw [if_neg (fun hc => hc hn)]
    exact ⟨⟨fun hc => absurd hc (by decide), fun hc => absurd hn hc⟩, fun _ => rfl⟩
  · show ((if _ then NEBERROR_CALLBACKCANCEL else NEB_OK) = NEBERROR_CALLBACKCANCEL ↔ _) ∧
      (_ → (if _ then NEBERROR_CALLBACKCANCEL else NEB_OK) = NEB_OK)
    rw [if_pos hn]
    exact ⟨⟨fun _ => hn, fun _ => rfl⟩, fun hc => absurd hc hn⟩

/-- The run of the hook for a host command of the owner-only group whose
arguments hold a semicolon. -/
theorem hook_external_command_host_owner (env : Env) (st : State) (pkt : merlin_event)
    (ds : nebstruct_external_command_data) (args rest : String)
    (ht : ds.type = NEBTYPE_EXTERNALCOMMAND_START)
    (hc : command_case ds.command_type = .host_owner)
    (ha : ds.command_args = some args)
    (hd : after_semicolon args = some rest) :
    hook_external_command env st pkt ds =
      some (host_owner_result env (before_semicolon args),
        (send_generic env st
          (mark_if_inbound env (select_if_local env pkt (get_selection env (before_semicolon args))))
          (.external_command ds)).2.2) := by
  unfold hook_external_command
  rw [if_neg (fun h => h ht), hc]
  simp only [ha, hd]
  rfl

/-- The run of the hook for a service command of the owner-only group whose
arguments hold two semicolons. -/
theorem hook_external_command_service_owner (env : Env) (st : State) (pkt : merlin_event)
    (ds : nebstruct_external_command_data) (args rest rest2 : String)
    (ht : ds.type = NEBTYPE_EXTERNALCOMMAND_START)
    (hc : command_case ds.command_type = .service_owner)
    (ha : ds.command_args = some args)
    (hd : after_semicolon args = some rest)
    (hd2 : after_semicolon rest = some rest2) :
    hook_external_command env st pkt ds =
      some (service_owner_result env (before_semicolon args) (before_semicolon rest),
        (send_generic env st
          (mark_if_inbound env (select_if_local env pkt (get_selection env (before_semicolon args))))
          (.external_command ds)).2.2) := by
  unfold hook_external_command
  rw [if_neg (fun h => h ht), hc]
  simp only [ha, hd, hd2]
  rfl

/-- C17. A START external command PROCESS_HOST_CHECK_RESULT or
SEND_CUSTOM_HOST_NOTIFICATION (`hds`) whose arguments hold a semicolon and name
a host that `find_host` knows, and a START external command
PROCESS_SERVICE_CHECK_RESULT or SEND_CUSTOM_SVC_NOTIFICATION (`sds`) whose
arguments hold two semicolons and name a service that `find_service` knows: the
hook returns NEBERROR_CALLBACKCANCEL exactly when the node owning the object is
not the self node and NEB_OK otherwise, and the state it leaves is the state
after one run of `send_generic` from the state it started in. The packet of
that run is the one of the caller with, for a local command, the selection
found for the host name in front of the first semicolon. -/
theorem owner_only_command_execution (env : Env) (st : State) (pkt : merlin_event)
    (hds sds : nebstruct_external_command_data) (hargs hrest sargs srest srest2 : String)
    (hobj : host) (sobj : service)
    (hht : hds.type = NEBTYPE_EXTERNALCOMMAND_START)
    (hhc : hds.command_type = .CMD_PROCESS_HOST_CHECK_RESULT ∨
      hds.command_type = .CMD_SEND_CUSTOM_HOST_NOTIFICATION)
    (hha : hds.command_args = some hargs)
    (hhd : after_semicolon hargs = some hrest)
    (hhf : env.find_host (before_semicolon hargs) = some hobj)
    (hst : sds.type = NEBTYPE_EXTERNALCOMMAND_START)
    (hsc : sds.command_type = .CMD_PROCESS_SERVICE_CHECK_RESULT ∨
      sds.command_type = .CMD_SEND_CUSTOM_SVC_NOTIFICATION)
    (hsa : sds.command_args = some sargs)
    (hsd : after_semicolon sargs = some srest)
    (hsd2 : after_semicolon srest = some srest2)
    (hsf : env.find_service (before_semicolon sargs) (before_semicolon srest) = some sobj) :
    (∃ code, hook_external_command env st pkt hds =
        some (code, (send_generic env st
          (mark_if_inbound env (select_if_local env pkt (get_selection env (before_semicolon hargs))))
          (.external_command hds)).2.2) ∧
      (code = NEBERROR_CALLBACKCANCEL ↔ env.pgroup_host_node hobj.id ≠ .ipc) ∧
      (env.pgroup_host_node hobj.id = .ipc → code = NEB_OK)) ∧
    (∃ code, hook_external_command env st pkt sds =
        some (code, (send_generic env st
          (mark_if_inbound env (select_if_local env pkt (get_selection env (before_semicolon sargs))))
          (.external_command sds)).2.2) ∧
      (code = NEBERROR_CALLBACKCANCEL ↔ env.pgroup_service_node sobj.id ≠ .ipc) ∧
      (env.pgroup_service_node sobj.id = .ipc → code = NEB_OK)) ∧
    (env.merlin_sender = none → ∀ sel,
      mark_if_inbound env (select_if_local env pkt sel) =
        { pkt with hdr := { pkt.hdr with selection := sel } }) := by
  have hhcase : command_case hds.command_type = .host_owner := by
    rcases hhc with h | h <;> rw [h] <;> rfl
  have hscase : command_case sds.command_type = .service_owner := by
    rcases hsc with h | h <;> rw [h] <;> rfl
  refine ⟨⟨_, hook_external_command_host_owner env st pkt hds hargs hrest hht hhcase hha hhd,
      host_owner_result_found env _ hobj hhf⟩,
    ⟨_, hook_external_command_service_owner env st pkt sds sargs srest srest2 hst hscase hsa hsd
        hsd2,
      service_owner_result_found env _ _ sobj hsf⟩,
    fun hl sel => select_mark_local env pkt sel hl⟩

/-- On the sample node with host "web01" owned by the node itself and service
"http" owned by the peer, a passive host check result is dispatched and goes on
to be executed (result 0), and a passive service check result is dispatched and
cancelled (result 207); both go out addressed by host name, here to peers and
masters. -/
theorem owner_only_command_execution_witness :
    (hook_external_command command_env State.init (sample_pkt 17)
        (sample_command .CMD_PROCESS_HOST_CHECK_RESULT "web01;0;UP")).map Prod.fst = some 0 ∧
    (hook_external_command command_env State.init (sample_pkt 17)
        (sample_command .CMD_PROCESS_SERVICE_CHECK_RESULT "web01;http;2;CRITICAL")).map Prod.fst
      = some 207 ∧
    sent_packets (trace_since State.init
      (send_generic command_env State.init
        (mark_if_inbound command_env
          (select_if_local command_env (sample_pkt 17) (get_selection command_env "web01")))
        (.external_command
          (sample_command .CMD_PROCESS_SERVICE_CHECK_RESULT "web01;http;2;CRITICAL"))).2.2)
      = [sample_sent 17 0 0xfff6, sample_sent 17 0 0xfff6, sample_sent 17 0 0xfff6] := by
  obtain ⟨⟨c1, h1, _, h1ok⟩, ⟨c2, h2, h2c, _⟩, _⟩ :=
    owner_only_command_execution command_env State.init (sample_pkt 17)
      (sample_command .CMD_PROCESS_HOST_CHECK_RESULT "web01;0;UP")
      (sample_command .CMD_PROCESS_SERVICE_CHECK_RESULT "web01;http;2;CRITICAL")
      "web01;0;UP" "0;UP" "web01;http;2;CRITICAL" "http;2;CRITICAL" "2;CRITICAL"
      sample_host sample_service rfl (Or.inl rfl) rfl (by decide) (by decide)
      rfl (Or.inl rfl) rfl (by decide) (by decide) (by decide)
  refine ⟨?_, ?_, by decide⟩
  · rw [h1, h1ok (by decide)]
    rfl
  · rw [h2, h2c.2 (by decide)]
    rfl

/-- A dispatched command ends in the common send, with the selection set by
the `switch` when the command is local. -/
theorem hook_external_command_dispatched (env : Env) (st : State) (pkt : merlin_event)
    (ds : nebstruct_external_command_data) (r : Int × State)
    (hd : command_dispatched env ds)
    (h : hook_external_command env st pkt ds = some r) :
    ∃ sel c, r = external_command_send env st (select_if_local env pkt sel) ds c := by
  obtain ⟨ht, h1, h2, h3⟩ := hd
  unfold hook_external_command at h
  rw [if_neg (fun h0 => h0 ht)] at h
  cases hcc : command_case ds.command_type with
  | comment_cmd => exact absurd hcc h1
  | del_downtime => exact absurd hcc h2
  | dflt =>
    rw [hcc] at h
    simp only [if_neg (h3 hcc)] at h
    cases h
    exact ⟨_, _, rfl⟩
  | per_object | hostgroup | servicegroup =>
    rw [hcc] at h
    cases h
    exact ⟨_, _, rfl⟩
  | host_owner | service_owner =>
    rw [hcc] at h
    repeat' (split at h)
    all_goals first
      | contradiction
      | (cases h; exact ⟨_, _, rfl⟩)


/-- C18. A START external command under none of the `case` labels (`ds`), on a
node whose node counts fit the machine word: with neither peer nor poller the
hook returns 0 and leaves the state, trace included, as it was; otherwise it
returns NEB_OK after one run of `send_generic`, whose packet carries selection
PEERS_POLLERS when no sender is set. And a command that is dispatched while a
sender is set (`env2`, `ds2`) is sent with code NONET and with the selection
the caller wrote. -/
theorem unknown_and_inbound_commands (env env2 : Env) (st : State) (pkt : merlin_event)
    (ds ds2 : nebstruct_external_command_data) (r : Int × State) (sender : merlin_node)
    (hok : node_counts_ok env)
    (ht : ds.type = NEBTYPE_EXTERNALCOMMAND_START)
    (hc : command_case ds.command_type = .dflt)
    (hin : env2.merlin_sender = some sender)
    (hdisp : command_dispatched env2 ds2)
    (hrun : hook_external_command env2 st pkt ds2 = some r) :
    (env.num_peers + env.num_pollers = 0 → hook_external_command env st pkt ds = some (0, st)) ∧
    (env.num_peers + env.num_pollers ≠ 0 →
      hook_external_command env st pkt ds =
        some (NEB_OK, (send_generic env st
          (mark_if_inbound env (select_if_local env pkt env.DEST_PEERS_POLLERS))
          (.external_command ds)).2.2)) ∧
    (env.merlin_sender = none →
      mark_if_inbound env (select_if_local env pkt env.DEST_PEERS_POLLERS) =
        { pkt with hdr := { pkt.hdr with selection := env.DEST_PEERS_POLLERS } }) ∧
    (∃ c, r = (c, (send_generic env2 st
        { pkt with hdr := { pkt.hdr with code := env2.MAGIC_NONET } }
        (.external_command ds2)).2.2)) := by
  have hsum : u32 (env.num_peers + env.num_pollers) = env.num_peers + env.num_pollers := by
    have h1 := hok.1
    have h2 := hok.2
    rw [u32, Nat.mod_eq_of_lt (by omega)]
  refine ⟨?_, ?_, fun hl => select_mark_local env pkt _ hl, ?_⟩
  · intro h0
    have hz : u32 (env.num_peers + env.num_pollers) = 0 := by rw [hsum]; exact h0
    unfold hook_external_command
    rw [if_neg (fun h => h ht), hc]
    simp only [if_pos hz]
  · intro h0
    have hnz : ¬ u32 (env.num_peers + env.num_pollers) = 0 := by rw [hsum]; exact h0
    unfold hook_external_command
    rw [if_neg (fun h => h ht), hc]
    simp only [if_neg hnz]
    rfl
  · obtain ⟨sel, c, hr⟩ := hook_external_command_dispatched env2 st pkt ds2 r hdisp hrun
    refine ⟨c, ?_⟩
    rw [hr]
    unfold external_command_send
    rw [select_mark_inbound env2 pkt sel sender hin]

/-- On the sample node without nodes an unlisted command is dropped; on the
sample node it is sent to the daemon, the peer and the poller with selection
PEERS_POLLERS; while the node handles an event of its poller, a host command
is sent with code NONET and the selection it came with. -/
theorem unknown_and_inbound_commands_witness :
    hook_external_command lonely_env State.init (sample_pkt 17)
      (sample_command .CMD_UNLISTED "x") = some (0, State.init) ∧
    sent_packets (trace_since State.init
      (run_hook sample_env State.init NEBCALLBACK_EXTERNAL_COMMAND_DATA
        (some (.external_command (sample_command .CMD_UNLISTED "x"))) 1000).2)
      = [sample_sent 17 0 0xfffc, sample_sent 17 0 0xfffc, sample_sent 17 0 0xfffc] ∧
    (∃ c, (hook_external_command inbound_env State.init (sample_pkt 17)
        (sample_command .CMD_SCHEDULE_HOST_CHECK "web01;1000")).getD (0, State.init) =
      (c, (send_generic inbound_env State.init (sample_pkt_with 17 0xffff 0xffff)
        (.external_command (sample_command .CMD_SCHEDULE_HOST_CHECK "web01;1000"))).2.2)) :=
  ⟨(unknown_and_inbound_commands lonely_env inbound_env State.init (sample_pkt 17)
      (sample_command .CMD_UNLISTED "x") (sample_command .CMD_SCHEDULE_HOST_CHECK "web01;1000")
      ((hook_external_command inbound_env State.init (sample_pkt 17)
        (sample_command .CMD_SCHEDULE_HOST_CHECK "web01;1000")).getD (0, State.init))
      sample_poller ⟨by decide, by decide⟩ rfl rfl rfl
      ⟨rfl, by decide, by decide, by decide⟩ rfl).1 rfl,
   by decide,
   (unknown_and_inbound_commands lonely_env inbound_env State.init (sample_pkt 17)
      (sample_command .CMD_UNLISTED "x") (sample_command .CMD_SCHEDULE_HOST_CHECK "web01;1000")
      ((hook_external_command inbound_env State.init (sample_pkt 17)
        (sample_command .CMD_SCHEDULE_HOST_CHECK "web01;1000")).getD (0, State.init))
      sample_poller ⟨by decide, by decide⟩ rfl rfl rfl
      ⟨rfl, by decide, by decide, by decide⟩ rfl).2.2.2⟩

/-! ## Downtime and comment events -/

/-- C19, at the failing input. On the sample node a local downtime event whose
attribute is not STOP_CANCELLED (a normal stop) is marked NONET, keeps the
broadcast selection, and is handed to `net_sendto` for the master, the peer and
the poller, just as the cancelled stop is for the master and the peer; an
inbound downtime event is dropped. -/
theorem downtime_nonet_reaches_network :
    (downtime_pkt sample_env (sample_pkt 9) (sample_downtime 1)).hdr.code
      = sample_env.MAGIC_NONET ∧
    net_sends (trace_since State.init
        (hook_downtime sample_env State.init (sample_pkt 9) (sample_downtime 1)).2)
      = [(sample_master, sample_sent 9 0xffff 0xffff), (sample_peer, sample_sent 9 0xffff 0xffff),
         (sample_poller, sample_sent 9 0xffff 0xffff)] ∧
    net_sends (trace_since State.init
        (hook_downtime sample_env State.init (sample_pkt 9)
          (sample_downtime NEBATTR_DOWNTIME_STOP_CANCELLED)).2)
      = [(sample_master, sample_sent 9 0 0xfff6), (sample_peer, sample_sent 9 0 0xfff6)] ∧
    hook_downtime inbound_env State.init (sample_pkt 9) (sample_downtime 1) = (0, State.init) :=
  ⟨by decide, by decide, by decide, rfl⟩

/-- C20. A comment event whose sub-kind is one of ADD, DELETE and LOAD: a
defined run of the hook either returns 0 and leaves the whole state, trace
included, as it was, or it is one run of `send_generic` on a comment packet,
and then the sub-kind is LOAD or DELETE and no sender is set. For sub-kind ADD
and for every inbound comment the run is of the first sort. -/
theorem comment_forwarding (env : Env) (st : State) (pkt : merlin_event)
    (ds : nebstruct_comment_data)
    (hwf : ds.type = NEBTYPE_COMMENT_ADD ∨ ds.type = NEBTYPE_COMMENT_DELETE ∨
      ds.type = NEBTYPE_COMMENT_LOAD) :
    (∀ r, hook_comment env st pkt ds = some r →
      r = (0, st) ∨
      ((ds.type = NEBTYPE_COMMENT_LOAD ∨ ds.type = NEBTYPE_COMMENT_DELETE) ∧
        env.merlin_sender = none ∧
        ∃ p, r = drop_pkt (send_generic env st p (.comment ds)))) ∧
    (ds.type = NEBTYPE_COMMENT_ADD → hook_comment env st pkt ds = some (0, st)) ∧
    (env.merlin_sender ≠ none → hook_comment env st pkt ds = some (0, st)) := by
  refine ⟨?_, ?_, ?_⟩
  · intro r hr
    unfold hook_comment at hr
    by_cases hadd : ds.type = NEBTYPE_COMMENT_ADD
    · rw [if_pos hadd] at hr
      cases hr
      exact Or.inl rfl
    · rw [if_neg hadd] at hr
      cases hs : env.merlin_sender with
      | some sender =>
        rw [if_pos (by rw [hs]; rfl)] at hr
        cases hr
        exact Or.inl rfl
      | none =>
        rw [if_neg (by rw [hs]; decide)] at hr
        have hkind : ds.type = NEBTYPE_COMMENT_LOAD ∨ ds.type = NEBTYPE_COMMENT_DELETE := by
          rcases hwf with h | h | h
          · exact absurd h hadd
          · exact Or.inr h
          · exact Or.inl h
        right
        refine ⟨hkind, rfl, ?_⟩
        split at hr
        · cases hr
        · cases hr
          exact ⟨_, rfl⟩
        · cases hr
          exact ⟨_, rfl⟩
  · intro hadd
    unfold hook_comment
    rw [if_pos hadd]
  · intro hin
    unfold hook_comment
    have hsome : env.merlin_sender.isSome = true := by
      cases hs : env.merlin_sender with
      | none => exact absurd hs hin
      | some _ => rfl
    rw [if_pos hsome]
    split_ifs <;> rfl

/-- On the sample node a comment ADD event and an inbound comment LOAD event
are dropped, and a local comment LOAD event is sent on. -/
theorem comment_forwarding_witness :
    hook_comment sample_env State.init (sample_pkt 8) (sample_comment NEBTYPE_COMMENT_ADD)
      = some (0, State.init) ∧
    hook_comment inbound_env State.init (sample_pkt 8) (sample_comment NEBTYPE_COMMENT_LOAD)
      = some (0, State.init) ∧
    sent_packets (trace_since State.init
      (run_hook sample_env State.init NEBCALLBACK_COMMENT_DATA
        (some (.comment (sample_comment NEBTYPE_COMMENT_LOAD))) 1000).2)
      = [sample_sent 8 0 0xfff6, sample_sent 8 0 0xfff6, sample_sent 8 0 0xfff6] :=
  ⟨(comment_forwarding sample_env State.init (sample_pkt 8) (sample_comment NEBTYPE_COMMENT_ADD)
      (Or.inl rfl)).2.1 rfl,
   (comment_forwarding inbound_env State.init (sample_pkt 8) (sample_comment NEBTYPE_COMMENT_LOAD)
      (Or.inr (Or.inr rfl))).2.2 (by decide),
   by decide⟩

/-- C21, at the failing input. On the sample node a local comment LOAD event
whose entry type is DOWNTIME_COMMENT, and one whose entry type is
ACKNOWLEDGEMENT_COMMENT, is marked NONET, gets the selection of its host name
(here PEERS_MASTERS), goes to the local daemon once, and is handed to
`net_sendto` for the master and for the peer. -/
theorem downtime_comment_reaches_network :
    (comment_pkt sample_env (sample_pkt 8)
      (sample_entry_comment NEBTYPE_COMMENT_LOAD DOWNTIME_COMMENT)).hdr.code
      = sample_env.MAGIC_NONET ∧
    ipc_sends (trace_since State.init
        (run_hook sample_env State.init NEBCALLBACK_COMMENT_DATA
          (some (.comment (sample_entry_comment NEBTYPE_COMMENT_LOAD DOWNTIME_COMMENT))) 1000).2)
      = [sample_sent 8 0xffff 0xfff6] ∧
    net_sends (trace_since State.init
        (run_hook sample_env State.init NEBCALLBACK_COMMENT_DATA
          (some (.comment (sample_entry_comment NEBTYPE_COMMENT_LOAD DOWNTIME_COMMENT))) 1000).2)
      = [(sample_master, sample_sent 8 0xffff 0xfff6), (sample_peer, sample_sent 8 0xffff 0xfff6)] ∧
    net_sends (trace_since State.init
        (run_hook sample_env State.init NEBCALLBACK_COMMENT_DATA
          (some (.comment (sample_entry_comment NEBTYPE_COMMENT_LOAD ACKNOWLEDGEMENT_COMMENT)))
          1000).2)
      = [(sample_master, sample_sent 8 0xffff 0xfff6), (sample_peer, sample_sent 8 0xffff 0xfff6)] := by
  decide

/-! ## The block comment -/

theorem comment_pkt_unmarked (env : Env) (pkt : merlin_event) (ds : nebstruct_comment_data)
    (h : ¬entry_marked ds) : comment_pkt env pkt ds = pkt := by
  exact if_neg h

theorem comment_pkt_marked (env : Env) (pkt : merlin_event) (ds : nebstruct_comment_data)
    (h : entry_marked ds) :
    comment_pkt env pkt ds = { pkt with hdr := { pkt.hdr with code := env.MAGIC_NONET } } := by
  exact if_pos h

/-- The block-comment test on a packet that is not yet marked, for an event
that equals the block comment on all identifying fields. -/
theorem block_comment_test_match (env : Env) (st : State) (pkt : merlin_event)
    (bc ds : nebstruct_comment_data) (hb : st.block_comment = some bc)
    (hm : comment_matches bc ds) (hc : pkt.hdr.code ≠ env.MAGIC_NONET) :
    block_comment_test env st pkt ds = some true := by
  obtain ⟨h1, h2, h3, h4, h5, h6, h7, h8⟩ := hm
  unfold block_comment_test
  rw [hb]
  have hf : block_comment_fields_match env pkt bc ds = true := by
    unfold block_comment_fields_match
    exact decide_eq_true ⟨hc, h1, h2, h3, h4, h5, h6, h7⟩
  simp only [hf, if_true]
  rw [h8]
  cases ds.service_description <;> simp [service_description_match]

/-- The block-comment test on a packet that is already marked NONET. -/
theorem block_comment_test_marked (env : Env) (st : State) (pkt : merlin_event)
    (ds : nebstruct_comment_data) (hc : pkt.hdr.code = env.MAGIC_NONET) :
    block_comment_test env st pkt ds = some false := by
  unfold block_comment_test
  cases hb : st.block_comment with
  | none => rfl
  | some bc =>
    have hf : block_comment_fields_match env pkt bc ds = false := by
      unfold block_comment_fields_match
      exact decide_eq_false (fun h => h.1 hc)
    simp only [hf]
    rfl

theorem block_comment_test_unset (env : Env) (st : State) (pkt : merlin_event)
    (ds : nebstruct_comment_data) (hb : st.block_comment = none) :
    block_comment_test env st pkt ds = some false := by
  unfold block_comment_test
  rw [hb]

/-- The run of `hook_comment` for a local event that is not an ADD, given the
outcome of the block-comment test. -/
theorem hook_comment_local (env : Env) (st : State) (pkt : merlin_event)
    (ds : nebstruct_comment_data) (b : Bool)
    (hl : env.merlin_sender = none) (ha : ds.type ≠ NEBTYPE_COMMENT_ADD)
    (ht : block_comment_test env st (comment_pkt env pkt ds) ds = some b) :
    hook_comment env st pkt ds = some (drop_pkt (send_generic env st
      (if b = true then
        { (comment_pkt env pkt ds) with
          hdr := { (comment_pkt env pkt ds).hdr with code := env.MAGIC_NONET } }
       else
        { (comment_pkt env pkt ds) with
          hdr := { (comment_pkt env pkt ds).hdr with
                   selection := get_selection env ds.host_name } })
      (.comment ds))) := by
  unfold hook_comment
  rw [if_neg ha, if_neg (by rw [hl]; decide), ht]
  cases b <;> rfl

/-- C22, as amended. While a block comment is set, a local comment event that is
not an ADD and equals the block comment on all identifying fields, in a packet
that does not carry the NONET code yet: if the event is not a downtime or
acknowledgement comment being added or loaded, the hook sends the packet with
code MAGIC_NONET and the selection it came with; if it is one, the packet has
been marked NONET by the entry-type test, the block comment is not looked at,
and the selection is overwritten with the one of the host name. -/
theorem comment_echo_suppression (env : Env) (st0 : State) (pkt : merlin_event)
    (bc ds : nebstruct_comment_data)
    (hl : env.merlin_sender = none) (ha : ds.type ≠ NEBTYPE_COMMENT_ADD)
    (hm : comment_matches bc ds) (hc : pkt.hdr.code ≠ env.MAGIC_NONET) :
    (¬entry_marked ds →
      hook_comment env (merlin_set_block_comment st0 (some bc)) pkt ds =
        some (drop_pkt (send_generic env (merlin_set_block_comment st0 (some bc))
          { pkt with hdr := { pkt.hdr with code := env.MAGIC_NONET } } (.comment ds)))) ∧
    (entry_marked ds →
      hook_comment env (merlin_set_block_comment st0 (some bc)) pkt ds =
        some (drop_pkt (send_generic env (merlin_set_block_comment st0 (some bc))
          { pkt with hdr := { pkt.hdr with code := env.MAGIC_NONET,
                                           selection := get_selection env ds.host_name } }
          (.comment ds)))) := by
  refine ⟨fun hn => ?_, fun he => ?_⟩
  · have ht := block_comment_test_match env (merlin_set_block_comment st0 (some bc))
      (comment_pkt env pkt ds) bc ds rfl hm (by rw [comment_pkt_unmarked env pkt ds hn]; exact hc)
    rw [hook_comment_local env _ pkt ds true hl ha ht, comment_pkt_unmarked env pkt ds hn]
    rfl
  · have ht := block_comment_test_marked env (merlin_set_block_comment st0 (some bc))
      (comment_pkt env pkt ds) ds (by rw [comment_pkt_marked env pkt ds he])
    rw [hook_comment_local env _ pkt ds false hl ha ht, comment_pkt_marked env pkt ds he]
    rfl

/-- On the sample node, with the sample user comment as block comment, the
matching LOAD event is sent with code NONET and the broadcast selection the
packet came with. -/
theorem comment_echo_suppression_witness :
    hook_comment sample_env blocked_state (sample_pkt 8) (sample_comment NEBTYPE_COMMENT_LOAD) =
      some (drop_pkt (send_generic sample_env blocked_state (sample_pkt_with 8 0xffff 0xffff)
        (.comment (sample_comment NEBTYPE_COMMENT_LOAD)))) ∧
    sent_packets (trace_since blocked_state
      (run_hook sample_env blocked_state NEBCALLBACK_COMMENT_DATA
        (some (.comment (sample_comment NEBTYPE_COMMENT_LOAD))) 1000).2)
      = [sample_sent 8 0xffff 0xffff, sample_sent 8 0xffff 0xffff, sample_sent 8 0xffff 0xffff,
         sample_sent 8 0xffff 0xffff] :=
  ⟨(comment_echo_suppression sample_env State.init (sample_pkt 8)
      (sample_comment NEBTYPE_COMMENT_LOAD) (sample_comment NEBTYPE_COMMENT_LOAD) rfl
      (by decide) ⟨rfl, rfl, rfl, rfl, rfl, rfl, rfl, rfl⟩ (by decide)).1
      (fun h => by rcases h with ⟨h, _⟩ | ⟨h, _⟩ <;> exact absurd h (by decide)),
   by decide⟩

/-- C22, counterexample. On the sample node, with a downtime comment as block
comment, the LOAD event of that very comment is sent with the selection of its
host name (PEERS_MASTERS, 0xfff6), not with the selection the packet came with
(DEST_BROADCAST, 0xffff). -/
theorem matching_downtime_comment_reselected :
    (sample_pkt 8).hdr.selection = 0xffff ∧
    get_selection sample_env "web01" = 0xfff6 ∧
    sent_packets (trace_since
      (merlin_set_block_comment State.init
        (some (sample_entry_comment NEBTYPE_COMMENT_LOAD DOWNTIME_COMMENT)))
      (run_hook sample_env
        (merlin_set_block_comment State.init
          (some (sample_entry_comment NEBTYPE_COMMENT_LOAD DOWNTIME_COMMENT)))
        NEBCALLBACK_COMMENT_DATA
        (some (.comment (sample_entry_comment NEBTYPE_COMMENT_LOAD DOWNTIME_COMMENT))) 1000).2)
      = [sample_sent 8 0xffff 0xfff6, sample_sent 8 0xffff 0xfff6, sample_sent 8 0xffff 0xfff6] := by
  decide

theorem send_generic_block_comment (env : Env) (st : State) (pkt : merlin_event)
    (data : event_body) :
    (send_generic env st pkt data).2.2.block_comment = st.block_comment := by
  obtain ⟨lp, d, db, tr, h⟩ := send_generic_frame env st pkt data
  rw [h]

/-- No run of `hook_comment` writes the block comment. -/
theorem hook_comment_block_comment (env : Env) (st : State) (pkt : merlin_event)
    (ds : nebstruct_comment_data) (r : Int × State) (h : hook_comment env st pkt ds = some r) :
    r.2.block_comment = st.block_comment := by
  unfold hook_comment at h
  split_ifs at h
  · cases h; rfl
  · cases h; rfl
  · split at h
    · cases h
    · cases h; exact send_generic_block_comment _ _ _ _
    · cases h; exact send_generic_block_comment _ _ _ _

theorem block_comment_test_congr (env : Env) (s1 s2 : State) (pkt : merlin_event)
    (ds : nebstruct_comment_data) (h : s1.block_comment = s2.block_comment) :
    block_comment_test env s1 pkt ds = block_comment_test env s2 pkt ds := by
  unfold block_comment_test
  rw [h]

/-- A defined run of `hook_comment` for a local event that is not an ADD has a
defined block-comment test. -/
theorem hook_comment_test_defined (env : Env) (st : State) (pkt : merlin_event)
    (ds : nebstruct_comment_data) (r : Int × State)
    (hl : env.merlin_sender = none) (ha : ds.type ≠ NEBTYPE_COMMENT_ADD)
    (hrun : hook_comment env st pkt ds = some r) :
    ∃ b, block_comment_test env st (comment_pkt env pkt ds) ds = some b := by
  cases ht : block_comment_test env st (comment_pkt env pkt ds) ds with
  | some b => exact ⟨b, rfl⟩
  | none =>
    unfold hook_comment at hrun
    rw [if_neg ha, if_neg (by rw [hl]; decide), ht] at hrun
    cases hrun

/-- C23, as amended. The block comment is not used up by the comment it
suppresses. For a defined run of `hook_comment` on a local comment event that
is not an ADD: the run does not change the block comment; the packet it hands
to `send_generic` is the packet a second run on the same event hands to
`send_generic`, so the event is handled the second time as the first. In
particular, while a block comment is set that the event equals on all
identifying fields, and the packet does not carry the NONET code yet: an event
that is not a downtime or acknowledgement comment being added or loaded is
sent with code MAGIC_NONET and the selection it came with, both times; one
that is such a comment is sent with code MAGIC_NONET and the selection of its
host name, both times. Once `merlin_set_block_comment` has been called again
and has handed over NULL, the event gets the selection of its host name and
keeps the code the entry-type test has left, so it is not marked by the block
comment. -/
theorem block_comment_persists (env : Env) (st : State) (pkt : merlin_event)
    (ds : nebstruct_comment_data) (r : Int × State)
    (hl : env.merlin_sender = none) (ha : ds.type ≠ NEBTYPE_COMMENT_ADD)
    (hrun : hook_comment env st pkt ds = some r) :
    r.2.block_comment = st.block_comment ∧
    (∃ p, r = drop_pkt (send_generic env st p (.comment ds)) ∧
      hook_comment env r.2 pkt ds = some (drop_pkt (send_generic env r.2 p (.comment ds)))) ∧
    (∀ bc, st.block_comment = some bc → comment_matches bc ds →
      pkt.hdr.code ≠ env.MAGIC_NONET →
      (¬entry_marked ds →
        r = drop_pkt (send_generic env st
          { pkt with hdr := { pkt.hdr with code := env.MAGIC_NONET } } (.comment ds)) ∧
        hook_comment env r.2 pkt ds =
          some (drop_pkt (send_generic env r.2
            { pkt with hdr := { pkt.hdr with code := env.MAGIC_NONET } } (.comment ds)))) ∧
      (entry_marked ds →
        r = drop_pkt (send_generic env st
          { pkt with hdr := { pkt.hdr with code := env.MAGIC_NONET,
                                           selection := get_selection env ds.host_name } }
          (.comment ds)) ∧
        hook_comment env r.2 pkt ds =
          some (drop_pkt (send_generic env r.2
            { pkt with hdr := { pkt.hdr with code := env.MAGIC_NONET,
                                             selection := get_selection env ds.host_name } }
            (.comment ds))))) ∧
    hook_comment env (merlin_set_block_comment r.2 none) pkt ds =
      some (drop_pkt (send_generic env (merlin_set_block_comment r.2 none)
        { (comment_pkt env pkt ds) with
          hdr := { (comment_pkt env pkt ds).hdr with
                   selection := get_selection env ds.host_name } }
        (.comment ds))) := by
  have hb2 : r.2.block_comment = st.block_comment :=
    hook_comment_block_comment env st pkt ds r hrun
  obtain ⟨b, hb⟩ := hook_comment_test_defined env st pkt ds r hl ha hrun
  have hb' : block_comment_test env r.2 (comment_pkt env pkt ds) ds = some b := by
    rw [block_comment_test_congr env r.2 st _ ds hb2, hb]
  have hfirst := hook_comment_local env st pkt ds b hl ha hb
  have hsecond := hook_comment_local env r.2 pkt ds b hl ha hb'
  have hr := Option.some.inj (hrun.symm.trans hfirst)
  refine ⟨hb2, ⟨_, hr, hsecond⟩, ?_, ?_⟩
  · intro bc hbc hm hc
    refine ⟨fun hn => ?_, fun he => ?_⟩
    · have ht := block_comment_test_match env st (comment_pkt env pkt ds) bc ds hbc hm
        (by rw [comment_pkt_unmarked env pkt ds hn]; exact hc)
      have hbt : b = true := Option.some.inj (hb.symm.trans ht)
      subst hbt
      rw [comment_pkt_unmarked env pkt ds hn] at hr hsecond
      exact ⟨hr, hsecond⟩
    · have ht := block_comment_test_marked env st (comment_pkt env pkt ds) ds
        (by rw [comment_pkt_marked env pkt ds he])
      have hbf : b = false := Option.some.inj (hb.symm.trans ht)
      subst hbf
      rw [comment_pkt_marked env pkt ds he] at hr hsecond
      exact ⟨hr, hsecond⟩
  · have ht := block_comment_test_unset env (merlin_set_block_comment r.2 none)
      (comment_pkt env pkt ds) ds rfl
    rw [hook_comment_local env _ pkt ds false hl ha ht]
    rfl

/-- On the sample node, with the sample user comment as block comment: the
state after the first matching LOAD event still holds the block comment, the
second matching LOAD event is handed to `send_generic` with code NONET and the
broadcast selection as the first was, and after a reset to NULL the same event
goes out with code 0 and the selection of its host name. -/
theorem block_comment_persists_witness :
    ((hook_comment sample_env blocked_state (sample_pkt 8)
        (sample_comment NEBTYPE_COMMENT_LOAD)).getD (0, State.init)).2.block_comment
      = some (sample_comment NEBTYPE_COMMENT_LOAD) ∧
    hook_comment sample_env
        ((hook_comment sample_env blocked_state (sample_pkt 8)
          (sample_comment NEBTYPE_COMMENT_LOAD)).getD (0, State.init)).2
        (sample_pkt 8) (sample_comment NEBTYPE_COMMENT_LOAD) =
      some (drop_pkt (send_generic sample_env
        ((hook_comment sample_env blocked_state (sample_pkt 8)
          (sample_comment NEBTYPE_COMMENT_LOAD)).getD (0, State.init)).2
        (sample_pkt_with 8 0xffff 0xffff) (.comment (sample_comment NEBTYPE_COMMENT_LOAD)))) ∧
    sent_packets (trace_since (merlin_set_block_comment blocked_state none)
      (run_hook sample_env (merlin_set_block_comment blocked_state none) NEBCALLBACK_COMMENT_DATA
        (some (.comment (sample_comment NEBTYPE_COMMENT_LOAD))) 1000).2)
      = [sample_sent 8 0 0xfff6, sample_sent 8 0 0xfff6, sample_sent 8 0 0xfff6] := by
  have h := block_comment_persists sample_env blocked_state (sample_pkt 8)
    (sample_comment NEBTYPE_COMMENT_LOAD)
    ((hook_comment sample_env blocked_state (sample_pkt 8)
      (sample_comment NEBTYPE_COMMENT_LOAD)).getD (0, State.init))
    rfl (by decide) rfl
  exact ⟨h.1,
    ((h.2.2.1 (sample_comment NEBTYPE_COMMENT_LOAD) rfl ⟨rfl, rfl, rfl, rfl, rfl, rfl, rfl, rfl⟩
      (by decide)).1
      (fun h => by rcases h with ⟨h, _⟩ | ⟨h, _⟩ <;> exact absurd h (by decide))).2,
    by decide⟩

/-- C23, counterexample. On the sample node the block comment is set once; the
matching LOAD event arrives twice, at times 1000 and 1001. The second event,
too, is sent with code NONET (0xffff) and the broadcast selection (0xffff), not
with the selection of its host name (0xfff6), and the block comment is still
set afterwards. -/
theorem block_comment_not_one_shot :
    sent_packets (trace_since
      (run_hook sample_env blocked_state NEBCALLBACK_COMMENT_DATA
        (some (.comment (sample_comment NEBTYPE_COMMENT_LOAD))) 1000).2
      (run_hook sample_env
        (run_hook sample_env blocked_state NEBCALLBACK_COMMENT_DATA
          (some (.comment (sample_comment NEBTYPE_COMMENT_LOAD))) 1000).2
        NEBCALLBACK_COMMENT_DATA (some (.comment (sample_comment NEBTYPE_COMMENT_LOAD))) 1001).2)
      = [sample_sent 8 0xffff 0xffff, sample_sent 8 0xffff 0xffff, sample_sent 8 0xffff 0xffff,
         sample_sent 8 0xffff 0xffff] ∧
    (run_hook sample_env
        (run_hook sample_env blocked_state NEBCALLBACK_COMMENT_DATA
          (some (.comment (sample_comment NEBTYPE_COMMENT_LOAD))) 1000).2
        NEBCALLBACK_COMMENT_DATA (some (.comment (sample_comment NEBTYPE_COMMENT_LOAD)))
        1001).2.block_comment = some (sample_comment NEBTYPE_COMMENT_LOAD) ∧
    get_selection sample_env "web01" = 0xfff6 := by
  decide

/-! ## Default selections -/

/-- C24. For every key, `get_selection` returns the registered host-name
selection id masked to 16 bits when `node_selection_by_hostname` finds one and
PEERS_MASTERS otherwise; `get_hostgroup_selection` returns the registered
hostgroup selection id masked to 16 bits when `node_selection_by_name` finds
one and PEERS_POLLERS otherwise; with the two default constants being 16-bit
values, both results lie in [0, 0xFFFF]. -/
theorem default_selections (env : Env) (key : String)
    (hpm : env.DEST_PEERS_MASTERS ≤ 0xffff) (hpp : env.DEST_PEERS_POLLERS ≤ 0xffff) :
    (∀ id, env.node_selection_by_hostname key = some id →
      get_selection env key = id &&& 0xffff ∧ get_selection env key = id % 65536) ∧
    (env.node_selection_by_hostname key = none → get_selection env key = env.DEST_PEERS_MASTERS) ∧
    (∀ id, env.node_selection_by_name key = some id →
      get_hostgroup_selection env key = id &&& 0xffff ∧
      get_hostgroup_selection env key = id % 65536) ∧
    (env.node_selection_by_name key = none →
      get_hostgroup_selection env key = env.DEST_PEERS_POLLERS) ∧
    get_selection env key ≤ 0xffff ∧ get_hostgroup_selection env key ≤ 0xffff := by
  have hmask : ∀ id : Nat, id &&& 0xffff = id % 65536 := fun id =>
    Nat.and_pow_two_sub_one_eq_mod id 16
  refine ⟨?_, ?_, ?_, ?_, ?_, ?_⟩
  · intro id h
    unfold get_selection
    rw [h]
    exact ⟨rfl, hmask id⟩
  · intro h
    unfold get_selection
    rw [h]
  · intro id h
    unfold get_hostgroup_selection
    rw [h]
    exact ⟨rfl, hmask id⟩
  · intro h
    unfold get_hostgroup_selection
    rw [h]
  · unfold get_selection
    cases env.node_selection_by_hostname key with
    | none => exact hpm
    | some id => exact Nat.and_le_right
  · unfold get_hostgroup_selection
    cases env.node_selection_by_name key with
    | none => exact hpp
    | some id => exact Nat.and_le_right

/-- On the sample node with selections registered for host "web01" (id 0x12345)
and hostgroup "linux" (id 7): the host selection is 0x2345, an unknown host
gets PEERS_MASTERS, the hostgroup selection is 7 and an unknown hostgroup gets
PEERS_POLLERS. -/
theorem default_selections_witness :
    get_selection selection_env "web01" = 0x2345 ∧
    get_selection selection_env "db01" = 0xfff6 ∧
    get_hostgroup_selection selection_env "linux" = 7 ∧
    get_hostgroup_selection selection_env "bsd" = 0xfffc ∧
    get_selection selection_env "web01" ≤ 0xffff := by
  have h := default_selections selection_env "web01" (by decide) (by decide)
  exact ⟨by decide, by decide, by decide, by decide, h.2.2.2.2.1⟩

/-! ## Calls that are rejected -/

/-- A call with NULL data, or with a callback id below 0 or above
NEBCALLBACK_NUMITEMS, returns the result -1 and leaves the whole state, trace
included, as it was. -/
theorem merlin_mod_hook_rejects (env : Env) (st : State) (cb : Int) (data : Option event_body)
    (now : Int) (h : data = none ∨ cb < 0 ∨ cb > NEBCALLBACK_NUMITEMS) :
    merlin_mod_hook env st cb data now = some (neb_cb_result_create (-1), st) := by
  unfold merlin_mod_hook
  cases data with
  | none => rfl
  | some d =>
    rcases h with h | h
    · cases h
    · simp only []
      rw [if_pos h]

/-- C25, at the failing input. The callback id NEBCALLBACK_NUMITEMS (26) is
outside [0, NEBCALLBACK_NUMITEMS), yet a call with it and non-NULL data is not
rejected: on the sample node it returns a result with return code 0, sends the
heartbeat, sets the pulse time, and switches duplicate checking off. -/
theorem mod_hook_accepts_numitems :
    (merlin_mod_hook sample_env State.init NEBCALLBACK_NUMITEMS (some (.other 0)) 1000).map
      (fun r => r.1.return_code) = some 0 ∧
    trace_since State.init
      (run_hook sample_env State.init NEBCALLBACK_NUMITEMS (some (.other 0)) 1000).2
      = [effect.node_send_ctrl_active] ∧
    (run_hook sample_env State.init NEBCALLBACK_NUMITEMS (some (.other 0)) 1000).2.last_pulse
      = 1000 ∧
    (run_hook sample_env { State.init with check_dupes := true } NEBCALLBACK_NUMITEMS
      (some (.other 0)) 1000).2.check_dupes = false ∧
    (merlin_mod_hook sample_env State.init (NEBCALLBACK_NUMITEMS + 1) (some (.other 0)) 1000).map
      (fun r => r.1.return_code) = some (-1) := by
  decide

/-! ## Commands that are not forwarded -/

/-- C30, as amended. An external command event whose sub-kind is not START, and
a START event for one of the comment commands (add or delete, host or service)
or one of the two delete-downtime commands, makes the hook return NEB_OK without
a call of `send_generic`: the state, trace included, is as before. A START
event for CMD_SCHEDULE_HOST_DOWNTIME or CMD_SCHEDULE_SVC_DOWNTIME is not
dropped: it is handed to `send_generic`, for a local command with the selection
of the host name in its arguments, and the hook returns NEB_OK. -/
theorem dropped_commands (env : Env) (st : State) (pkt : merlin_event)
    (ds : nebstruct_external_command_data) :
    (ds.type ≠ NEBTYPE_EXTERNALCOMMAND_START →
      hook_external_command env st pkt ds = some (NEB_OK, st)) ∧
    (ds.command_type = .CMD_ADD_HOST_COMMENT ∨ ds.command_type = .CMD_ADD_SVC_COMMENT ∨
      ds.command_type = .CMD_DEL_HOST_COMMENT ∨ ds.command_type = .CMD_DEL_SVC_COMMENT ∨
      ds.command_type = .CMD_DEL_HOST_DOWNTIME ∨ ds.command_type = .CMD_DEL_SVC_DOWNTIME →
      hook_external_command env st pkt ds = some (NEB_OK, st)) ∧
    (ds.type = NEBTYPE_EXTERNALCOMMAND_START →
      ds.command_type = .CMD_SCHEDULE_HOST_DOWNTIME ∨
        ds.command_type = .CMD_SCHEDULE_SVC_DOWNTIME →
      hook_external_command env st pkt ds =
        some (NEB_OK, (send_generic env st
          (mark_if_inbound env
            (select_if_local env pkt (get_cmd_selection env ds.command_args false)))
          (.external_command ds)).2.2)) := by
  refine ⟨?_, ?_, ?_⟩
  · intro h
    unfold hook_external_command
    rw [if_pos h]
  · intro h
    unfold hook_external_command
    by_cases ht : ds.type ≠ NEBTYPE_EXTERNALCOMMAND_START
    · rw [if_pos ht]
    · rw [if_neg ht]
      rcases h with h | h | h | h | h | h <;> rw [h] <;> rfl
  · intro ht h
    unfold hook_external_command
    rw [if_neg (fun h0 => h0 ht)]
    rcases h with h | h <;> rw [h] <;> rfl

/-- On the sample node a CMD_ADD_HOST_COMMENT command and an event of another
sub-kind leave the state alone, and a CMD_SCHEDULE_HOST_DOWNTIME command is
handed to `send_generic` with the selection of host "web01". -/
theorem dropped_commands_witness :
    hook_external_command sample_env State.init (sample_pkt 17)
      (sample_command .CMD_ADD_HOST_COMMENT "web01;1;admin;checked") = some (NEB_OK, State.init) ∧
    hook_external_command sample_env State.init (sample_pkt 17)
      { type := 1401, command_type := .CMD_SCHEDULE_HOST_CHECK, command_args := some "web01;1000" }
      = some (NEB_OK, State.init) ∧
    hook_external_command sample_env State.init (sample_pkt 17)
      (sample_command .CMD_SCHEDULE_HOST_DOWNTIME "web01;1000;2000;1;0;0;admin;patching") =
      some (NEB_OK, (send_generic sample_env State.init (sample_pkt_with 17 0 0xfff6)
        (.external_command
          (sample_command .CMD_SCHEDULE_HOST_DOWNTIME "web01;1000;2000;1;0;0;admin;patching"))).2.2) :=
  ⟨(dropped_commands sample_env State.init (sample_pkt 17)
      (sample_command .CMD_ADD_HOST_COMMENT "web01;1;admin;checked")).2.1 (Or.inl rfl),
   (dropped_commands sample_env State.init (sample_pkt 17)
      { type := 1401, command_type := .CMD_SCHEDULE_HOST_CHECK,
        command_args := some "web01;1000" }).1 (by decide),
   (dropped_commands sample_env State.init (sample_pkt 17)
      (sample_command .CMD_SCHEDULE_HOST_DOWNTIME
        "web01;1000;2000;1;0;0;admin;patching")).2.2 rfl (Or.inl rfl)⟩

/-- C30, counterexample. On the sample node a START event for
CMD_SCHEDULE_HOST_DOWNTIME is sent to the local daemon, the master and the
peer, and one for CMD_SCHEDULE_SVC_DOWNTIME likewise. -/
theorem schedule_downtime_command_forwarded :
    sent_packets (trace_since State.init
      (run_hook sample_env State.init NEBCALLBACK_EXTERNAL_COMMAND_DATA
        (some (.external_command (sample_command .CMD_SCHEDULE_HOST_DOWNTIME
          "web01;1000;2000;1;0;0;admin;patching"))) 1000).2)
      = [sample_sent 17 0 0xfff6, sample_sent 17 0 0xfff6, sample_sent 17 0 0xfff6] ∧
    net_sends (trace_since State.init
      (run_hook sample_env State.init NEBCALLBACK_EXTERNAL_COMMAND_DATA
        (some (.external_command (sample_command .CMD_SCHEDULE_SVC_DOWNTIME
          "web01;http;1000;2000;1;0;0;admin;patching"))) 1000).2)
      = [(sample_master, sample_sent 17 0 0xfff6), (sample_peer, sample_sent 17 0 0xfff6)] := by
  decide

/-! ## The rows that are registered -/

/-- The tests of one iteration of the registration loop are those of the spec. -/
theorem hooks_init_row_spec (env : Env) (mask : Nat) (cb : callback_struct) :
    hooks_init_row env mask cb =
      if row_registered_spec env mask cb = true then [.neb_register_callback cb.type] else [] := by
  unfold hooks_init_row row_registered_spec
  by_cases h1 : cb.dest = DEST_DB ∧ env.use_database = false
  · rw [if_pos h1]
    simp [h1.1, h1.2]
  · rw [if_neg h1]
    by_cases h2 : cb.dest = DEST_NETWORK ∧ env.num_nodes = 0
    · rw [if_pos h2]
      simp [h2.1, h2.2]
    · rw [if_neg h2]
      have e1 : (!(decide (cb.dest = DEST_DB) && !env.use_database)) = true := by
        cases hdb : env.use_database
        · have : cb.dest ≠ DEST_DB := fun h => h1 ⟨h, hdb⟩
          simp [this]
        · simp
      have e2 : (!(decide (cb.dest = DEST_NETWORK) && decide (env.num_nodes = 0))) = true := by
        by_cases hn : env.num_nodes = 0
        · have : cb.dest ≠ DEST_NETWORK := fun h => h2 ⟨h, hn⟩
          simp [this]
        · simp [hn]
      rw [e1, e2]
      by_cases h3 : mask &&& (1 <<< cb.type) = 0
      · rw [if_pos h3]
        simp [h3]
      · rw [if_neg h3]
        simp [h3]

theorem flatMap_hooks_init_row (env : Env) (mask : Nat) (l : List callback_struct) :
    l.flatMap (hooks_init_row env mask) =
      (l.filter (row_registered_spec env mask)).map
        (fun cb => effect.neb_register_callback cb.type) := by
  induction l with
  | nil => rfl
  | cons cb rest ih =>
    rw [List.flatMap_cons, ih, hooks_init_row_spec]
    by_cases h : row_registered_spec env mask cb = true
    · rw [if_pos h, List.filter_cons_of_pos h]
      rfl
    · rw [if_neg h, List.filter_cons_of_neg h]
      rfl

/-- C26, as amended. For every 32-bit mask: when a database is in use or at
least one node is configured, the calls `merlin_hooks_init` makes are exactly
the `neb_register_callback` calls for the rows of `callback_table`, in table
order, whose destination is not database without a database, whose destination
is not network without nodes, and whose bit is set in the mask. When neither a
database nor a node is configured, it makes no call at all: no row is
registered, whatever its destination and its bit. -/
theorem hooks_init_registers (env : Env) (st : State) (mask : Nat)
    (hmask : mask < 4294967296) :
    (¬(env.use_database = false ∧ env.num_nodes = 0) →
      trace_since st (merlin_hooks_init env st mask).2 =
        (callback_table.filter (row_registered_spec env mask)).map
          (fun cb => effect.neb_register_callback cb.type)) ∧
    (env.use_database = false ∧ env.num_nodes = 0 →
      trace_since st (merlin_hooks_init env st mask).2 = []) := by
  have hu : u32 mask = mask := Nat.mod_eq_of_lt hmask
  refine ⟨fun h => ?_, fun h => ?_⟩
  · unfold merlin_hooks_init
    rw [hu]
    simp only [if_neg h]
    rw [trace_since_append _ _ _ rfl]
    exact flatMap_hooks_init_row env mask callback_table
  · unfold merlin_hooks_init
    simp only [if_pos h]
    exact trace_since_append _ _ [] (List.append_nil _).symm

/-- On the sample node (three nodes, no database) the mask with the bits of
process data, notifications and comments registers these three kinds; on the
sample node without nodes the same mask registers nothing. -/
theorem hooks_init_registers_witness :
    registered_kinds (trace_since State.init (merlin_hooks_init sample_env State.init 0x121).2)
      = [NEBCALLBACK_PROCESS_DATA, NEBCALLBACK_NOTIFICATION_DATA, NEBCALLBACK_COMMENT_DATA] ∧
    trace_since State.init (merlin_hooks_init lonely_env State.init 0x121).2 = [] := by
  have h1 := (hooks_init_registers sample_env State.init 0x121 (by decide)).1 (by decide)
  have h2 := (hooks_init_registers lonely_env State.init 0x121 (by decide)).2 (by decide)
  exact ⟨by rw [h1]; decide, h2⟩

/-- C26, counterexample. On the sample node without nodes and without a
database, the first row of the table has destination 0 and kind
NEBCALLBACK_PROCESS_DATA, bit 0 is set in the full mask, and
`merlin_hooks_init` registers nothing. -/
theorem hooks_init_registers_nothing :
    lonely_env.use_database = false ∧ lonely_env.num_nodes = 0 ∧
    callback_table.head? = some { dest := 0, type := NEBCALLBACK_PROCESS_DATA } ∧
    0xffffffff &&& (1 <<< NEBCALLBACK_PROCESS_DATA) ≠ 0 ∧
    row_registered_spec lonely_env 0xffffffff { dest := 0, type := NEBCALLBACK_PROCESS_DATA }
      = true ∧
    trace_since State.init (merlin_hooks_init lonely_env State.init 0xffffffff).2 = [] := by
  decide

/-! ## The value `send_generic` returns -/

theorem bump_counter_other (st : State) (key key2 : Nat × Nat × Nat) (c : Option notify_counter)
    (h : key2 ≠ key) : (bump_counter st key c).notify_stats key2 = st.notify_stats key2 := by
  rcases c with _ | c
  · rfl
  · cases c <;> exact Function.update_noteq h _ _

theorem bump_counter_bucket (st : State) (key : Nat × Nat × Nat) :
    (bump_counter st key (some .sent)).notify_stats key =
      { (st.notify_stats key) with sent := u64 ((st.notify_stats key).sent + 1) } ∧
    (bump_counter st key (some .master)).notify_stats key =
      { (st.notify_stats key) with master := u64 ((st.notify_stats key).master + 1) } ∧
    (bump_counter st key (some .peer)).notify_stats key =
      { (st.notify_stats key) with peer := u64 ((st.notify_stats key).peer + 1) } ∧
    (bump_counter st key none).notify_stats key = st.notify_stats key :=
  ⟨Function.update_same _ _ _, Function.update_same _ _ _, Function.update_same _ _ _, rfl⟩

/-- The counters after a NOTIFICATION_START event, as the source writes them,
for a peer count that fits the unsigned arithmetic of `active_peers + 1`: the
state after `hook_notification` is the state before with the counter that
`counter_of_rule` names for the deciding rule incremented by one, as an
unsigned 64-bit value, in the bucket
merlin_notify_stats[min(reason_type, 8)][notification_type][check_type]; no
other bucket changes. On the `return` statements of rules 2, 3 and 9 the source
has no increment. -/
theorem notification_counters (env : Env) (st : State) (pkt : merlin_event)
    (ds : nebstruct_notification_data)
    (hstart : ds.type = NEBTYPE_NOTIFICATION_START)
    (hpeers : env.ipc_active_peers + 1 < 4294967296) :
    (hook_notification env st pkt ds).2 =
      bump_counter st (notify_bucket ds) (counter_of_rule (notification_rule_spec env ds)) ∧
    notify_bucket ds = (min ds.reason_type 8, ds.notification_type, ds.object_ptr.check_type) ∧
    (∀ key, key ≠ notify_bucket ds →
      (hook_notification env st pkt ds).2.notify_stats key = st.notify_stats key) := by
  have hu : u32 (env.ipc_active_peers + 1) = env.ipc_active_peers + 1 := Nat.mod_eq_of_lt hpeers
  have hne : ds.type ≠ NEBTYPE_NOTIFICATION_END := by
    rw [hstart]; decide
  have hnum : ∀ (c : Bool) (o : notify_outcome) (rest : List (Bool × notify_outcome)),
      first_matching_number ((c, o) :: rest) =
        if c = true then 1 else first_matching_number rest + 1 :=
    fun _ _ _ => rfl
  have key : (hook_notification env st pkt ds).2 =
      bump_counter st (notify_bucket ds) (counter_of_rule (notification_rule_spec env ds)) := by
    unfold hook_notification
    rw [if_neg hne, if_neg (by simp [hstart])]
    show (hook_notification_start env st ds).2 = _
    unfold hook_notification_start notification_rule_spec notification_rules_spec
    simp only [hnum]
    cases hs : env.merlin_sender with
    | some sender =>
      simp only [inbound_from, hs, Option.isNone_some, Bool.false_and, if_false, if_true,
        Bool.false_eq_true, decide_eq_true_eq, Bool.or_eq_true, should_run_locally_spec,
        notifying_node_spec]
      unfold hook_notification_start_inbound
      simp only [hu, should_run_check, decide_eq_true_eq]
      split_ifs <;> rfl
    | none =>
      simp only [inbound_from, hs, Option.isNone_none, Bool.true_and, if_false, if_true,
        Bool.false_eq_true, decide_eq_true_eq, Bool.or_eq_true, Bool.and_eq_true,
        should_run_locally_spec, notifying_node_spec]
      unfold hook_notification_start_local
      simp only [hu, should_run_check, decide_eq_true_eq]
      split_ifs <;> first | rfl | (exfalso; tauto)
  refine ⟨key, ?_, ?_⟩
  · unfold notify_bucket
    by_cases h : ds.reason_type > 8
    · rw [if_pos h, Nat.min_eq_right (Nat.le_of_lt h)]
    · rw [if_neg h, Nat.min_eq_left (Nat.le_of_not_lt h)]
  · intro k hk
    rw [key]
    exact bump_counter_other st _ k _ hk

/-- On the sample node a local problem notification for the service with id 7,
which the peer owns, is cancelled by rule 10 and counted once in `peer`. -/
theorem notification_counters_witness :
    notification_rule_spec sample_env
      (sample_notification NEBTYPE_NOTIFICATION_START NOTIFICATION_NORMAL) = 10 ∧
    (hook_notification sample_env State.init (sample_pkt 5)
      (sample_notification NEBTYPE_NOTIFICATION_START NOTIFICATION_NORMAL)).2.notify_stats
        (0, 1, 0) = { sent := 0, master := 0, peer := 1 } ∧
    (hook_notification sample_env State.init (sample_pkt 5)
      (sample_notification NEBTYPE_NOTIFICATION_START NOTIFICATION_NORMAL)).2.notify_stats
        (1, 1, 0) = { sent := 0, master := 0, peer := 0 } := by
  have h := notification_counters sample_env State.init (sample_pkt 5)
    (sample_notification NEBTYPE_NOTIFICATION_START NOTIFICATION_NORMAL) rfl (by decide)
  refine ⟨by decide, ?_, ?_⟩
  · rw [h.1]
    decide
  · rw [h.2.2 (1, 1, 0) (by decide)]
    rfl

/-- C28, at the failing input. On the sample node a local NOTIFICATION_START
for a service the node owns is allowed by rule 9 (return code 0) and leaves
every counter of its bucket at 0, `sent` included; the same notification with
reason ACKNOWLEDGEMENT is allowed by rule 8 and counted in `sent`. The two
inbound cancels of rule 2 (from a poller that notifies on its own) and rule 3
(from the peer that owns the service) leave every counter at 0 as well. -/
theorem notification_not_counted :
    (notification_rule_spec sample_env owned_notification = 9 ∧
      (hook_notification sample_env State.init (sample_pkt 5) owned_notification).1.map
        (fun r => r.return_code) = some 0 ∧
      (hook_notification sample_env State.init (sample_pkt 5) owned_notification).2.notify_stats
        (notify_bucket owned_notification) = { sent := 0, master := 0, peer := 0 }) ∧
    (notification_rule_spec sample_env
        { owned_notification with reason_type := NOTIFICATION_ACKNOWLEDGEMENT } = 8 ∧
      (hook_notification sample_env State.init (sample_pkt 5)
        { owned_notification with reason_type := NOTIFICATION_ACKNOWLEDGEMENT }).1.map
        (fun r => r.return_code) = some 0 ∧
      (hook_notification sample_env State.init (sample_pkt 5)
        { owned_notification with reason_type := NOTIFICATION_ACKNOWLEDGEMENT }).2.notify_stats
        (1, 1, 0) = { sent := 1, master := 0, peer := 0 }) ∧
    (notification_rule_spec notifying_poller_env
        (sample_notification NEBTYPE_NOTIFICATION_START NOTIFICATION_NORMAL) = 2 ∧
      (hook_notification notifying_poller_env State.init (sample_pkt 5)
        (sample_notification NEBTYPE_NOTIFICATION_START NOTIFICATION_NORMAL)).1.map
        (fun r => r.return_code) = some NEBERROR_CALLBACKCANCEL ∧
      (hook_notification notifying_poller_env State.init (sample_pkt 5)
        (sample_notification NEBTYPE_NOTIFICATION_START NOTIFICATION_NORMAL)).2.notify_stats
        (0, 1, 0) = { sent := 0, master := 0, peer := 0 }) ∧
    (notification_rule_spec peer_inbound_env
        (sample_notification NEBTYPE_NOTIFICATION_START NOTIFICATION_NORMAL) = 3 ∧
      (hook_notification peer_inbound_env State.init (sample_pkt 5)
        (sample_notification NEBTYPE_NOTIFICATION_START NOTIFICATION_NORMAL)).1.map
        (fun r => r.return_code) = some NEBERROR_CALLBACKCANCEL ∧
      (hook_notification peer_inbound_env State.init (sample_pkt 5)
        (sample_notification NEBTYPE_NOTIFICATION_START NOTIFICATION_NORMAL)).2.notify_stats
        (0, 1, 0) = { sent := 0, master := 0, peer := 0 }) := by
  decide

/-! ## Heartbeat and flood warning -/

theorem is_event_call_of_packet (e : effect) (p : merlin_event) (h : e.packet = some p) :
    e.is_event_call := by
  constructor <;> intro he <;> rw [he] at h <;> cases h

theorem clocks_kept_refl (st : State) : clocks_kept st st := ⟨rfl, rfl, extends_by_refl _ _⟩

theorem clocks_kept_trans (a b c : State) (h1 : clocks_kept a b) (h2 : clocks_kept b c) :
    clocks_kept a c :=
  ⟨h2.1.trans h1.1, h2.2.1.trans h1.2.1, extends_by_trans _ a b c h1.2.2 h2.2.2⟩

/-- A state that differs in fields other than the trace and the two time stamps. -/
theorem clocks_kept_of_eq (st st2 : State) (h1 : st2.last_pulse = st.last_pulse)
    (h2 : st2.last_flood_warning = st.last_flood_warning) (h3 : st2.trace = st.trace) :
    clocks_kept st st2 := ⟨h1, h2, extends_by_of_trace_eq _ _ _ h3⟩

theorem clocks_kept_emit (st st2 : State) (es : List effect)
    (h1 : st2.last_pulse = st.last_pulse)
    (h2 : st2.last_flood_warning = st.last_flood_warning) (h3 : st2.trace = st.trace ++ es)
    (h : ∀ e ∈ es, e.is_event_call) : clocks_kept st st2 := ⟨h1, h2, es, h3, h⟩

theorem send_generic_clocks (env : Env) (st : State) (pkt : merlin_event) (data : event_body) :
    clocks_kept st (send_generic env st pkt data).2.2 := by
  obtain ⟨new, hnew, hp⟩ := send_generic_extends env st pkt data
  refine ⟨?_, send_generic_last_flood_warning env st pkt data, new, hnew,
    fun e he => is_event_call_of_packet e _ (hp e he)⟩
  obtain ⟨lp, d, db, tr, h⟩ := send_generic_frame env st pkt data
  rw [h]

theorem note_host_clocks (st : State) (obj : Nat) : clocks_kept st (note_host st obj) := by
  unfold note_host
  split_ifs <;> exact clocks_kept_of_eq _ _ rfl rfl rfl

theorem note_service_clocks (st : State) (obj : Nat) : clocks_kept st (note_service st obj) := by
  unfold note_service
  split_ifs <;> exact clocks_kept_of_eq _ _ rfl rfl rfl

theorem send_host_status_clocks (env : Env) (st : State) (pkt : merlin_event)
    (nebattr : Int) (obj : host) (cr : Option check_result) :
    clocks_kept st (send_host_status env st pkt nebattr obj cr).2 := by
  unfold send_host_status
  split_ifs
  · exact clocks_kept_refl _
  · cases host_status_body pkt nebattr obj cr with
    | none => exact note_host_clocks _ _
    | some body =>
      exact clocks_kept_trans _ _ _ (note_host_clocks st obj.ptr) (send_generic_clocks _ _ _ _)

theorem send_service_status_clocks (env : Env) (st : State) (pkt : merlin_event)
    (nebattr : Int) (obj : service) (cr : Option check_result) :
    clocks_kept st (send_service_status env st pkt nebattr obj cr).2 := by
  unfold send_service_status
  cases service_status_body pkt nebattr obj cr with
  | none => exact note_service_clocks _ _
  | some body =>
    exact clocks_kept_trans _ _ _ (note_service_clocks st obj.ptr) (send_generic_clocks _ _ _ _)

theorem flush_notification_clocks (env : Env) (st : State) :
    clocks_kept st (flush_notification env st).2 := by
  unfold flush_notification
  cases h : st.tmp_notif_data with
  | none => exact clocks_kept_refl _
  | some d =>
    exact clocks_kept_trans _ _ _ (send_generic_clocks env st st.tmp_notif_pkt (.notification d))
      (clocks_kept_of_eq _ _ rfl rfl rfl)

theorem hook_host_result_clocks (env : Env) (st : State) (pkt : merlin_event)
    (ds : nebstruct_host_check_data) : clocks_kept st (hook_host_result env st pkt ds).2 := by
  unfold hook_host_result
  split_ifs
  · exact clocks_kept_emit _ _ _ rfl rfl rfl (by simp [effect.is_event_call])
  · exact clocks_kept_emit _ _ _ rfl rfl rfl (by simp [effect.is_event_call])
  · exact clocks_kept_emit _ _ _ rfl rfl rfl (by simp [effect.is_event_call])
  · refine clocks_kept_trans _ _ _ ?_ (flush_notification_clocks _ _)
    refine clocks_kept_trans _ _ _ ?_ (send_host_status_clocks _ _ _ _ _ _)
    exact clocks_kept_emit _ _ _ rfl rfl rfl (by simp [effect.is_event_call])
  · exact clocks_kept_refl _

theorem hook_service_result_clocks (env : Env) (st : State) (pkt : merlin_event)
    (ds : nebstruct_service_check_data) : clocks_kept st (hook_service_result env st pkt ds).2 := by
  unfold hook_service_result
  split_ifs
  · exact clocks_kept_emit _ _ _ rfl rfl rfl (by simp [effect.is_event_call])
  · exact clocks_kept_emit _ _ _ rfl rfl rfl (by simp [effect.is_event_call])
  · exact clocks_kept_emit _ _ _ rfl rfl rfl (by simp [effect.is_event_call])
  · refine clocks_kept_trans _ _ _ ?_ (flush_notification_clocks _ _)
    refine clocks_kept_trans _ _ _ ?_ (send_service_status_clocks _ _ _ _ _ _)
    exact clocks_kept_emit _ _ _ rfl rfl rfl (by simp [effect.is_event_call])
  · exact clocks_kept_refl _

theorem hook_comment_clocks (env : Env) (st : State) (pkt : merlin_event)
    (ds : nebstruct_comment_data) (r : Int × State) (h : hook_comment env st pkt ds = some r) :
    clocks_kept st r.2 := by
  unfold hook_comment at h
  split_ifs at h
  · cases h; exact clocks_kept_refl _
  · cases h; exact clocks_kept_refl _
  · split at h
    · cases h
    · cases h; exact send_generic_clocks _ _ _ _
    · cases h; exact send_generic_clocks _ _ _ _

theorem hook_external_command_clocks (env : Env) (st : State) (pkt : merlin_event)
    (ds : nebstruct_external_command_data) (r : Int × State)
    (h : hook_external_command env st pkt ds = some r) : clocks_kept st r.2 := by
  rcases hook_external_command_cases env st pkt ds r h with h1 | ⟨pkt2, c, h1⟩
  · rw [h1]; exact clocks_kept_refl _
  · rw [h1]; exact send_generic_clocks _ _ _ _

theorem hook_notification_start_clocks (env : Env) (st : State)
    (ds : nebstruct_notification_data) :
    clocks_kept st (hook_notification_start env st ds).2 := by
  unfold hook_notification_start
  split_ifs
  · exact clocks_kept_of_eq _ _ rfl rfl rfl
  · cases env.merlin_sender with
    | none =>
      simp only [hook_notification_start_local]
      split_ifs <;> exact clocks_kept_of_eq _ _ rfl rfl rfl
    | some sender =>
      simp only [hook_notification_start_inbound]
      split_ifs <;> exact clocks_kept_of_eq _ _ rfl rfl rfl

theorem hook_notification_clocks (env : Env) (st : State) (pkt : merlin_event)
    (ds : nebstruct_notification_data) : clocks_kept st (hook_notification env st pkt ds).2 := by
  unfold hook_notification
  split_ifs
  · unfold hook_notification_end
    split_ifs
    · exact send_generic_clocks _ _ _ _
    · show clocks_kept st (hold_notification_packet st _ _).2
      unfold hold_notification_packet
      cases st.tmp_notif_data with
      | none => exact clocks_kept_of_eq _ _ rfl rfl rfl
      | some d => exact clocks_kept_refl _
  · exact clocks_kept_refl _
  · exact hook_notification_start_clocks _ _ _

/-- The `switch` of the entry point leaves the two time stamps alone and makes
neither the heartbeat call nor the warning call. -/
theorem mod_hook_switch_clocks (env : Env) (st : State) (pkt : merlin_event) (cb : Int)
    (data : event_body) (r : Option neb_cb_result × Int × State)
    (h : mod_hook_switch env st pkt cb data = some r) : clocks_kept st r.2.2 := by
  unfold mod_hook_switch at h
  split_ifs at h
  · split at h
    · cases h; exact hook_notification_clocks env st pkt _
    · cases h
  · split at h
    · cases h
      unfold hook_contact_notification_method
      split_ifs
      · exact clocks_kept_refl _
      · exact send_generic_clocks _ _ _ _
    · cases h
  · split at h
    · cases h; exact hook_host_result_clocks _ _ _ _
    · cases h
  · split at h
    · cases h; exact hook_service_result_clocks _ _ _ _
    · cases h
  · split at h
    · rename_i ds
      cases hx : hook_comment env st pkt ds with
      | none => rw [hx] at h; cases h
      | some x => rw [hx] at h; cases h; exact hook_comment_clocks env st pkt ds x hx
    · cases h
  · split at h
    · cases h
      unfold hook_downtime
      split_ifs
      · exact clocks_kept_refl _
      · exact send_generic_clocks _ _ _ _
    · cases h
  · split at h
    · rename_i ds
      cases hx : hook_external_command env st pkt ds with
      | none => rw [hx] at h; cases h
      | some x => rw [hx] at h; cases h; exact hook_external_command_clocks env st pkt ds x hx
    · cases h
  · cases h; exact send_generic_clocks _ _ _ _
  · cases h; exact clocks_kept_refl _
  · cases h; exact clocks_kept_refl _

theorem mod_hook_enter_clocks (st : State) (now : Int) :
    (mod_hook_enter st now).last_pulse = now ∧
    (mod_hook_enter st now).last_flood_warning = st.last_flood_warning ∧
    (mod_hook_enter st now).trace = st.trace ++
      (if st.last_pulse = 0 ∨ now - st.last_pulse > 15 then [effect.node_send_ctrl_active]
       else []) := by
  unfold mod_hook_enter
  split_ifs
  · exact ⟨rfl, rfl, rfl⟩
  · exact ⟨rfl, rfl, (List.append_nil _).symm⟩

theorem mod_hook_leave_clocks (st : State) (result now : Int) :
    (mod_hook_leave st result now).last_pulse = st.last_pulse ∧
    (mod_hook_leave st result now).last_flood_warning =
      (if result < 0 ∧ now - st.last_flood_warning > 30 then now else st.last_flood_warning) ∧
    (mod_hook_leave st result now).trace = st.trace ++
      (if result < 0 ∧ now - st.last_flood_warning > 30 then [effect.lwarn_flooded] else []) := by
  unfold mod_hook_leave
  split_ifs
  · exact ⟨rfl, rfl, rfl⟩
  · exact ⟨rfl, rfl, (List.append_nil _).symm⟩

theorem mod_hook_neb_result_code (neb_result : Option neb_cb_result) (result : Int) :
    (mod_hook_neb_result neb_result result).return_code = mod_hook_result neb_result result := by
  cases neb_result <;> rfl

/-- One call of the entry point with non-NULL data, as far as heartbeat and
flood warning go. A rejected call changes nothing. An accepted call sets the
pulse time to the clock reading; it makes the heartbeat call exactly when the
pulse time was 0 or more than 15 seconds back; it makes the warning call
exactly when its result is negative and the last warning is more than 30
seconds back, and then sets the warning time to the clock reading. -/
theorem merlin_mod_hook_step (env : Env) (st : State) (cb : Int) (data : event_body) (now : Int)
    (r : neb_cb_result × State)
    (h : merlin_mod_hook env st cb (some data) now = some r) :
    ((cb < 0 ∨ cb > NEBCALLBACK_NUMITEMS) ∧ r.2 = st) ∨
    (¬(cb < 0 ∨ cb > NEBCALLBACK_NUMITEMS) ∧
      r.2.last_pulse = now ∧
      (effect.node_send_ctrl_active ∈ trace_since st r.2 ↔
        (st.last_pulse = 0 ∨ now - st.last_pulse > 15)) ∧
      (effect.lwarn_flooded ∈ trace_since st r.2 ↔
        (r.1.return_code < 0 ∧ now - st.last_flood_warning > 30)) ∧
      r.2.last_flood_warning =
        (if effect.lwarn_flooded ∈ trace_since st r.2 then now else st.last_flood_warning)) := by
  unfold merlin_mod_hook at h
  simp only [] at h
  by_cases hcb : cb < 0 ∨ cb > NEBCALLBACK_NUMITEMS
  · rw [if_pos hcb] at h
    cases h
    exact Or.inl ⟨hcb, rfl⟩
  · rw [if_neg hcb] at h
    right
    cases hsw : mod_hook_switch env (mod_hook_enter st now) (mod_hook_pkt env cb) cb data with
    | none => rw [hsw] at h; cases h
    | some sw =>
      rw [hsw] at h
      cases h
      obtain ⟨e1, e2, e3⟩ := mod_hook_enter_clocks st now
      obtain ⟨s1, s2, mid, s3, s4⟩ := mod_hook_switch_clocks env _ _ cb data sw hsw
      obtain ⟨l1, l2, l3⟩ := mod_hook_leave_clocks sw.2.2 (mod_hook_result sw.1 sw.2.1) now
      have hlfw : sw.2.2.last_flood_warning = st.last_flood_warning := s2.trans e2
      have htr : trace_since st (mod_hook_leave sw.2.2 (mod_hook_result sw.1 sw.2.1) now) =
          (if st.last_pulse = 0 ∨ now - st.last_pulse > 15 then [effect.node_send_ctrl_active]
            else []) ++ mid ++
          (if mod_hook_result sw.1 sw.2.1 < 0 ∧ now - st.last_flood_warning > 30
            then [effect.lwarn_flooded] else []) := by
        apply trace_since_append
        rw [l3, s3, e3, hlfw]
        simp only [List.append_assoc]
      have hmid1 : effect.node_send_ctrl_active ∉ mid := fun hm => (s4 _ hm).1 rfl
      have hmid2 : effect.lwarn_flooded ∉ mid := fun hm => (s4 _ hm).2 rfl
      have hhb : effect.node_send_ctrl_active ∈
          trace_since st (mod_hook_leave sw.2.2 (mod_hook_result sw.1 sw.2.1) now) ↔
          (st.last_pulse = 0 ∨ now - st.last_pulse > 15) := by
        rw [htr]
        simp only [List.mem_append]
        constructor
        · rintro ((h1 | h1) | h1)
          · by_contra hc
            rw [if_neg hc] at h1
            cases h1
          · exact absurd h1 hmid1
          · split_ifs at h1
            · simp at h1
            · cases h1
        · intro hc
          rw [if_pos hc]
          exact Or.inl (Or.inl (List.mem_singleton_self _))
      have hwarn : effect.lwarn_flooded ∈
          trace_since st (mod_hook_leave sw.2.2 (mod_hook_result sw.1 sw.2.1) now) ↔
          (mod_hook_result sw.1 sw.2.1 < 0 ∧ now - st.last_flood_warning > 30) := by
        rw [htr]
        simp only [List.mem_append]
        constructor
        · rintro ((h1 | h1) | h1)
          · split_ifs at h1
            · simp at h1
            · cases h1
          · exact absurd h1 hmid2
          · by_contra hc
            rw [if_neg hc] at h1
            cases h1
        · intro hc
          rw [if_pos hc]
          exact Or.inr (List.mem_singleton_self _)
      refine ⟨hcb, ?_, hhb, ?_, ?_⟩
      · show (mod_hook_leave sw.2.2 _ now).last_pulse = now
        rw [l1, s1, e1]
      · show _ ↔ (mod_hook_neb_result sw.1 sw.2.1).return_code < 0 ∧ _
        rw [mod_hook_neb_result_code]
        exact hwarn
      · show (mod_hook_leave sw.2.2 _ now).last_flood_warning = _
        rw [l2, hlfw]
        by_cases hc : mod_hook_result sw.1 sw.2.1 < 0 ∧ now - st.last_flood_warning > 30
        · rw [if_pos hc, if_pos (hwarn.mpr hc)]
        · rw [if_neg hc, if_neg (fun hm => hc (hwarn.mp hm))]

theorem run_calls_cons (st : State) (c : hook_call) (rest : List hook_call)
    (recs : List hook_record) (fin : State)
    (h : run_calls st (c :: rest) = some (recs, fin)) :
    ∃ r rs, merlin_mod_hook c.env st c.cb (some c.data) c.now = some r ∧
      run_calls r.2 rest = some (rs, fin) ∧
      recs = { now := c.now, return_code := r.1.return_code, calls := trace_since st r.2 } :: rs := by
  rw [run_calls] at h
  cases hr : merlin_mod_hook c.env st c.cb (some c.data) c.now with
  | none => rw [hr] at h; cases h
  | some r =>
    rw [hr] at h
    simp only [] at h
    cases hrs : run_calls r.2 rest with
    | none => rw [hrs] at h; cases h
    | some rs =>
      rw [hrs] at h
      cases h
      exact ⟨r, rs.1, rfl, hrs, rfl⟩

theorem heartbeat_times_cons (rec : hook_record) (rs : List hook_record) :
    heartbeat_times (rec :: rs) =
      if effect.node_send_ctrl_active ∈ rec.calls then rec.now :: heartbeat_times rs
      else heartbeat_times rs := by
  unfold heartbeat_times
  by_cases h : effect.node_send_ctrl_active ∈ rec.calls
  · rw [if_pos h, List.filter_cons_of_pos (by simpa using h)]
    rfl
  · rw [if_neg h, List.filter_cons_of_neg (by simpa using h)]

theorem warning_times_cons (rec : hook_record) (rs : List hook_record) :
    warning_times (rec :: rs) =
      if effect.lwarn_flooded ∈ rec.calls then rec.now :: warning_times rs
      else warning_times rs := by
  unfold warning_times
  by_cases h : effect.lwarn_flooded ∈ rec.calls
  · rw [if_pos h, List.filter_cons_of_pos (by simpa using h)]
    rfl
  · rw [if_neg h, List.filter_cons_of_neg (by simpa using h)]

/-- After the pulse time has been set to a reading not before `L`, every later
heartbeat is sent more than 15 seconds after `L`. -/
theorem heartbeat_after (calls : List hook_call) :
    ∀ (st : State) (recs : List hook_record) (fin : State) (L : Int),
      run_calls st calls = some (recs, fin) → st.last_pulse ≠ 0 → L ≤ st.last_pulse →
      (∀ c ∈ calls, L ≤ c.now ∧ 0 < c.now) →
      ∀ b ∈ heartbeat_times recs, b - L > 15 := by
  induction calls with
  | nil =>
    intro st recs fin L hrun _ _ _ b hb
    rw [run_calls] at hrun
    cases hrun
    cases hb
  | cons c rest ih =>
    intro st recs fin L hrun hnz hL hcalls b hb
    obtain ⟨r, rs, hr, hrs, rfl⟩ := run_calls_cons st c rest recs fin hrun
    have hc := hcalls c (List.mem_cons_self _ _)
    have hrest : ∀ c2 ∈ rest, L ≤ c2.now ∧ 0 < c2.now :=
      fun c2 h2 => hcalls c2 (List.mem_cons_of_mem _ h2)
    have hstep := merlin_mod_hook_step c.env st c.cb c.data c.now r hr
    have hlater : ∀ b ∈ heartbeat_times rs, b - L > 15 := by
      rcases hstep with ⟨_, hst⟩ | ⟨_, hp, _, _, _⟩
      · exact ih r.2 rs fin L hrs (by rw [hst]; exact hnz) (by rw [hst]; exact hL) hrest
      · exact ih r.2 rs fin L hrs (by rw [hp]; exact ne_of_gt hc.2) (by rw [hp]; exact hc.1) hrest
    rw [heartbeat_times_cons] at hb
    split_ifs at hb with hmem
    · rcases List.mem_cons.mp hb with hb1 | hb1
      · rcases hstep with ⟨_, hst⟩ | ⟨_, _, hhb, _, _⟩
        · rw [hst] at hmem
          simp [trace_since] at hmem
        · rcases hhb.mp hmem with h0 | h15
          · exact absurd h0 hnz
          · rw [hb1]
            show c.now - L > 15
            omega
      · exact hlater b hb1
    · exact hlater b hb

/-- After the warning time has been set to a reading not before `L`, every
later warning is issued more than 30 seconds after `L`. -/
theorem warning_after (calls : List hook_call) :
    ∀ (st : State) (recs : List hook_record) (fin : State) (L : Int),
      run_calls st calls = some (recs, fin) → L ≤ st.last_flood_warning →
      (∀ c ∈ calls, L ≤ c.now) →
      ∀ b ∈ warning_times recs, b - L > 30 := by
  induction calls with
  | nil =>
    intro st recs fin L hrun _ _ b hb
    rw [run_calls] at hrun
    cases hrun
    cases hb
  | cons c rest ih =>
    intro st recs fin L hrun hL hcalls b hb
    obtain ⟨r, rs, hr, hrs, rfl⟩ := run_calls_cons st c rest recs fin hrun
    have hc := hcalls c (List.mem_cons_self _ _)
    have hrest : ∀ c2 ∈ rest, L ≤ c2.now := fun c2 h2 => hcalls c2 (List.mem_cons_of_mem _ h2)
    have hstep := merlin_mod_hook_step c.env st c.cb c.data c.now r hr
    have hlater : ∀ b ∈ warning_times rs, b - L > 30 := by
      rcases hstep with ⟨_, hst⟩ | ⟨_, _, _, _, hw⟩
      · exact ih r.2 rs fin L hrs (by rw [hst]; exact hL) hrest
      · refine ih r.2 rs fin L hrs ?_ hrest
        rw [hw]
        split_ifs
        · exact hc
        · exact hL
    rw [warning_times_cons] at hb
    split_ifs at hb with hmem
    · rcases List.mem_cons.mp hb with hb1 | hb1
      · rcases hstep with ⟨_, hst⟩ | ⟨_, _, _, hwi, _⟩
        · rw [hst] at hmem
          simp [trace_since] at hmem
        · have h30 := (hwi.mp hmem).2
          rw [hb1]
          show c.now - L > 30
          omega
      · exact hlater b hb1
    · exact hlater b hb

/-- C29. Over every sequence of defined `merlin_mod_hook` calls with non-NULL
data and non-decreasing positive clock readings: when the pulse time is 0 at
the start, as in a freshly loaded module, the first call, if its callback id is
valid, sends the heartbeat; the clock readings of any two calls that send a
heartbeat are more than 15 seconds apart; the clock readings of any two calls
that issue the flood warning are more than 30 seconds apart; and a call that
issues the warning returns a negative return code. -/
theorem heartbeat_rate (st : State) (calls : List hook_call) (recs : List hook_record)
    (fin : State)
    (hmono : calls.Pairwise (fun a b => a.now ≤ b.now))
    (hpos : ∀ c ∈ calls, 0 < c.now)
    (hrun : run_calls st calls = some (recs, fin)) :
    (st.last_pulse = 0 → ∀ c rest, calls = c :: rest →
      0 ≤ c.cb → c.cb < NEBCALLBACK_NUMITEMS →
      ∃ rec rs, recs = rec :: rs ∧ rec.now = c.now ∧
        effect.node_send_ctrl_active ∈ rec.calls) ∧
    (heartbeat_times recs).Pairwise (fun a b => b - a > 15) ∧
    (warning_times recs).Pairwise (fun a b => b - a > 30) ∧
    (∀ rec ∈ recs, effect.lwarn_flooded ∈ rec.calls → rec.return_code < 0) := by
  refine ⟨?_, ?_, ?_, ?_⟩
  · intro h0 c rest hcalls hlo hhi
    subst hcalls
    obtain ⟨r, rs, hr, _, rfl⟩ := run_calls_cons st c rest recs fin hrun
    refine ⟨_, rs, rfl, rfl, ?_⟩
    rcases merlin_mod_hook_step c.env st c.cb c.data c.now r hr with ⟨hbad, _⟩ | ⟨_, _, hhb, _, _⟩
    · exfalso
      rcases hbad with hb | hb
      · omega
      · have : c.cb < (NEBCALLBACK_NUMITEMS : Int) := hhi
        omega
    · exact hhb.mpr (Or.inl h0)
  · have hposall : ∀ (calls : List hook_call) (st : State) (recs : List hook_record),
        calls.Pairwise (fun a b => a.now ≤ b.now) → (∀ c ∈ calls, 0 < c.now) →
        run_calls st calls = some (recs, fin) →
        (heartbeat_times recs).Pairwise (fun a b => b - a > 15) := by
      intro calls
      induction calls with
      | nil =>
        intro st recs _ _ hrun
        rw [run_calls] at hrun
        cases hrun
        exact List.Pairwise.nil
      | cons c rest ih =>
        intro st recs hmono hpos hrun
        obtain ⟨r, rs, hr, hrs, rfl⟩ := run_calls_cons st c rest recs fin hrun
        have hm := List.pairwise_cons.mp hmono
        have hposrest : ∀ c2 ∈ rest, 0 < c2.now := fun c2 h2 => hpos c2 (List.mem_cons_of_mem _ h2)
        have htail := ih r.2 rs hm.2 hposrest hrs
        rw [heartbeat_times_cons]
        split_ifs with hmem
        · refine List.pairwise_cons.mpr ⟨?_, htail⟩
          have hc := hpos c (List.mem_cons_self _ _)
          rcases merlin_mod_hook_step c.env st c.cb c.data c.now r hr with
            ⟨_, hst⟩ | ⟨_, hp, _, _, _⟩
          · exfalso
            rw [hst] at hmem
            simp [trace_since] at hmem
          · exact heartbeat_after rest r.2 rs fin c.now hrs (by rw [hp]; exact ne_of_gt hc)
              (by rw [hp]) (fun c2 h2 => ⟨hm.1 c2 h2, hposrest c2 h2⟩)
        · exact htail
    exact hposall calls st recs hmono hpos hrun
  · have hall : ∀ (calls : List hook_call) (st : State) (recs : List hook_record),
        calls.Pairwise (fun a b => a.now ≤ b.now) →
        run_calls st calls = some (recs, fin) →
        (warning_times recs).Pairwise (fun a b => b - a > 30) := by
      intro calls
      induction calls with
      | nil =>
        intro st recs _ hrun
        rw [run_calls] at hrun
        cases hrun
        exact List.Pairwise.nil
      | cons c rest ih =>
        intro st recs hmono hrun
        obtain ⟨r, rs, hr, hrs, rfl⟩ := run_calls_cons st c rest recs fin hrun
        have hm := List.pairwise_cons.mp hmono
        have htail := ih r.2 rs hm.2 hrs
        rw [warning_times_cons]
        split_ifs with hmem
        · refine List.pairwise_cons.mpr ⟨?_, htail⟩
          rcases merlin_mod_hook_step c.env st c.cb c.data c.now r hr with
            ⟨_, hst⟩ | ⟨_, _, _, _, hw⟩
          · exfalso
            rw [hst] at hmem
            simp [trace_since] at hmem
          · exact warning_after rest r.2 rs fin c.now hrs
              (by rw [hw, if_pos hmem]) (fun c2 h2 => hm.1 c2 h2)
        · exact htail
    exact hall calls st recs hmono hrun
  · have hall : ∀ (calls : List hook_call) (st : State) (recs : List hook_record),
        run_calls st calls = some (recs, fin) →
        ∀ rec ∈ recs, effect.lwarn_flooded ∈ rec.calls → rec.return_code < 0 := by
      intro calls
      induction calls with
      | nil =>
        intro st recs hrun rec hrec
        rw [run_calls] at hrun
        cases hrun
        cases hrec
      | cons c rest ih =>
        intro st recs hrun rec hrec hmem
        obtain ⟨r, rs, hr, hrs, rfl⟩ := run_calls_cons st c rest recs fin hrun
        rcases List.mem_cons.mp hrec with h1 | h1
        · subst h1
          rcases merlin_mod_hook_step c.env st c.cb c.data c.now r hr with
            ⟨_, hst⟩ | ⟨_, _, _, hwi, _⟩
          · exfalso
            rw [hst] at hmem
            simp [trace_since] at hmem
          · exact (hwi.mp hmem).1
        · exact ih r.2 rs hrs rec h1 hmem
    exact hall calls st recs hrun

/-- Three flapping callbacks on the sample node with the failing codec, at the
readings 1000, 1010 and 1040, from a freshly loaded module: the first and the
third call send the heartbeat and issue the flood warning, the second does
neither. -/
theorem heartbeat_rate_witness :
    heartbeat_times ((run_calls State.init sample_calls).getD ([], State.init)).1
      = [1000, 1040] ∧
    warning_times ((run_calls State.init sample_calls).getD ([], State.init)).1
      = [1000, 1040] ∧
    ((run_calls State.init sample_calls).getD ([], State.init)).1.map
      (fun r => r.return_code) = [-1, -1, -1] ∧
    (heartbeat_times ((run_calls State.init sample_calls).getD ([], State.init)).1).Pairwise
      (fun a b => b - a > 15) ∧
    (warning_times ((run_calls State.init sample_calls).getD ([], State.init)).1).Pairwise
      (fun a b => b - a > 30) := by
  have h := heartbeat_rate State.init sample_calls
    ((run_calls State.init sample_calls).getD ([], State.init)).1
    ((run_calls State.init sample_calls).getD ([], State.init)).2
    (by decide) (by decide) rfl
  exact ⟨by decide, by decide, by decide, h.2.1, h.2.2.1⟩

/-! ## Flushing the held notification -/

theorem flush_notification_occupied (env : Env) (st : State) (held : nebstruct_notification_data)
    (h : st.tmp_notif_data = some held) :
    flush_notification env st =
      (0, { (send_generic env st st.tmp_notif_pkt (.notification held)).2.2 with
            tmp_notif_pkt := (send_generic env st st.tmp_notif_pkt (.notification held)).2.1,
            tmp_notif_data := none }) := by
  unfold flush_notification
  rw [h]

theorem hook_host_result_processed_slot (env : Env) (st : State) (pkt : merlin_event)
    (hd : nebstruct_host_check_data) (hp : hd.type = NEBTYPE_HOSTCHECK_PROCESSED)
    (hrecv : env.merlin_recv_host ≠ some hd.object_ptr.ptr) :
    (hook_host_result env st pkt hd).2.tmp_notif_data = none := by
  unfold hook_host_result
  rw [if_neg (by rw [hp]; decide), if_pos hp, if_neg hrecv]
  exact flush_notification_slot _ _

theorem hook_service_result_processed_slot (env : Env) (st : State) (pkt : merlin_event)
    (sd : nebstruct_service_check_data) (hp : sd.type = NEBTYPE_SERVICECHECK_PROCESSED)
    (hrecv : env.merlin_recv_service ≠ some sd.object_ptr.ptr) :
    (hook_service_result env st pkt sd).2.tmp_notif_data = none := by
  unfold hook_service_result
  rw [if_neg (by rw [hp]; decide), if_pos hp, if_neg hrecv]
  exact flush_notification_slot _ _

/-- The run of the entry point for a host check callback with host check data. -/
theorem merlin_mod_hook_host_check (env : Env) (st : State) (hd : nebstruct_host_check_data)
    (now : Int) :
    merlin_mod_hook env st NEBCALLBACK_HOST_CHECK_DATA (some (.host_check hd)) now =
      some (mod_hook_neb_result none
          (hook_host_result env (mod_hook_enter st now)
            (mod_hook_pkt env NEBCALLBACK_HOST_CHECK_DATA) hd).1,
        mod_hook_leave
          (hook_host_result env (mod_hook_enter st now)
            (mod_hook_pkt env NEBCALLBACK_HOST_CHECK_DATA) hd).2
          (mod_hook_result none
            (hook_host_result env (mod_hook_enter st now)
              (mod_hook_pkt env NEBCALLBACK_HOST_CHECK_DATA) hd).1) now) := by
  unfold merlin_mod_hook
  simp only []
  rw [if_neg (by decide)]
  unfold mod_hook_switch
  rw [if_neg (by decide), if_neg (by decide), if_pos rfl]

/-- The run of the entry point for a service check callback with service check data. -/
theorem merlin_mod_hook_service_check (env : Env) (st : State)
    (sd : nebstruct_service_check_data) (now : Int) :
    merlin_mod_hook env st NEBCALLBACK_SERVICE_CHECK_DATA (some (.service_check sd)) now =
      some (mod_hook_neb_result none
          (hook_service_result env (mod_hook_enter st now)
            (mod_hook_pkt env NEBCALLBACK_SERVICE_CHECK_DATA) sd).1,
        mod_hook_leave
          (hook_service_result env (mod_hook_enter st now)
            (mod_hook_pkt env NEBCALLBACK_SERVICE_CHECK_DATA) sd).2
          (mod_hook_result none
            (hook_service_result env (mod_hook_enter st now)
              (mod_hook_pkt env NEBCALLBACK_SERVICE_CHECK_DATA) sd).1) now) := by
  unfold merlin_mod_hook
  simp only []
  rw [if_neg (by decide)]
  unfold mod_hook_switch
  rw [if_neg (by decide), if_neg (by decide), if_neg (by decide), if_pos rfl]

/-- C31. With an empty hold slot `flush_notification` returns -1 and leaves the
state, trace included, as it was. With an occupied slot it returns 0, the calls
it makes are those of one `send_generic` run on the held packet with the held
data, and it leaves the slot empty, whatever `send_generic` has returned. Hence
after a PROCESSED host or service check result that is not the re-injected one,
the slot is empty, both after the hook and after the run of the entry point,
which is defined. -/
theorem flush_semantics (env : Env) (st : State) (pkt : merlin_event)
    (hd : nebstruct_host_check_data) (sd : nebstruct_service_check_data) (now : Int) :
    (st.tmp_notif_data = none → flush_notification env st = (-1, st)) ∧
    (∀ held, st.tmp_notif_data = some held →
      (flush_notification env st).1 = 0 ∧
      (flush_notification env st).2.tmp_notif_data = none ∧
      (flush_notification env st).2.trace =
        (send_generic env st st.tmp_notif_pkt (.notification held)).2.2.trace ∧
      flush_notification env st =
        (0, { (send_generic env st st.tmp_notif_pkt (.notification held)).2.2 with
              tmp_notif_pkt := (send_generic env st st.tmp_notif_pkt (.notification held)).2.1,
              tmp_notif_data := none })) ∧
    (hd.type = NEBTYPE_HOSTCHECK_PROCESSED → env.merlin_recv_host ≠ some hd.object_ptr.ptr →
      (hook_host_result env st pkt hd).2.tmp_notif_data = none ∧
      (merlin_mod_hook env st NEBCALLBACK_HOST_CHECK_DATA (some (.host_check hd)) now).map
        (fun r => r.2.tmp_notif_data) = some none) ∧
    (sd.type = NEBTYPE_SERVICECHECK_PROCESSED →
      env.merlin_recv_service ≠ some sd.object_ptr.ptr →
      (hook_service_result env st pkt sd).2.tmp_notif_data = none ∧
      (merlin_mod_hook env st NEBCALLBACK_SERVICE_CHECK_DATA (some (.service_check sd)) now).map
        (fun r => r.2.tmp_notif_data) = some none) := by
  refine ⟨flush_notification_empty env st, ?_, ?_, ?_⟩
  · intro held h
    have hf := flush_notification_occupied env st held h
    refine ⟨?_, flush_notification_slot env st, ?_, hf⟩
    · rw [hf]
    · rw [hf]
  · intro hp hrecv
    refine ⟨hook_host_result_processed_slot env st pkt hd hp hrecv, ?_⟩
    rw [merlin_mod_hook_host_check, Option.map_some']
    show some (mod_hook_leave _ _ now).tmp_notif_data = some none
    rw [(mod_hook_leave_slot _ _ _).1, hook_host_result_processed_slot env _ _ hd hp hrecv]
  · intro hp hrecv
    refine ⟨hook_service_result_processed_slot env st pkt sd hp hrecv, ?_⟩
    rw [merlin_mod_hook_service_check, Option.map_some']
    show some (mod_hook_leave _ _ now).tmp_notif_data = some none
    rw [(mod_hook_leave_slot _ _ _).1, hook_service_result_processed_slot env _ _ sd hp hrecv]

/-- On the sample node: a flush of the freshly loaded module returns -1; a flush
of the state that holds the sample notification returns 0, sends the held
packet to the daemon, the master and the peer, and empties the slot; and after
a PROCESSED service check result delivered in that state the slot is empty. -/
theorem flush_semantics_witness :
    flush_notification sample_env State.init = (-1, State.init) ∧
    (flush_notification sample_env held_state).1 = 0 ∧
    (flush_notification sample_env held_state).2.tmp_notif_data = none ∧
    sent_packets (trace_since held_state (flush_notification sample_env held_state).2)
      = [sample_sent 5 0 0xfff6, sample_sent 5 0 0xfff6, sample_sent 5 0 0xfff6] ∧
    (merlin_mod_hook sample_env held_state NEBCALLBACK_SERVICE_CHECK_DATA
      (some (.service_check (sample_service_check NEBTYPE_SERVICECHECK_PROCESSED))) 1001).map
        (fun r => r.2.tmp_notif_data) = some none := by
  have h := flush_semantics sample_env State.init (sample_pkt 6)
    (sample_host_check NEBTYPE_HOSTCHECK_PROCESSED)
    (sample_service_check NEBTYPE_SERVICECHECK_PROCESSED) 1001
  have h2 := flush_semantics sample_env held_state (sample_pkt 6)
    (sample_host_check NEBTYPE_HOSTCHECK_PROCESSED)
    (sample_service_check NEBTYPE_SERVICECHECK_PROCESSED) 1001
  have hheld := h2.2.1 (notification_end_data
    (sample_notification NEBTYPE_NOTIFICATION_END NOTIFICATION_NORMAL)) (by decide)
  exact ⟨h.1 rfl, hheld.1, hheld.2.1, by decide, (h2.2.2.2 rfl (by decide)).2⟩

/-! ## One notifying node among peers -/

/-- A local NOTIFICATION_START for an actively checked object, with reason
NORMAL, on a node with peers that is not blocked by a master: allowed exactly
when `should_run_check` says the node owns the object. -/
theorem hook_notification_local_owner (env : Env) (st : State) (pkt : merlin_event)
    (ds : nebstruct_notification_data)
    (hstart : ds.type = NEBTYPE_NOTIFICATION_START)
    (hlocal : env.merlin_sender = none)
    (hmaster : ¬(env.online_masters ≠ 0 ∧ env.ipc_flags &&& env.MERLIN_NODE_NOTIFIES = 0))
    (hpeers : env.num_peers ≠ 0)
    (hactive : ds.object_ptr.check_type ≠ CHECK_TYPE_PASSIVE)
    (hreason : ds.reason_type = NOTIFICATION_NORMAL) :
    (hook_notification env st pkt ds).1.map (fun r => r.return_code) =
      some (if should_run_check env ds.object_ptr.id = true then 0
        else NEBERROR_CALLBACKCANCEL) := by
  have hne : ds.type ≠ NEBTYPE_NOTIFICATION_END := by
    rw [hstart]; decide
  unfold hook_notification
  rw [if_neg hne, if_neg (by simp [hstart])]
  simp only [Option.map_some', Option.some.injEq]
  unfold hook_notification_start
  rw [if_neg hmaster, hlocal]
  show (hook_notification_start_local env st ds).1.return_code = _
  unfold hook_notification_start_local
  rw [if_neg (fun h => hactive h.1), if_neg hpeers,
    if_neg (by rw [hreason]; decide)]
  by_cases hown : should_run_check env ds.object_ptr.id = true
  · rw [if_pos (Or.inr hown), if_pos hown]
    rfl
  · rw [if_neg (fun h => h.elim hpeers hown), if_neg hown]
    rfl

/-- C32. Nodes with peer ids 0 .. n-1, where n = active_peers + 1 fits the
unsigned arithmetic, that share the ownership function, each have peers, are
not blocked by a master, and each handle the same local NOTIFICATION_START for
an actively checked object with reason NORMAL: when assigned_peer(id, n) lies
in [0, n), the node with that peer id allows the notification (return code 0),
every other node cancels it (NEBERROR_CALLBACKCANCEL), so exactly one node
allows it. -/
theorem notification_exclusivity (node : Nat → Env) (st : Nat → State)
    (pkt : Nat → merlin_event) (ds : nebstruct_notification_data) (n : Nat)
    (assigned : Nat → Nat → Nat)
    (hn : n < 4294967296)
    (hnodes : ∀ k, k < n →
      (node k).ipc_peer_id = k ∧ (node k).ipc_active_peers + 1 = n ∧
      (node k).assigned_peer = assigned ∧ (node k).num_peers ≠ 0 ∧
      (node k).merlin_sender = none ∧
      ¬((node k).online_masters ≠ 0 ∧
        (node k).ipc_flags &&& (node k).MERLIN_NODE_NOTIFIES = 0))
    (hstart : ds.type = NEBTYPE_NOTIFICATION_START)
    (hactive : ds.object_ptr.check_type ≠ CHECK_TYPE_PASSIVE)
    (hreason : ds.reason_type = NOTIFICATION_NORMAL)
    (howner : assigned ds.object_ptr.id n < n) :
    (∀ k, k < n →
      (k = assigned ds.object_ptr.id n →
        (hook_notification (node k) (st k) (pkt k) ds).1.map (fun r => r.return_code)
          = some 0) ∧
      (k ≠ assigned ds.object_ptr.id n →
        (hook_notification (node k) (st k) (pkt k) ds).1.map (fun r => r.return_code)
          = some NEBERROR_CALLBACKCANCEL)) ∧
    (∃! k, k < n ∧
      (hook_notification (node k) (st k) (pkt k) ds).1.map (fun r => r.return_code) = some 0) := by
  have hcode : ∀ k, k < n →
      (hook_notification (node k) (st k) (pkt k) ds).1.map (fun r => r.return_code) =
        some (if assigned ds.object_ptr.id n = k then 0 else NEBERROR_CALLBACKCANCEL) := by
    intro k hk
    obtain ⟨h1, h2, h3, h4, h5, h6⟩ := hnodes k hk
    rw [hook_notification_local_owner (node k) (st k) (pkt k) ds hstart h5 h6 h4 hactive hreason]
    have hu : u32 ((node k).ipc_active_peers + 1) = n := by
      rw [h2]
      exact Nat.mod_eq_of_lt hn
    simp only [should_run_check, hu, h3, h1, decide_eq_true_eq]
  have hall : ∀ k, k < n →
      (k = assigned ds.object_ptr.id n →
        (hook_notification (node k) (st k) (pkt k) ds).1.map (fun r => r.return_code)
          = some 0) ∧
      (k ≠ assigned ds.object_ptr.id n →
        (hook_notification (node k) (st k) (pkt k) ds).1.map (fun r => r.return_code)
          = some NEBERROR_CALLBACKCANCEL) := by
    intro k hk
    rw [hcode k hk]
    exact ⟨fun h => by rw [if_pos h.symm], fun h => by rw [if_neg (fun h2 => h h2.symm)]⟩
  refine ⟨hall, assigned ds.object_ptr.id n, ⟨howner, (hall _ howner).1 rfl⟩, ?_⟩
  rintro k ⟨hk, hallow⟩
  by_contra hne
  rw [(hall k hk).2 hne] at hallow
  exact absurd (Option.some.inj hallow) (by decide)

/-- Two peers, with ids 0 and 1, on the configuration of the sample node: the
notification for the service with id 7 is allowed on peer 1, which owns it, and
cancelled on peer 0. -/
theorem notification_exclusivity_witness :
    (hook_notification (peer_node 1) State.init (sample_pkt 5)
      (sample_notification NEBTYPE_NOTIFICATION_START NOTIFICATION_NORMAL)).1.map
        (fun r => r.return_code) = some 0 ∧
    (hook_notification (peer_node 0) State.init (sample_pkt 5)
      (sample_notification NEBTYPE_NOTIFICATION_START NOTIFICATION_NORMAL)).1.map
        (fun r => r.return_code) = some NEBERROR_CALLBACKCANCEL := by
  have h := (notification_exclusivity peer_node (fun _ => State.init) (fun _ => sample_pkt 5)
    (sample_notification NEBTYPE_NOTIFICATION_START NOTIFICATION_NORMAL) 2
    (fun id n => id % n) (by decide)
    (fun k _ => ⟨rfl, rfl, rfl, (show sample_env.num_peers ≠ 0 by decide), rfl,
      (show ¬(sample_env.online_masters ≠ 0 ∧
        sample_env.ipc_flags &&& sample_env.MERLIN_NODE_NOTIFIES = 0) by decide)⟩)
    rfl (by decide) rfl (by decide)).1
  exact ⟨(h 1 (by decide)).1 (by decide), (h 0 (by decide)).2 (by decide)⟩

/-! ## The cleared dedup slot -/

/-- With an all-zero dedup slot the size comparison of `is_dupe` fails for every
packet of non-zero length, so `is_dupe` answers 0 and changes nothing. -/
theorem is_dupe_cleared (env : Env) (st : State) (p : merlin_event)
    (hzero : st.last_pkt = zero_event) (hlen : p.hdr.len ≠ 0) :
    is_dupe env st p = (false, st) := by
  unfold is_dupe
  have hsize : packet_size env st.last_pkt ≠ packet_size env p := by
    rw [hzero]
    unfold packet_size
    show 0 + env.HDR_SIZE ≠ p.hdr.len + env.HDR_SIZE
    omega
  split_ifs
  · rfl
  · rfl
  · rfl

theorem send_generic_dupes_of_reaches (env : Env) (st : State) (pkt : merlin_event)
    (data : event_body) (h : (is_dupe env st (encode_packet env pkt data)).1 = false) :
    (send_generic env st pkt data).2.2.dupes = st.dupes ∧
    (send_generic env st pkt data).2.2.dupe_bytes = st.dupe_bytes := by
  have hst := is_dupe_false_state _ _ _ h
  rw [send_generic_unfold]
  split_ifs with h1 h2 h3
  · exact ⟨rfl, rfl⟩
  · exact ⟨rfl, rfl⟩
  · rw [h] at h3
    cases h3
  · rw [hst]
    obtain ⟨lp, tr, hl⟩ := local_emit_frame env st (encode_packet env pkt data)
    show ((local_emit env st (encode_packet env pkt data)).emit _).dupes = _ ∧
      ((local_emit env st (encode_packet env pkt data)).emit _).dupe_bytes = _
    rw [hl]
    exact ⟨rfl, rfl⟩

/-- C33. While the dedup slot `last_pkt` is all zero, `is_dupe` returns 0 for
every packet of non-zero length and changes nothing, whether duplicate checking
is on or off; so a packet that passes the early drop and the codec reaches the
local emit, and the duplicate counters stay as they are. The slot is all zero
in the freshly loaded module, and after a `send_generic` run whose
`ipc_send_event` has failed. -/
theorem cleared_slot_never_matches (env : Env) (st st0 : State) (pkt pkt0 : merlin_event)
    (data data0 : event_body)
    (hzero : st.last_pkt = zero_event) :
    (∀ p, p.hdr.len ≠ 0 → is_dupe env st p = (false, st)) ∧
    (early_drop env pkt = false → (encode_packet env pkt data).hdr.len ≠ 0 →
      reaches_emit env st pkt data ∧
      (send_generic env st pkt data).2.2.dupes = st.dupes ∧
      (send_generic env st pkt data).2.2.dupe_bytes = st.dupe_bytes) ∧
    State.init.last_pkt = zero_event ∧
    (env.daemon_wants pkt0.hdr.type = true → (encode_packet env pkt0 data0).hdr.len ≠ 0 →
      (is_dupe env st0 (encode_packet env pkt0 data0)).1 = false →
      env.ipc_send_event st0.trace (encode_packet env pkt0 data0) < 0 →
      (send_generic env st0 pkt0 data0).2.2.last_pkt = zero_event) := by
  refine ⟨fun p hp => is_dupe_cleared env st p hzero hp, ?_, rfl, ?_⟩
  · intro hdrop hlen
    have hd : (is_dupe env st (encode_packet env pkt data)).1 = false := by
      rw [is_dupe_cleared env st _ hzero hlen]
    exact ⟨⟨hdrop, hlen, hd⟩, send_generic_dupes_of_reaches env st pkt data hd⟩
  · intro hwant hlen hnodup hipc
    exact (send_generic_ipc_failure env st0 pkt0 data0 hwant hlen hnodup hipc).1

/-- On the sample node with the backlogged daemon: with duplicate checking on
and the slot of the freshly loaded module, a process-data packet (kind 0, the
kind the all-zero slot shows) is not a duplicate; and after the failed send of
a comment packet the slot is all zero again. -/
theorem cleared_slot_never_matches_witness :
    (is_dupe flooded_env { State.init with check_dupes := true }
      (sample_sent 0 0xffff 0xffff)).1 = false ∧
    (send_generic flooded_env State.init (sample_pkt 8) (.other 0)).2.2.last_pkt = zero_event := by
  have h := cleared_slot_never_matches flooded_env { State.init with check_dupes := true }
    State.init (sample_pkt_with 0 0xffff 0xffff) (sample_pkt 8) (.other 0) (.other 0) rfl
  exact ⟨by rw [h.1 _ (by decide)], h.2.2.2 (by decide) (by decide) (by decide) (by decide)⟩

/-! ## Where duplicate checking is on -/

theorem hook_comment_cases (env : Env) (st : State) (pkt : merlin_event)
    (ds : nebstruct_comment_data) (r : Int × State) (h : hook_comment env st pkt ds = some r) :
    r.2 = st ∨ ∃ p d, r.2 = (send_generic env st p d).2.2 := by
  unfold hook_comment at h
  split_ifs at h
  · cases h; exact Or.inl rfl
  · cases h; exact Or.inl rfl
  · split at h
    · cases h
    · cases h; exact Or.inr ⟨_, _, rfl⟩
    · cases h; exact Or.inr ⟨_, _, rfl⟩

/-- For the callbacks that do not go through a status sender, the `switch` of
the entry point leaves the state alone or runs `send_generic` once, from the
state it was entered in. -/
theorem mod_hook_switch_plain (env : Env) (st : State) (pkt : merlin_event) (cb : Int)
    (data : event_body) (sw : Option neb_cb_result × Int × State)
    (hkind : plain_send_callback env cb data)
    (h : mod_hook_switch env st pkt cb data = some sw) :
    sw.2.2 = st ∨ ∃ p d, sw.2.2 = (send_generic env st p d).2.2 := by
  unfold mod_hook_switch at h
  rcases hkind with hc | hc | hc | hc | hc | hc | hc | ⟨hc, ds, hd, hend, hdirect⟩ <;> subst hc
  · rw [if_neg (by decide), if_neg (by decide), if_neg (by decide), if_neg (by decide),
      if_pos rfl] at h
    split at h
    · rename_i ds
      cases hx : hook_comment env st pkt ds with
      | none => rw [hx] at h; cases h
      | some x => rw [hx] at h; cases h; exact hook_comment_cases env st pkt ds x hx
    · cases h
  · rw [if_neg (by decide), if_neg (by decide), if_neg (by decide), if_neg (by decide),
      if_neg (by decide), if_pos rfl] at h
    split at h
    · cases h
      unfold hook_downtime
      split_ifs
      · exact Or.inl rfl
      · exact Or.inr ⟨_, _, rfl⟩
    · cases h
  · rw [if_neg (by decide), if_neg (by decide), if_neg (by decide), if_neg (by decide),
      if_neg (by decide), if_neg (by decide), if_pos rfl] at h
    split at h
    · rename_i ds
      cases hx : hook_external_command env st pkt ds with
      | none => rw [hx] at h; cases h
      | some x =>
        rw [hx] at h
        cases h
        rcases hook_external_command_cases env st pkt ds x hx with h1 | ⟨p, c, h1⟩
        · exact Or.inl h1
        · rw [h1]
          exact Or.inr ⟨_, _, rfl⟩
    · cases h
  · rw [if_neg (by decide), if_pos rfl] at h
    split at h
    · cases h
      unfold hook_contact_notification_method
      split_ifs
      · exact Or.inl rfl
      · exact Or.inr ⟨_, _, rfl⟩
    · cases h
  · rw [if_neg (by decide), if_neg (by decide), if_neg (by decide), if_neg (by decide),
      if_neg (by decide), if_neg (by decide), if_neg (by decide), if_pos (by decide)] at h
    cases h
    exact Or.inr ⟨_, _, rfl⟩
  · rw [if_neg (by decide), if_neg (by decide), if_neg (by decide), if_neg (by decide),
      if_neg (by decide), if_neg (by decide), if_neg (by decide), if_pos (by decide)] at h
    cases h
    exact Or.inr ⟨_, _, rfl⟩
  · rw [if_neg (by decide), if_neg (by decide), if_neg (by decide), if_neg (by decide),
      if_neg (by decide), if_neg (by decide), if_neg (by decide), if_pos (by decide)] at h
    cases h
    exact Or.inr ⟨_, _, rfl⟩
  · rw [if_pos rfl, hd] at h
    cases h
    right
    refine ⟨notification_end_pkt env pkt, .notification (notification_end_data ds), ?_⟩
    show (hook_notification env st pkt ds).2 = _
    unfold hook_notification
    rw [if_pos hend]
    unfold hook_notification_end
    rw [if_pos hdirect]

theorem mod_hook_enter_dupes (st : State) (now : Int) :
    (mod_hook_enter st now).check_dupes = false ∧
    (mod_hook_enter st now).dupes = st.dupes ∧
    (mod_hook_enter st now).dupe_bytes = st.dupe_bytes := by
  unfold mod_hook_enter
  split_ifs <;> exact ⟨rfl, rfl, rfl⟩

theorem mod_hook_leave_dupes (st : State) (result now : Int) :
    (mod_hook_leave st result now).check_dupes = st.check_dupes ∧
    (mod_hook_leave st result now).dupes = st.dupes ∧
    (mod_hook_leave st result now).dupe_bytes = st.dupe_bytes := by
  unfold mod_hook_leave
  split_ifs <;> exact ⟨rfl, rfl, rfl⟩

theorem send_generic_check_dupes (env : Env) (st : State) (pkt : merlin_event)
    (data : event_body) :
    (send_generic env st pkt data).2.2.check_dupes = st.check_dupes := by
  obtain ⟨lp, d, db, tr, h⟩ := send_generic_frame env st pkt data
  rw [h]

theorem note_check_dupes (st : State) (obj : Nat) :
    ((note_host st obj).check_dupes = true ↔ st.last_obj_host = some obj) ∧
    ((note_service st obj).check_dupes = true ↔ st.last_obj_service = some obj) := by
  unfold note_host note_service
  constructor
  · by_cases h : st.last_obj_host = some obj
    · rw [if_pos h]
      exact ⟨fun _ => h, fun _ => rfl⟩
    · rw [if_neg h]
      exact ⟨fun hc => (by cases hc), fun hc => absurd hc h⟩
  · by_cases h : st.last_obj_service = some obj
    · rw [if_pos h]
      exact ⟨fun _ => h, fun _ => rfl⟩
    · rw [if_neg h]
      exact ⟨fun hc => (by cases hc), fun hc => absurd hc h⟩

/-- C34. Every accepted call of `merlin_mod_hook` switches duplicate checking
off before the `switch`, and the status senders switch it on exactly when the
object is the one of their previous call. So in a defined run for a comment,
downtime, external command, contact notification method, flapping, program
status or process callback, or for a NOTIFICATION_END that is sent at once,
`send_generic` is run at most once, from the state the `switch` was entered in,
where `is_dupe` answers 0 for every packet whatever the dedup slot holds; the
duplicate counters are as before and duplicate checking is still off after the
call. -/
theorem only_status_packets_deduplicated (env : Env) (st : State) (cb : Int)
    (data : event_body) (now : Int) (r : neb_cb_result × State) (obj : Nat)
    (hkind : plain_send_callback env cb data)
    (hrun : merlin_mod_hook env st cb (some data) now = some r) :
    (mod_hook_enter st now).check_dupes = false ∧
    (∀ p, is_dupe env (mod_hook_enter st now) p = (false, mod_hook_enter st now)) ∧
    (∃ res, r.2 = mod_hook_leave (mod_hook_enter st now) res now ∨
      ∃ p d, r.2 = mod_hook_leave (send_generic env (mod_hook_enter st now) p d).2.2 res now) ∧
    r.2.dupes = st.dupes ∧ r.2.dupe_bytes = st.dupe_bytes ∧ r.2.check_dupes = false ∧
    ((note_host st obj).check_dupes = true ↔ st.last_obj_host = some obj) ∧
    ((note_service st obj).check_dupes = true ↔ st.last_obj_service = some obj) := by
  obtain ⟨e1, e2, e3⟩ := mod_hook_enter_dupes st now
  have hoff : ∀ p, is_dupe env (mod_hook_enter st now) p = (false, mod_hook_enter st now) :=
    fun p => is_dupe_off env _ p e1
  have hrange : ¬(cb < 0 ∨ cb > NEBCALLBACK_NUMITEMS) := by
    rcases hkind with hc | hc | hc | hc | hc | hc | hc | ⟨hc, _⟩ <;> subst hc <;> decide
  unfold merlin_mod_hook at hrun
  simp only [] at hrun
  rw [if_neg hrange] at hrun
  cases hsw : mod_hook_switch env (mod_hook_enter st now) (mod_hook_pkt env cb) cb data with
  | none => rw [hsw] at hrun; cases hrun
  | some sw =>
    rw [hsw] at hrun
    cases hrun
    obtain ⟨l1, l2, l3⟩ := mod_hook_leave_dupes sw.2.2 (mod_hook_result sw.1 sw.2.1) now
    refine ⟨e1, hoff, ?_, ?_, ?_, ?_, (note_check_dupes st obj).1, (note_check_dupes st obj).2⟩
    · refine ⟨mod_hook_result sw.1 sw.2.1, ?_⟩
      rcases mod_hook_switch_plain env _ _ cb data sw hkind hsw with h | ⟨p, d, h⟩
      · exact Or.inl (by rw [← h])
      · exact Or.inr ⟨p, d, by rw [← h]⟩
    · show (mod_hook_leave sw.2.2 _ now).dupes = st.dupes
      rw [l2]
      rcases mod_hook_switch_plain env _ _ cb data sw hkind hsw with h | ⟨p, d, h⟩
      · rw [h, e2]
      · rw [h, (send_generic_dupes_of_reaches env _ p d (by rw [hoff])).1, e2]
    · show (mod_hook_leave sw.2.2 _ now).dupe_bytes = st.dupe_bytes
      rw [l3]
      rcases mod_hook_switch_plain env _ _ cb data sw hkind hsw with h | ⟨p, d, h⟩
      · rw [h, e3]
      · rw [h, (send_generic_dupes_of_reaches env _ p d (by rw [hoff])).2, e3]
    · show (mod_hook_leave sw.2.2 _ now).check_dupes = false
      rw [l1]
      rcases mod_hook_switch_plain env _ _ cb data sw hkind hsw with h | ⟨p, d, h⟩
      · rw [h, e1]
      · rw [h, send_generic_check_dupes, e1]

/-- On the sample node the same comment LOAD event arrives a second time while
the dedup slot holds its packet and duplicate checking is on: the packet is
sent again to the daemon, the master and the peer, and the duplicate counter
stays at 0. -/
theorem only_status_packets_deduplicated_witness :
    commented_state.last_pkt.hdr = (sample_sent 8 0 0xfff6).hdr ∧
    commented_state.check_dupes = true ∧
    sent_packets (trace_since commented_state
      (run_hook sample_env commented_state NEBCALLBACK_COMMENT_DATA
        (some (.comment (sample_comment NEBTYPE_COMMENT_LOAD))) 1001).2)
      = [sample_sent 8 0 0xfff6, sample_sent 8 0 0xfff6, sample_sent 8 0 0xfff6] ∧
    (run_hook sample_env commented_state NEBCALLBACK_COMMENT_DATA
      (some (.comment (sample_comment NEBTYPE_COMMENT_LOAD))) 1001).2.dupes = 0 := by
  have h := only_status_packets_deduplicated sample_env commented_state
    NEBCALLBACK_COMMENT_DATA (.comment (sample_comment NEBTYPE_COMMENT_LOAD)) 1001
    (run_hook sample_env commented_state NEBCALLBACK_COMMENT_DATA
      (some (.comment (sample_comment NEBTYPE_COMMENT_LOAD))) 1001) 0 (Or.inl rfl) rfl
  exact ⟨by decide, rfl, by decide, h.2.2.2.1⟩

end Merlin
